import Mathlib

/-!
The `impactacquiresrc` element: capability negotiation and frame delivery.

A shallow embedding of `sys/balluff/gstimpactacquiresrc.c` and
`sys/balluff/impactacquirepixelformat.h`.

* C strings are `String`s: the characters before the terminating NUL.
* The device property tree is a record of the two string properties the
  negotiation touches; every write done through `setPropS` is appended to a
  write log.
* Proposed caps are represented by the outcome of `gst_caps_is_subset` against
  each caps string of the catalog.
-/

set_option autoImplicit false

namespace ImpactAcquire

/-! ## glib string helpers -/

/-- `ISUPPER (c)` of glib: `(c) >= 'A' && (c) <= 'Z'`, on character codes. -/
def ISUPPER (c : Nat) : Bool := decide (65 ≤ c) && decide (c ≤ 90)

/-- `TOLOWER (c)` of glib: `ISUPPER (c) ? (c) - 'A' + 'a' : (c)`. -/
def TOLOWER (c : Nat) : Nat := if ISUPPER c then c - 65 + 97 else c

/-- The character a C string pointer points at: the code of the head, NUL at the end. -/
def deref : List Char → Nat
  | [] => 0
  | c :: _ => c.toNat

/-- `G_MAXSIZE`: the value the `gsize` argument `-1` converts to (64-bit `gsize`). -/
def G_MAXSIZE : Nat := 18446744073709551615

/-- `g_ascii_strncasecmp (s1, s2, n)` of glib:
`while (n && *s1 && *s2) { n -= 1; c1 = TOLOWER (*s1); c2 = TOLOWER (*s2);
  if (c1 != c2) return c1 - c2; s1++; s2++; }
 if (n) return *s1 - *s2; else return 0;` -/
def g_ascii_strncasecmp : List Char → List Char → Nat → Int
  | c1 :: s1, c2 :: s2, n + 1 =>
    if TOLOWER c1.toNat ≠ TOLOWER c2.toNat then
      (TOLOWER c1.toNat : Int) - (TOLOWER c2.toNat : Int)
    else g_ascii_strncasecmp s1 s2 n
  | _, _, 0 => 0
  | [], s2, _ + 1 => (deref [] : Int) - (deref s2 : Int)
  | c1 :: s1, [], _ + 1 => (deref (c1 :: s1) : Int) - (deref [] : Int)

/-- `g_str_has_prefix (str, prefix)` of glib: `strncmp (str, prefix, strlen (prefix)) == 0`. -/
def g_str_has_prefix (str pre : String) : Bool := pre.data.isPrefixOf str.data

/-! ## Device property model -/

/-- Result codes of the property-handling calls. -/
inductive TPROPHANDLING_ERROR where
  | PROPHANDLING_NO_ERROR
  | PROPHANDLING_ERROR
  deriving DecidableEq, Repr

open TPROPHANDLING_ERROR

/-- A string-valued device property with a translation dictionary.
`value = none`: `OBJ_GetSFormattedEx` reports an error.
`dict = none`: `OBJ_GetDictSize` reports an error; otherwise the list holds, per
index, what `OBJ_GetIDictEntry` yields (`none`: that call reports an error). -/
structure PropertyS where
  value : Option String
  dict : Option (List (Option String))
  deriving DecidableEq, Repr

/-- A property handle; `none` is `INVALID_ID`. -/
abbrev HOBJ := Option PropertyS

/-- `OBJ_GetDictSize (hProp, &dictSize)` together with the entries the following
`OBJ_GetIDictEntry` calls read, index by index. -/
def OBJ_GetDict : HOBJ → TPROPHANDLING_ERROR × List (Option String)
  | some p =>
    match p.dict with
    | some d => (PROPHANDLING_NO_ERROR, d)
    | none => (PROPHANDLING_ERROR, [])
  | none => (PROPHANDLING_ERROR, [])

/-- The `for (i = 0; i < dictSize; i++)` loop of `boDeviceFeatureAvailableInList`,
over the entries still to be read, carrying `boFeatureFound` and `objResult`. -/
def boDeviceFeatureAvailableInList_loop (strFeature : String) :
    List (Option String) → Bool → TPROPHANDLING_ERROR → Bool × TPROPHANDLING_ERROR
  | [], boFeatureFound, objResult => (boFeatureFound, objResult)
  | some propStr :: rest, _, _ =>
    let boFeatureFound := decide (g_ascii_strncasecmp strFeature.data propStr.data G_MAXSIZE = 0)
    if boFeatureFound then (boFeatureFound, PROPHANDLING_NO_ERROR)
    else boDeviceFeatureAvailableInList_loop strFeature rest boFeatureFound PROPHANDLING_NO_ERROR
  | none :: rest, boFeatureFound, _ =>
    boDeviceFeatureAvailableInList_loop strFeature rest boFeatureFound PROPHANDLING_ERROR

/-- `boDeviceFeatureAvailableInList (hProp, strFeature)`. -/
def boDeviceFeatureAvailableInList (hProp : HOBJ) (strFeature : String) : Bool :=
  match OBJ_GetDict hProp with
  | (PROPHANDLING_NO_ERROR, entries) =>
    let r := boDeviceFeatureAvailableInList_loop strFeature entries false PROPHANDLING_NO_ERROR
    r.1 && decide (r.2 = PROPHANDLING_NO_ERROR)
  | (objResult, _) => false && decide (objResult = PROPHANDLING_NO_ERROR)

/-- `OBJ_GetSFormattedEx (hProp, buf, &bufSize, 0, 0)`: the formatted value, `none` on error. -/
def OBJ_GetSFormattedEx : HOBJ → Option String
  | some p => p.value
  | none => none

/-- The two device properties `gst_impactacquiresrc_set_caps` writes. -/
inductive DeviceProperty where
  /-- `getSettingProp (driverHandle, "Base", "PixelFormat")`: the device source format. -/
  | ImageFormatControl_PixelFormat
  /-- `PixelFormat` in the `ImageDestination` list: the conversion-stage format. -/
  | ImageDestination_PixelFormat
  deriving DecidableEq, Repr

/-- The part of the device property tree the negotiation works on.
`ImageDestinationPixelFormat = none`: `OBJ_GetHandleEx` on the `ImageDestination`
list fails. `writes` logs every `setPropS` call in order. -/
structure Device where
  ImageFormatControlPixelFormat : PropertyS
  ImageDestinationPixelFormat : Option PropertyS
  writes : List (DeviceProperty × String)
  deriving DecidableEq, Repr

/-- `setPropS (hProp, value, 0)` of the SDK helper: it returns once the value is
written, so the property then holds `value`. -/
def setPropS (dev : Device) (hProp : DeviceProperty) (value : String) : Device :=
  match hProp with
  | DeviceProperty.ImageFormatControl_PixelFormat =>
    { dev with
      ImageFormatControlPixelFormat := { dev.ImageFormatControlPixelFormat with value := some value }
      writes := dev.writes ++ [(hProp, value)] }
  | DeviceProperty.ImageDestination_PixelFormat =>
    { dev with
      ImageDestinationPixelFormat :=
        dev.ImageDestinationPixelFormat.map (fun p => { p with value := some value })
      writes := dev.writes ++ [(hProp, value)] }

/-! ## The format catalog (`impactacquirepixelformat.h`) -/

/-- The caps strings of the catalog, by the builder that produces them. -/
inductive CapsString where
  | GST_VIDEO_CAPS_MAKE (format : String)
  | GST_GENICAM_PIXEL_FORMAT_MAKE_BAYER8 (format : String)
  | GST_GENICAM_PIXEL_FORMAT_MAKE_BAYER16 (format : String) (endianness : String)
  deriving DecidableEq, Repr

/-- `GstImpactAcquirePixelFormatInfo`. -/
structure GstImpactAcquirePixelFormatInfo where
  pixel_format : String
  image_destination_pixel_format : String
  endianness : Int
  gst_pixel_format : String
  gst_caps_string : CapsString
  bpp : Int
  depth : Int
  row_multiple : Int
  deriving DecidableEq, Repr

def G_LITTLE_ENDIAN : Int := 1234

def G_BIG_ENDIAN : Int := 4321

open CapsString in
/-- `gst_impactacquire_pixel_format_infos[]`, the entries that are not commented out. -/
def gst_impactacquire_pixel_format_infos : List GstImpactAcquirePixelFormatInfo :=
  [ ⟨"Mono8", "Mono8", 0, "GRAY8", GST_VIDEO_CAPS_MAKE "GRAY8", 8, 8, 4⟩,
    ⟨"Mono16", "Mono16", G_LITTLE_ENDIAN, "GRAY16_LE", GST_VIDEO_CAPS_MAKE "GRAY16_LE", 16, 16, 4⟩,
    ⟨"Mono16", "Mono16", G_BIG_ENDIAN, "GRAY16_BE", GST_VIDEO_CAPS_MAKE "GRAY16_BE", 16, 16, 4⟩,
    ⟨"BayerRG8", "Raw", 0, "rggb", GST_GENICAM_PIXEL_FORMAT_MAKE_BAYER8 "rggb", 8, 8, 1⟩,
    ⟨"BayerRG16", "Raw", 0, "rggb16", GST_GENICAM_PIXEL_FORMAT_MAKE_BAYER16 "rggb16" "1234", 16, 16, 1⟩,
    ⟨"BayerGR8", "Raw", 0, "grbg", GST_GENICAM_PIXEL_FORMAT_MAKE_BAYER8 "grbg", 8, 8, 1⟩,
    ⟨"BayerGR16", "Raw", 0, "grbg16", GST_GENICAM_PIXEL_FORMAT_MAKE_BAYER16 "grbg16" "1234", 16, 16, 1⟩,
    ⟨"RGB8", "BGR888Packed", 0, "RGB", GST_VIDEO_CAPS_MAKE "RGB", 24, 24, 4⟩,
    ⟨"RGB8Packed", "BGR888Packed", 0, "RGB", GST_VIDEO_CAPS_MAKE "RGB", 24, 24, 4⟩,
    ⟨"BGR8", "RGB888Packed", 0, "BGR", GST_VIDEO_CAPS_MAKE "BGR", 24, 24, 4⟩,
    ⟨"BGR8Packed", "RGB888Packed", 0, "BGR", GST_VIDEO_CAPS_MAKE "BGR", 24, 24, 4⟩,
    ⟨"BGRa8", "RGBx888Packed", 0, "BGRA", GST_VIDEO_CAPS_MAKE "BGRA", 32, 32, 4⟩,
    ⟨"BGRA8Packed", "RGBx888Packed", 0, "BGRA", GST_VIDEO_CAPS_MAKE "BGRA", 32, 32, 4⟩,
    ⟨"BGRa8", "RGBx888Packed", 0, "BGRx", GST_VIDEO_CAPS_MAKE "BGRx", 32, 32, 4⟩,
    ⟨"BGRA8Packed", "RGBx888Packed", 0, "BGRx", GST_VIDEO_CAPS_MAKE "BGRx", 32, 32, 4⟩,
    ⟨"YUV422Packed", "YUV422_UYVYPacked", 0, "UYVY", GST_VIDEO_CAPS_MAKE "UYVY", 16, 16, 4⟩,
    ⟨"YUV422_YUYVPacked", "YUV422_UYVYPacked", 0, "UYVY", GST_VIDEO_CAPS_MAKE "UYVY", 16, 16, 4⟩,
    ⟨"YUV8_UYV", "YUV444_UYVPacked", 0, "IYU2", GST_VIDEO_CAPS_MAKE "IYU2", 24, 24, 4⟩,
    ⟨"YUV444Packed", "YUV444_UYVPacked", 0, "IYU2", GST_VIDEO_CAPS_MAKE "IYU2", 24, 24, 4⟩,
    ⟨"YUV422_8", "YUV422_UYVYPacked", 0, "UYVY", GST_VIDEO_CAPS_MAKE "UYVY", 16, 16, 4⟩,
    ⟨"YUV422_8_UYVY", "YUV422_UYVYPacked", 0, "UYVY", GST_VIDEO_CAPS_MAKE "UYVY", 16, 16, 4⟩ ]

/-- Proposed caps, given by the verdict of
`gst_caps_is_subset (caps, gst_caps_from_string (s))` for every caps string `s`. -/
structure GstCaps where
  is_subset_of : CapsString → Bool

/-- `gst_caps_is_subset (caps, super_caps)` of GStreamer. -/
def gst_caps_is_subset (caps : GstCaps) (super_caps : CapsString) : Bool :=
  caps.is_subset_of super_caps

/-- Caps `video/x-raw, format=F` with width, height and framerate fixed inside the
ranges of `GST_VIDEO_CAPS_MAKE`: a subset of `GST_VIDEO_CAPS_MAKE (F)` and of no
other caps string of the catalog. -/
def video_caps (format : String) : GstCaps :=
  ⟨fun s => decide (s = CapsString.GST_VIDEO_CAPS_MAKE format)⟩

/-- Caps `video/x-bayer, format=F` with fixed width, height and framerate and no
`bpp` or `endianness` field: a subset of `GST_GENICAM_PIXEL_FORMAT_MAKE_BAYER8 (F)`
and of no other caps string of the catalog. -/
def bayer8_caps (format : String) : GstCaps :=
  ⟨fun s => decide (s = CapsString.GST_GENICAM_PIXEL_FORMAT_MAKE_BAYER8 format)⟩

/-! ## The element (`gstimpactacquiresrc.h`) -/

/-- `struct _GstImpactAcquireSrc`: the integer, boolean and string members.
`frameNumber` is a `guint64`, `failedFrames`, `width`, `height`, `offsetx`,
`offsety` and `deviceId` are `gint`, `deviceHandle` (`HDEV`) and `driverHandle`
(`HDRV`) are integer handles. -/
structure GstImpactAcquireSrc where
  deviceId : Int
  serialNumber : String
  deviceHandle : Int
  driverHandle : Int
  deviceConnected : Bool
  boAcquisitionRunning : Bool
  frameNumber : Nat
  failedFrames : Int
  width : Int
  height : Int
  offsetx : Int
  offsety : Int
  dest_pixel_format : String
  src_pixel_format : String
  gst_pixel_format : String
  boDebayerOnHost : Bool
  configurationFilePath : String
  deriving DecidableEq, Repr

/-- `INVALID_ID`, the handle value that stands for no object. -/
def INVALID_ID : Int := -1

def DEFAULT_PROP_SERIAL : String := ""

def DEFAULT_PROP_SIZE : Int := 0

def DEFAULT_PROP_OFFSET : Int := 0

def DEFAULT_PROP_DESTINATION_PIXEL_FORMAT : String := "Raw"

def DEFAULT_PROP_SOURCE_PIXEL_FORMAT : String := "Auto"

def DEFAULT_PROP_GST_PIXEL_FORMAT : String := "GRAY8"

def DEFAULT_PROP_CONFIGURATION_FILE_PATH : String := ""

/-- `gst_impactacquiresrc_init`: the defaults of a new element. -/
def gst_impactacquiresrc_init : GstImpactAcquireSrc :=
  { deviceId := 0
    serialNumber := DEFAULT_PROP_SERIAL
    deviceHandle := INVALID_ID
    driverHandle := INVALID_ID
    deviceConnected := false
    boAcquisitionRunning := false
    frameNumber := 0
    failedFrames := 0
    width := DEFAULT_PROP_SIZE
    height := DEFAULT_PROP_SIZE
    offsetx := DEFAULT_PROP_OFFSET
    offsety := DEFAULT_PROP_OFFSET
    dest_pixel_format := DEFAULT_PROP_DESTINATION_PIXEL_FORMAT
    src_pixel_format := DEFAULT_PROP_SOURCE_PIXEL_FORMAT
    gst_pixel_format := DEFAULT_PROP_GST_PIXEL_FORMAT
    boDebayerOnHost := false
    configurationFilePath := DEFAULT_PROP_CONFIGURATION_FILE_PATH }

/-! ## Negotiation: `gst_impactacquiresrc_set_caps` -/

/-- The read-back `if (OBJ_GetSFormattedEx (...) == PROPHANDLING_NO_ERROR)
src->src_pixel_format = g_strdup (buf);` of the two conversion branches. -/
def read_back_src_pixel_format (src : GstImpactAcquireSrc) (dev : Device) : GstImpactAcquireSrc :=
  match OBJ_GetSFormattedEx (some dev.ImageFormatControlPixelFormat) with
  | some buf => { src with src_pixel_format := buf }
  | none => src

/-- The body of the `for` loop of `gst_impactacquiresrc_set_caps` for one catalog
entry; the first component is `boMatchPixelFormat` after the body. -/
def set_caps_entry (caps : GstCaps) (info : GstImpactAcquirePixelFormatInfo)
    (src : GstImpactAcquireSrc) (dev : Device) : Bool × GstImpactAcquireSrc × Device :=
  if gst_caps_is_subset caps info.gst_caps_string then
    if src.boDebayerOnHost && ! g_str_has_prefix info.pixel_format "Mono"
        && ! g_str_has_prefix info.pixel_format "Bayer"
        && boDeviceFeatureAvailableInList dev.ImageDestinationPixelFormat
            info.image_destination_pixel_format then
      -- the image color will be debayered by the impact acquire driver
      let src1 := read_back_src_pixel_format src dev
      let src2 := { src1 with dest_pixel_format := info.image_destination_pixel_format }
      let dev1 := setPropS dev DeviceProperty.ImageDestination_PixelFormat src2.dest_pixel_format
      (true, { src2 with gst_pixel_format := info.gst_pixel_format }, dev1)
    else if boDeviceFeatureAvailableInList (some dev.ImageFormatControlPixelFormat)
        info.pixel_format then
      -- no pixel format conversion by the impact acquire driver is needed
      let src1 := { src with src_pixel_format := info.pixel_format }
      let src2 := { src1 with dest_pixel_format := DEFAULT_PROP_DESTINATION_PIXEL_FORMAT }
      let dev1 := setPropS dev DeviceProperty.ImageFormatControl_PixelFormat src2.src_pixel_format
      let dev2 := setPropS dev1 DeviceProperty.ImageDestination_PixelFormat src2.dest_pixel_format
      (true, { src2 with gst_pixel_format := info.gst_pixel_format }, dev2)
    else if ! g_str_has_prefix info.pixel_format "Bayer"
        && boDeviceFeatureAvailableInList dev.ImageDestinationPixelFormat
            info.image_destination_pixel_format then
      -- pixel format conversion by the impact acquire driver is needed
      let src1 := read_back_src_pixel_format src dev
      let src2 := { src1 with dest_pixel_format := info.image_destination_pixel_format }
      let dev1 := setPropS dev DeviceProperty.ImageDestination_PixelFormat src2.dest_pixel_format
      (true, { src2 with gst_pixel_format := info.gst_pixel_format }, dev1)
    else (false, src, dev)
  else (false, src, dev)

/-- What a call of `gst_impactacquiresrc_set_caps` leaves behind: the return value,
the element, the device, and the indices `i` for which the loop body ran. -/
structure SetCapsResult where
  ret : Bool
  src : GstImpactAcquireSrc
  dev : Device
  visited : List Nat
  deriving DecidableEq, Repr

/-- The `for (i = 0; i < G_N_ELEMENTS (...); i++)` loop of
`gst_impactacquiresrc_set_caps` over the entries from index `i` on, leaving at the
`break` of the first entry that sets `boMatchPixelFormat`. -/
def set_caps_loop (caps : GstCaps) :
    List GstImpactAcquirePixelFormatInfo → Nat → GstImpactAcquireSrc → Device → List Nat →
      SetCapsResult
  | [], _, src, dev, visited => ⟨false, src, dev, visited⟩
  | info :: rest, i, src, dev, visited =>
    match set_caps_entry caps info src dev with
    | (true, src1, dev1) => ⟨true, src1, dev1, visited ++ [i]⟩
    | (false, src1, dev1) => set_caps_loop caps rest (i + 1) src1 dev1 (visited ++ [i])

/-- `gst_impactacquiresrc_set_caps (bsrc, caps)`. -/
def gst_impactacquiresrc_set_caps (src : GstImpactAcquireSrc) (dev : Device) (caps : GstCaps) :
    SetCapsResult :=
  match dev.ImageDestinationPixelFormat with
  | none => ⟨false, src, dev, []⟩
  | some _ => set_caps_loop caps gst_impactacquire_pixel_format_infos 0 src dev []


/-! ## Acquisition: the driver interface -/

/-- Result codes of the `DMR_` calls. -/
inductive TDMR_ERROR where
  | DMR_NO_ERROR
  | DEV_NO_FREE_REQUEST_AVAILABLE
  | DMR_ERROR (code : Int)
  deriving DecidableEq, Repr

/-- `RequestResult.result`: `rrOK` or another request status. -/
inductive TRequestResult where
  | rrOK
  | rrNotOK (code : Int)
  deriving DecidableEq, Repr

/-- `ImageBuffer`: the members `gst_impactacquiresrc_create` reads. -/
structure ImageBuffer where
  vpData : Nat
  iSize : Int
  pixelFormat : Int
  deriving DecidableEq, Repr

/-- `CurrentRequestInfo`; the `src` member is the element the call runs on. -/
structure CurrentRequestInfo where
  requestNr : Int
  deriving DecidableEq, Repr

/-- A `GstBuffer` made by `gst_buffer_new_wrapped_full`: the wrapped memory, the
`user_data` handed to the destroy notify `release_frame_buffer`, and the
`guint64` members `GST_BUFFER_OFFSET` and `GST_BUFFER_OFFSET_END`. -/
structure GstBuffer where
  data : Nat
  maxsize : Int
  mem_offset : Int
  size : Int
  user_data : Option CurrentRequestInfo
  offset : Nat
  offset_end : Nat
  deriving DecidableEq, Repr

/-- `GST_BUFFER_OFFSET_NONE`, the offsets of a new buffer. -/
def GST_BUFFER_OFFSET_NONE : Nat := 18446744073709551615

/-- The conversion of an integer argument to `gsize` (64 bits, unsigned). -/
def to_gsize (v : Int) : Int := v % 18446744073709551616

/-- `gst_buffer_new_wrapped_full (GST_MEMORY_FLAG_READONLY, data, maxsize, offset,
size, user_data, release_frame_buffer)`. The parameters `maxsize`, `offset` and
`size` are `gsize`: the `int` arguments of the caller are converted on the way in. -/
def gst_buffer_new_wrapped_full (data : Nat) (maxsize mem_offset size : Int)
    (user_data : CurrentRequestInfo) : GstBuffer :=
  ⟨data, to_gsize maxsize, to_gsize mem_offset, to_gsize size, some user_data,
    GST_BUFFER_OFFSET_NONE, GST_BUFFER_OFFSET_NONE⟩

/-- `GstFlowReturn`, the two values the element returns. -/
inductive GstFlowReturn where
  | GST_FLOW_OK
  | GST_FLOW_ERROR
  deriving DecidableEq, Repr

/-- The device subsystem behind `driverHandle`: a state `σ` and what each call
answers and does to it. -/
structure Driver (σ : Type) where
  DMR_ImageRequestSingle : σ → TDMR_ERROR × σ
  DMR_AcquisitionStart : σ → TDMR_ERROR × σ
  DMR_AcquisitionStop : σ → TDMR_ERROR × σ
  DMR_ImageRequestReset : σ → TDMR_ERROR × σ
  DMR_ImageRequestWaitFor : σ → Int → TDMR_ERROR × Int × σ
  DMR_GetImageRequestResultEx : σ → Int → TDMR_ERROR × TRequestResult × σ
  DMR_GetImageRequestBuffer : σ → Int → TDMR_ERROR × ImageBuffer × σ
  DMR_ImageRequestUnlock : σ → Int → TDMR_ERROR × σ
  setSystemSettingI : σ → String → Int → σ

/-- One call made on the driver or on GStreamer, with its arguments and status. -/
inductive Call where
  | ImageRequestSingle (result : TDMR_ERROR)
  | AcquisitionStart (result : TDMR_ERROR)
  | AcquisitionStop (result : TDMR_ERROR)
  | ImageRequestReset (result : TDMR_ERROR)
  | ImageRequestWaitFor (timeout_ms : Int) (result : TDMR_ERROR) (requestNr : Int)
  | GetImageRequestResultEx (requestNr : Int) (result : TDMR_ERROR) (requestResult : TRequestResult)
  | GetImageRequestBuffer (requestNr : Int) (result : TDMR_ERROR)
  | ImageRequestUnlock (requestNr : Int) (result : TDMR_ERROR)
  | setPropI (name : String) (value : Int)
  | buffer_new_wrapped_full (user_data : CurrentRequestInfo)
  deriving DecidableEq, Repr

/-- The device state together with the calls made so far, oldest first. -/
structure World (σ : Type) where
  dev : σ
  calls : List Call

section driver

variable {σ : Type} (drv : Driver σ)

def ImageRequestSingle (w : World σ) : TDMR_ERROR × World σ :=
  let r := drv.DMR_ImageRequestSingle w.dev
  (r.1, ⟨r.2, w.calls ++ [Call.ImageRequestSingle r.1]⟩)

def AcquisitionStart (w : World σ) : TDMR_ERROR × World σ :=
  let r := drv.DMR_AcquisitionStart w.dev
  (r.1, ⟨r.2, w.calls ++ [Call.AcquisitionStart r.1]⟩)

def AcquisitionStop (w : World σ) : TDMR_ERROR × World σ :=
  let r := drv.DMR_AcquisitionStop w.dev
  (r.1, ⟨r.2, w.calls ++ [Call.AcquisitionStop r.1]⟩)

def ImageRequestReset (w : World σ) : TDMR_ERROR × World σ :=
  let r := drv.DMR_ImageRequestReset w.dev
  (r.1, ⟨r.2, w.calls ++ [Call.ImageRequestReset r.1]⟩)

def ImageRequestWaitFor (w : World σ) (timeout_ms : Int) : TDMR_ERROR × Int × World σ :=
  let r := drv.DMR_ImageRequestWaitFor w.dev timeout_ms
  (r.1, r.2.1, ⟨r.2.2, w.calls ++ [Call.ImageRequestWaitFor timeout_ms r.1 r.2.1]⟩)

def GetImageRequestResultEx (w : World σ) (requestNr : Int) :
    TDMR_ERROR × TRequestResult × World σ :=
  let r := drv.DMR_GetImageRequestResultEx w.dev requestNr
  (r.1, r.2.1, ⟨r.2.2, w.calls ++ [Call.GetImageRequestResultEx requestNr r.1 r.2.1]⟩)

def GetImageRequestBuffer (w : World σ) (requestNr : Int) : TDMR_ERROR × ImageBuffer × World σ :=
  let r := drv.DMR_GetImageRequestBuffer w.dev requestNr
  (r.1, r.2.1, ⟨r.2.2, w.calls ++ [Call.GetImageRequestBuffer requestNr r.1]⟩)

def ImageRequestUnlock (w : World σ) (requestNr : Int) : TDMR_ERROR × World σ :=
  let r := drv.DMR_ImageRequestUnlock w.dev requestNr
  (r.1, ⟨r.2, w.calls ++ [Call.ImageRequestUnlock requestNr r.1]⟩)

/-- `setPropI (getSystemSettingProp (driverHandle, name), value, 0)`. -/
def setPropI (w : World σ) (name : String) (value : Int) : World σ :=
  ⟨drv.setSystemSettingI w.dev name value, w.calls ++ [Call.setPropI name value]⟩

/-! ## Acquisition start -/

/-- `gint` addition, wrapping in two's complement. -/
def gint_add (a b : Int) : Int := (a + b + 2147483648) % 4294967296 - 2147483648

/-- `guint64` addition. -/
def guint64_add (a b : Nat) : Nat := (a + b) % 18446744073709551616

/-- `while ((result = DMR_ImageRequestSingle (driverHandle, 0, 0)) == DMR_NO_ERROR);`
with at most `fuel` requests; `none` when the loop is still running after them. -/
def priming_loop : Nat → World σ → Option (TDMR_ERROR × World σ)
  | 0, _ => none
  | fuel + 1, w =>
    let r := ImageRequestSingle drv w
    if r.1 = TDMR_ERROR.DMR_NO_ERROR then priming_loop fuel r.2 else some r

/-- `gst_impactacquiresrc_start_acquisition (src)`; `none` when priming is not
over within `fuel` requests. -/
def gst_impactacquiresrc_start_acquisition (fuel : Nat) (src : GstImpactAcquireSrc)
    (w : World σ) : Option (Bool × GstImpactAcquireSrc × World σ) :=
  let w0 :=
    if g_ascii_strncasecmp src.gst_pixel_format.data "BGRA".data G_MAXSIZE = 0 then
      setPropI drv (setPropI drv w "MemoryInitEnable" 1) "MemoryInitValue" 255
    else w
  match priming_loop drv fuel w0 with
  | none => none
  | some (_, w1) =>
    -- a status other than DEV_NO_FREE_REQUEST_AVAILABLE is logged only
    let r := AcquisitionStart drv w1
    if r.1 ≠ TDMR_ERROR.DMR_NO_ERROR then
      some (src.boAcquisitionRunning, src, r.2)
    else
      let src1 := { src with frameNumber := 0, failedFrames := 0, boAcquisitionRunning := true }
      some (src1.boAcquisitionRunning, src1, r.2)

/-! ## Frame delivery -/

/-- `release_frame_buffer (data)`: unlock the request, then one new fill request. -/
def release_frame_buffer (currentRequestInfo : CurrentRequestInfo) (w : World σ) : World σ :=
  let w1 := (ImageRequestUnlock drv w currentRequestInfo.requestNr).2
  (ImageRequestSingle drv w1).2

/-- The branch of `gst_impactacquiresrc_create` a call went through. -/
inductive CreatePath where
  | start_failed
  | wait_failed
  | result_query_failed
  | result_not_ok
  | buffer_fetch_failed
  | delivered
  deriving DecidableEq, Repr

/-- What a call of `gst_impactacquiresrc_create` leaves behind. `ret = none`: the
call does not return, it writes `GST_BUFFER_OFFSET (*buf)` through a `NULL`
`*buf`; the other members then hold the state at that write. -/
structure CreateResult (σ : Type) where
  ret : Option GstFlowReturn
  src : GstImpactAcquireSrc
  buf : Option GstBuffer
  w : World σ
  path : CreatePath

/-- `gst_impactacquiresrc_create` from `const gint timeout_ms = 500;` on. `buf` is
`*buf` at entry, `none` for `NULL`. -/
def create_wait (src : GstImpactAcquireSrc) (buf : Option GstBuffer) (w : World σ) :
    CreateResult σ :=
  let timeout_ms : Int := 500
  let r := ImageRequestWaitFor drv w timeout_ms
  let requestNr := r.2.1
  if r.1 = TDMR_ERROR.DMR_NO_ERROR then
    let currentRequestInfo : CurrentRequestInfo := ⟨requestNr⟩
    -- check if the request contains a valid image
    let q := GetImageRequestResultEx drv r.2.2 requestNr
    let branch : GstImpactAcquireSrc × Option GstBuffer × World σ × CreatePath :=
      if q.1 = TDMR_ERROR.DMR_NO_ERROR ∧ q.2.1 = TRequestResult.rrOK then
        let g := GetImageRequestBuffer drv q.2.2 requestNr
        let pIB := g.2.1
        if g.1 = TDMR_ERROR.DMR_NO_ERROR then
          (src,
            some (gst_buffer_new_wrapped_full pIB.vpData pIB.iSize 0 pIB.iSize currentRequestInfo),
            ⟨g.2.2.dev, g.2.2.calls ++ [Call.buffer_new_wrapped_full currentRequestInfo]⟩,
            CreatePath.delivered)
        else
          ({ src with failedFrames := gint_add src.failedFrames 1 }, buf,
            release_frame_buffer drv currentRequestInfo g.2.2, CreatePath.buffer_fetch_failed)
      else
        ({ src with failedFrames := gint_add src.failedFrames 1 }, buf,
          release_frame_buffer drv currentRequestInfo q.2.2,
          if q.1 = TDMR_ERROR.DMR_NO_ERROR then CreatePath.result_not_ok
          else CreatePath.result_query_failed)
    let src1 := branch.1
    match branch.2.1 with
    | none => ⟨none, src1, none, branch.2.2.1, branch.2.2.2⟩
    | some b =>
      let b1 := { b with offset := src1.frameNumber }
      let src2 := { src1 with frameNumber := guint64_add src1.frameNumber 1 }
      let b2 := { b1 with offset_end := src2.frameNumber }
      ⟨some GstFlowReturn.GST_FLOW_OK, src2, some b2, branch.2.2.1, branch.2.2.2⟩
  else
    ⟨some GstFlowReturn.GST_FLOW_OK, src, buf, r.2.2, CreatePath.wait_failed⟩

/-- `gst_impactacquiresrc_create (psrc, buf)`; `none` when the priming loop of the
acquisition start does not end within `fuel` requests. -/
def gst_impactacquiresrc_create (fuel : Nat) (src : GstImpactAcquireSrc)
    (buf : Option GstBuffer) (w : World σ) : Option (CreateResult σ) :=
  if !src.boAcquisitionRunning then
    match gst_impactacquiresrc_start_acquisition drv fuel src w with
    | none => none
    | some (false, src1, w1) =>
      some ⟨some GstFlowReturn.GST_FLOW_ERROR, src1, buf, w1, CreatePath.start_failed⟩
    | some (true, src1, w1) => some (create_wait drv src1 buf w1)
  else some (create_wait drv src buf w)

/-- Consecutive calls of `gst_impactacquiresrc_create`, one per element of `bufs`
(the `*buf` each call is entered with), each starting from what the one before
left; the list ends early at a call that does not return. -/
def create_calls (fuel : Nat) :
    List (Option GstBuffer) → GstImpactAcquireSrc → World σ → List (CreateResult σ)
  | [], _, _ => []
  | buf :: bufs, src, w =>
    match gst_impactacquiresrc_create drv fuel src buf w with
    | none => []
    | some r =>
      match r.ret with
      | none => [r]
      | some _ => r :: create_calls fuel bufs r.src r.w

end driver

/-! ## A scripted device for concrete runs -/

/-- A device with a bounded request queue whose completions follow a script:
`free` request slots can take a fill request, and every wait answers with the
head of `script` (an empty script: the wait times out). -/
structure Scripted where
  free : Nat
  start_status : TDMR_ERROR
  script : List (TDMR_ERROR × Int × TDMR_ERROR × TRequestResult × TDMR_ERROR × ImageBuffer)
  current : TDMR_ERROR × TRequestResult × TDMR_ERROR × ImageBuffer
  deriving DecidableEq, Repr

/-- The driver of a `Scripted` device. -/
def scripted : Driver Scripted where
  DMR_ImageRequestSingle := fun s =>
    if s.free = 0 then (TDMR_ERROR.DEV_NO_FREE_REQUEST_AVAILABLE, s)
    else (TDMR_ERROR.DMR_NO_ERROR, { s with free := s.free - 1 })
  DMR_AcquisitionStart := fun s => (s.start_status, s)
  DMR_AcquisitionStop := fun s => (TDMR_ERROR.DMR_NO_ERROR, s)
  DMR_ImageRequestReset := fun s => (TDMR_ERROR.DMR_NO_ERROR, s)
  DMR_ImageRequestWaitFor := fun s _ =>
    match s.script with
    | [] => (TDMR_ERROR.DMR_ERROR (-2119), 0, s)
    | e :: rest => (e.1, e.2.1, { s with script := rest, current := e.2.2 })
  DMR_GetImageRequestResultEx := fun s _ => (s.current.1, s.current.2.1, s)
  DMR_GetImageRequestBuffer := fun s _ => (s.current.2.2.1, s.current.2.2.2, s)
  DMR_ImageRequestUnlock := fun s _ => (TDMR_ERROR.DMR_NO_ERROR, { s with free := s.free + 1 })
  setSystemSettingI := fun s _ _ => s

/-- A completed request `requestNr` holding a valid image of `iSize` bytes at `vpData`. -/
def good_frame (requestNr : Int) (vpData : Nat) (iSize : Int) :
    TDMR_ERROR × Int × TDMR_ERROR × TRequestResult × TDMR_ERROR × ImageBuffer :=
  (TDMR_ERROR.DMR_NO_ERROR, requestNr, TDMR_ERROR.DMR_NO_ERROR, TRequestResult.rrOK,
    TDMR_ERROR.DMR_NO_ERROR, ⟨vpData, iSize, 1⟩)

/-- A completed request `requestNr` whose request result is not `rrOK`. -/
def bad_frame (requestNr : Int) :
    TDMR_ERROR × Int × TDMR_ERROR × TRequestResult × TDMR_ERROR × ImageBuffer :=
  (TDMR_ERROR.DMR_NO_ERROR, requestNr, TDMR_ERROR.DMR_NO_ERROR, TRequestResult.rrNotOK 1,
    TDMR_ERROR.DMR_NO_ERROR, ⟨0, 0, 0⟩)

/-- A wait that times out. -/
def wait_timeout :
    TDMR_ERROR × Int × TDMR_ERROR × TRequestResult × TDMR_ERROR × ImageBuffer :=
  (TDMR_ERROR.DMR_ERROR (-2119), 0, TDMR_ERROR.DMR_NO_ERROR, TRequestResult.rrOK,
    TDMR_ERROR.DMR_NO_ERROR, ⟨0, 0, 0⟩)


/-! ## Properties the theorems speak about -/

/-- A C string holds no NUL before its end. -/
def nul_free (s : String) : Prop := ∀ c ∈ s.data, c.toNat ≠ 0

instance (s : String) : Decidable (nul_free s) := by
  unfold nul_free
  infer_instance

/-- The strings a dictionary hands out: the entries that can be read, in index order. -/
def dict_strings : HOBJ → List String
  | some p =>
    match p.dict with
    | some d => d.filterMap id
    | none => []
  | none => []

/-- Equality of two strings up to the case of the ASCII letters. -/
def ascii_case_eq (s p : String) : Prop :=
  s.data.map (fun c => TOLOWER c.toNat) = p.data.map (fun c => TOLOWER c.toNat)

instance (s p : String) : Decidable (ascii_case_eq s p) := by
  unfold ascii_case_eq
  infer_instance

/-- The "device debayers" branch of `gst_impactacquiresrc_set_caps` applies to `info`. -/
def device_debayers (src : GstImpactAcquireSrc) (dev : Device)
    (info : GstImpactAcquirePixelFormatInfo) : Bool :=
  src.boDebayerOnHost && ! g_str_has_prefix info.pixel_format "Mono"
    && ! g_str_has_prefix info.pixel_format "Bayer"
    && boDeviceFeatureAvailableInList dev.ImageDestinationPixelFormat
        info.image_destination_pixel_format

/-- The "native match" condition: the source-format dictionary has `pixel_format`. -/
def native_match (dev : Device) (info : GstImpactAcquirePixelFormatInfo) : Bool :=
  boDeviceFeatureAvailableInList (some dev.ImageFormatControlPixelFormat) info.pixel_format

/-- The "forced conversion" condition: not Bayer and the conversion-stage
dictionary has `image_destination_pixel_format`. -/
def forced_conversion (dev : Device) (info : GstImpactAcquirePixelFormatInfo) : Bool :=
  ! g_str_has_prefix info.pixel_format "Bayer"
    && boDeviceFeatureAvailableInList dev.ImageDestinationPixelFormat
        info.image_destination_pixel_format

/-- The entry covers the proposed caps and one of the three routing branches applies. -/
def selectable (caps : GstCaps) (src : GstImpactAcquireSrc) (dev : Device)
    (info : GstImpactAcquirePixelFormatInfo) : Bool :=
  gst_caps_is_subset caps info.gst_caps_string
    && (device_debayers src dev info || native_match dev info || forced_conversion dev info)

/-- The index of the entry a call of `gst_impactacquiresrc_set_caps` selected: the
last one it visited, when it returned `TRUE`. -/
def SetCapsResult.selected (r : SetCapsResult) : Option Nat :=
  if r.ret then r.visited.getLast? else none

/-- The source format an element records in a conversion branch: the value read
back from the device, or the former one when the read fails. -/
def recorded_read_back (src : GstImpactAcquireSrc) (dev : Device) : String :=
  match dev.ImageFormatControlPixelFormat.value with
  | some v => v
  | none => src.src_pixel_format

/-- The dictionaries of two devices agree, and both or neither have the
`ImageDestination` handle. -/
def same_dictionaries (dev dev2 : Device) : Prop :=
  dev2.ImageFormatControlPixelFormat.dict = dev.ImageFormatControlPixelFormat.dict ∧
  dev2.ImageDestinationPixelFormat.map (fun p => p.dict)
    = dev.ImageDestinationPixelFormat.map (fun p => p.dict)

/-! ## Concrete devices -/

/-- A device whose source-format dictionary is `native` and whose conversion-stage
dictionary is `conversion`; it currently emits `current`, with pass-through conversion. -/
def device_with (native conversion : List String) (current : String) : Device :=
  { ImageFormatControlPixelFormat := ⟨some current, some (native.map some)⟩
    ImageDestinationPixelFormat := some ⟨some "Raw", some (conversion.map some)⟩
    writes := [] }


/-! ## Sessions of `gst_impactacquiresrc_create` calls -/

/-- No call of the session went through a failed-frame branch: each one failed to
start the acquisition, timed out in the wait, or delivered a frame. -/
def no_failed_frames {σ : Type} (rs : List (CreateResult σ)) : Prop :=
  ∀ r ∈ rs, r.path = CreatePath.start_failed ∨ r.path = CreatePath.wait_failed ∨
    r.path = CreatePath.delivered

instance {σ : Type} (rs : List (CreateResult σ)) : Decidable (no_failed_frames rs) := by
  unfold no_failed_frames
  infer_instance

/-- The calls of a session that delivered a frame, in order. -/
def delivered_calls {σ : Type} (rs : List (CreateResult σ)) : List (CreateResult σ) :=
  rs.filter (fun r => decide (r.path = CreatePath.delivered))

/-- The `(GST_BUFFER_OFFSET, GST_BUFFER_OFFSET_END)` pairs of the buffers a session
delivered, in order. -/
def delivered_offsets {σ : Type} (rs : List (CreateResult σ)) : List (Option (Nat × Nat)) :=
  (delivered_calls rs).map (fun r => r.buf.map (fun b => (b.offset, b.offset_end)))

/-- A scripted device with `free` free request slots and the completions `script`. -/
def scripted_world
    (free : Nat) (script : List (TDMR_ERROR × Int × TDMR_ERROR × TRequestResult × TDMR_ERROR × ImageBuffer)) :
    World Scripted :=
  ⟨⟨free, TDMR_ERROR.DMR_NO_ERROR, script,
    (TDMR_ERROR.DMR_NO_ERROR, TRequestResult.rrOK, TDMR_ERROR.DMR_NO_ERROR, ⟨0, 0, 0⟩)⟩, []⟩

/-! ## Acquisition stop -/

/-- `gst_impactacquiresrc_stop_acquisition (src)`. -/
def gst_impactacquiresrc_stop_acquisition {σ : Type} (drv : Driver σ)
    (src : GstImpactAcquireSrc) (w : World σ) : Bool × GstImpactAcquireSrc × World σ :=
  let r := AcquisitionStop drv w
  if r.1 ≠ TDMR_ERROR.DMR_NO_ERROR then
    (!src.boAcquisitionRunning, src, r.2)
  else
    let src1 := { src with boAcquisitionRunning := false }
    -- clear all queues
    let q := ImageRequestReset drv r.2
    (!src1.boAcquisitionRunning, src1, q.2)

/-- The scripted driver with a capture engine that refuses to stop. -/
def scripted_stop_fails : Driver Scripted :=
  { scripted with DMR_AcquisitionStop := fun s => (TDMR_ERROR.DMR_ERROR (-2100), s) }

/-! ## Calls a `gst_impactacquiresrc_create` adds to the log -/

/-- The calls made between two worlds of one run: those `w1` logged beyond `w0`. -/
def new_calls {σ : Type} (w0 w1 : World σ) : List Call := w1.calls.drop w0.calls.length

/-- The call unlocks request `requestNr`. -/
def Call.is_unlock_of (requestNr : Int) : Call → Bool
  | Call.ImageRequestUnlock n _ => decide (n = requestNr)
  | _ => false

/-- The call unlocks a request. -/
def Call.is_unlock : Call → Bool
  | Call.ImageRequestUnlock _ _ => true
  | _ => false

/-- The call is a fill request. -/
def Call.is_fill : Call → Bool
  | Call.ImageRequestSingle _ => true
  | _ => false

/-- The call wraps a buffer and registers `release_frame_buffer` for a request. -/
def Call.is_wrap : Call → Bool
  | Call.buffer_new_wrapped_full _ => true
  | _ => false

/-- The call waits for a completed request. -/
def Call.is_wait : Call → Bool
  | Call.ImageRequestWaitFor _ _ _ => true
  | _ => false

/-! ## Device selection and connection -/

/-- `TDeviceSearchMode`, the two modes the element searches with. -/
inductive TDeviceSearchMode where
  | dmdsmSerial
  | dmdsmFamily
  deriving DecidableEq, Repr

/-- `TDMR_DeviceInfo`: the members `gst_impactacquiresrc_select_device` reads. -/
structure TDMR_DeviceInfo where
  serial : String
  deviceId : Int
  deriving DecidableEq, Repr

/-- What the device manager answers to the calls of device selection, connection
and disconnection, as functions of their arguments.
`DMR_GetDeviceCount`: the value left in `numDevices`.
`DMR_GetDevice mode searchString devNr wildcard`: status and device handle.
`DMR_GetDeviceInfo hDev`: `DMR_GetDeviceInfoEx (hDev, dmditDeviceInfoStructure, ...)`.
`DMR_GetDeviceIsInUse hDev`: `DMR_GetDeviceInfoEx (hDev, dmditDeviceIsInUse, ...)`,
status and the value left in `inUse`.
`DMR_OpenDevice hDev`: status and driver handle.
`PROP_MAX_VAL hDrv name`: `getPropI64 (getSettingProp (hDrv, "Base", name), PROP_MAX_VAL)`.
`isFeatureWriteable hDrv name`: the same for the property `name` of setting `"Base"`. -/
structure DeviceManager where
  DMR_GetDeviceCount : Nat
  DMR_GetDevice : TDeviceSearchMode → String → Nat → Char → TDMR_ERROR × Int
  DMR_GetDeviceInfo : Int → TDMR_ERROR × TDMR_DeviceInfo
  DMR_GetDeviceIsInUse : Int → TDMR_ERROR × Nat
  DMR_OpenDevice : Int → TDMR_ERROR × Int
  DMR_LoadSetting : Int → String → TDMR_ERROR
  DMR_CloseDevice : Int → Int → TDMR_ERROR
  PROP_MAX_VAL : Int → String → Int
  isFeatureWriteable : Int → String → Bool

/-- `gst_impactacquiresrc_select_device (src)`. A failing `DMR_GetDevice` is taken
to leave `deviceHandle` as it was. -/
def gst_impactacquiresrc_select_device (dm : DeviceManager) (src : GstImpactAcquireSrc) :
    Bool × GstImpactAcquireSrc :=
  let numDevices := dm.DMR_GetDeviceCount
  if numDevices > 0 then
    let got :=
      if g_ascii_strncasecmp src.serialNumber.data DEFAULT_PROP_SERIAL.data G_MAXSIZE = 0 then
        dm.DMR_GetDevice TDeviceSearchMode.dmdsmFamily "mv*" 0 '*'
      else
        dm.DMR_GetDevice TDeviceSearchMode.dmdsmSerial src.serialNumber 0 '*'
    if got.1 ≠ TDMR_ERROR.DMR_NO_ERROR then (false, src)
    else
      let src1 := { src with deviceHandle := got.2 }
      let deviceInfo := dm.DMR_GetDeviceInfo src1.deviceHandle
      if deviceInfo.1 = TDMR_ERROR.DMR_NO_ERROR then
        let src2 :=
          if g_ascii_strncasecmp src1.serialNumber.data DEFAULT_PROP_SERIAL.data G_MAXSIZE = 0 then
            { src1 with serialNumber := deviceInfo.2.serial }
          else src1
        let src3 := { src2 with deviceId := deviceInfo.2.deviceId }
        let inUse := dm.DMR_GetDeviceIsInUse src3.deviceHandle
        if inUse.1 ≠ TDMR_ERROR.DMR_NO_ERROR then
          if inUse.1 ≠ TDMR_ERROR.DMR_NO_ERROR then (false, src3) else (true, src3)
        else (true, src3)
      else (true, src1)
  else (false, src)

/-- The conversion of an integer to `gint`, wrapping in two's complement. -/
def to_gint (v : Int) : Int := (v + 2147483648) % 4294967296 - 2147483648

/-- `gint` subtraction, wrapping in two's complement. -/
def gint_sub (a b : Int) : Int := to_gint (a - b)

/-- A write `gst_impactacquiresrc_connect_device` makes on the device. -/
inductive ConnectWrite where
  | conditionalSetPropI (name : String) (value : String)
  | setPropI64 (name : String) (value : Int)
  deriving DecidableEq, Repr

/-- What a call of `gst_impactacquiresrc_connect_device` leaves behind. -/
structure ConnectResult where
  ret : Bool
  src : GstImpactAcquireSrc
  writes : List ConnectWrite
  deriving DecidableEq, Repr

/-- `gst_impactacquiresrc_connect_device (src)`, up to the offsets. The blocks that
follow the offsets in the source apply frame rate, exposure and gain; they read
`double` and mode members of the element and write device properties of their
own, and are not part of this model. A failing `DMR_OpenDevice` is taken to leave
`driverHandle` as it was. -/
def gst_impactacquiresrc_connect_device (dm : DeviceManager) (src : GstImpactAcquireSrc) :
    ConnectResult :=
  let writes0 := [ConnectWrite.conditionalSetPropI "InterfaceLayout" "dilGenICam",
    ConnectWrite.conditionalSetPropI "AcquisitionStartStopBehaviour" "assbUser"]
  let writes1 :=
    if src.configurationFilePath ≠ "" then
      writes0 ++ [ConnectWrite.conditionalSetPropI "LoadSettings" "dlsNoLoad"]
    else writes0
  let opened := dm.DMR_OpenDevice src.deviceHandle
  let result := opened.1
  let src1 :=
    if result ≠ TDMR_ERROR.DMR_NO_ERROR then src else { src with driverHandle := opened.2 }
  let result :=
    if src1.configurationFilePath ≠ "" then
      dm.DMR_LoadSetting src1.driverHandle src1.configurationFilePath
    else result
  -- overwrite any properties that appear on the command line
  let sized : GstImpactAcquireSrc × List ConnectWrite :=
    if src1.width ≠ DEFAULT_PROP_SIZE ∨ src1.offsetx ≠ DEFAULT_PROP_OFFSET then
      let max := to_gint (dm.PROP_MAX_VAL src1.driverHandle "Width")
      let s :=
        if src1.width = DEFAULT_PROP_SIZE then
          { src1 with width := gint_sub max src1.offsetx }
        else if gint_add src1.width src1.offsetx > max then
          { src1 with width := gint_sub src1.width src1.offsetx }
        else src1
      if dm.isFeatureWriteable s.driverHandle "Width" then
        (s, writes1 ++ [ConnectWrite.setPropI64 "Width" s.width])
      else (s, writes1)
    else (src1, writes1)
  let src2 := sized.1
  let sized : GstImpactAcquireSrc × List ConnectWrite :=
    if src2.height ≠ DEFAULT_PROP_SIZE ∨ src2.offsety ≠ DEFAULT_PROP_OFFSET then
      let max := to_gint (dm.PROP_MAX_VAL src2.driverHandle "Height")
      let s :=
        if src2.height = DEFAULT_PROP_SIZE then
          { src2 with height := gint_sub max src2.offsety }
        else if gint_add src2.height src2.offsety > max then
          { src2 with height := gint_sub src2.height src2.offsety }
        else src2
      if dm.isFeatureWriteable s.driverHandle "Height" then
        (s, sized.2 ++ [ConnectWrite.setPropI64 "Height" s.height])
      else (s, sized.2)
    else (src2, sized.2)
  let src3 := sized.1
  let writes3 :=
    if src3.offsetx ≠ DEFAULT_PROP_OFFSET ∧ dm.isFeatureWriteable src3.driverHandle "OffsetX" then
      sized.2 ++ [ConnectWrite.setPropI64 "OffsetX" src3.offsetx]
    else sized.2
  let writes4 :=
    if src3.offsety ≠ DEFAULT_PROP_OFFSET ∧ dm.isFeatureWriteable src3.driverHandle "OffsetY" then
      writes3 ++ [ConnectWrite.setPropI64 "OffsetY" src3.offsety]
    else writes3
  let src4 := { src3 with deviceConnected := decide (result = TDMR_ERROR.DMR_NO_ERROR) }
  ⟨src4.deviceConnected, src4, writes4⟩

/-- `gst_impactacquiresrc_disconnect_device (src)`. -/
def gst_impactacquiresrc_disconnect_device (dm : DeviceManager) (src : GstImpactAcquireSrc) :
    Bool × GstImpactAcquireSrc :=
  if src.deviceHandle ≠ 0 then
    let result := dm.DMR_CloseDevice src.driverHandle src.deviceHandle
    let src1 := { src with deviceConnected := !(decide (result = TDMR_ERROR.DMR_NO_ERROR)) }
    (!src1.deviceConnected, src1)
  else (!src.deviceConnected, src)

/-- `gst_impactacquiresrc_start (bsrc)`: the return value and the element. -/
def gst_impactacquiresrc_start (dm : DeviceManager) (src : GstImpactAcquireSrc) :
    Bool × GstImpactAcquireSrc :=
  let selected := gst_impactacquiresrc_select_device dm src
  if !selected.1 then
    (false, (gst_impactacquiresrc_disconnect_device dm selected.2).2)
  else
    let connected := gst_impactacquiresrc_connect_device dm selected.2
    if !connected.ret then
      (false, (gst_impactacquiresrc_disconnect_device dm connected.src).2)
    else (true, connected.src)

/-- A device manager with one camera, serial `"GX000001"`, device handle 1, driver
handle 7 and a 1920 by 1080 sensor: `in_use` is what the in-use query leaves in
`inUse`, `open_status`, `load_status` and `close_status` are what `DMR_OpenDevice`,
`DMR_LoadSetting` and `DMR_CloseDevice` return. -/
def one_camera (in_use : Nat) (open_status load_status close_status : TDMR_ERROR) :
    DeviceManager where
  DMR_GetDeviceCount := 1
  DMR_GetDevice := fun _ _ _ _ => (TDMR_ERROR.DMR_NO_ERROR, 1)
  DMR_GetDeviceInfo := fun _ => (TDMR_ERROR.DMR_NO_ERROR, ⟨"GX000001", 0⟩)
  DMR_GetDeviceIsInUse := fun _ => (TDMR_ERROR.DMR_NO_ERROR, in_use)
  DMR_OpenDevice := fun _ => (open_status, 7)
  DMR_LoadSetting := fun _ _ => load_status
  DMR_CloseDevice := fun _ _ => close_status
  PROP_MAX_VAL := fun _ name => if name = "Width" then 1920 else 1080
  isFeatureWriteable := fun _ _ => true

/-! ### The blocks of `gst_impactacquiresrc_connect_device`, one by one

The same steps as in `gst_impactacquiresrc_connect_device`, cut at the block
boundaries of the source, for proofs that follow one block at a time. -/

/-- The writes made before `DMR_OpenDevice`. -/
def connect_first_writes (src : GstImpactAcquireSrc) : List ConnectWrite :=
  if src.configurationFilePath ≠ "" then
    [ConnectWrite.conditionalSetPropI "InterfaceLayout" "dilGenICam",
      ConnectWrite.conditionalSetPropI "AcquisitionStartStopBehaviour" "assbUser"]
      ++ [ConnectWrite.conditionalSetPropI "LoadSettings" "dlsNoLoad"]
  else
    [ConnectWrite.conditionalSetPropI "InterfaceLayout" "dilGenICam",
      ConnectWrite.conditionalSetPropI "AcquisitionStartStopBehaviour" "assbUser"]

/-- The element after `DMR_OpenDevice`. -/
def connect_opened (dm : DeviceManager) (src : GstImpactAcquireSrc) : GstImpactAcquireSrc :=
  if (dm.DMR_OpenDevice src.deviceHandle).1 ≠ TDMR_ERROR.DMR_NO_ERROR then src
  else { src with driverHandle := (dm.DMR_OpenDevice src.deviceHandle).2 }

/-- The value of `result` after the configuration file block. -/
def connect_status (dm : DeviceManager) (src : GstImpactAcquireSrc) : TDMR_ERROR :=
  if (connect_opened dm src).configurationFilePath ≠ "" then
    dm.DMR_LoadSetting (connect_opened dm src).driverHandle
      (connect_opened dm src).configurationFilePath
  else (dm.DMR_OpenDevice src.deviceHandle).1

/-- The width block, on the element and the writes made so far. -/
def connect_width_block (dm : DeviceManager) (src1 : GstImpactAcquireSrc)
    (writes1 : List ConnectWrite) : GstImpactAcquireSrc × List ConnectWrite :=
  if src1.width ≠ DEFAULT_PROP_SIZE ∨ src1.offsetx ≠ DEFAULT_PROP_OFFSET then
    let max := to_gint (dm.PROP_MAX_VAL src1.driverHandle "Width")
    let s :=
      if src1.width = DEFAULT_PROP_SIZE then
        { src1 with width := gint_sub max src1.offsetx }
      else if gint_add src1.width src1.offsetx > max then
        { src1 with width := gint_sub src1.width src1.offsetx }
      else src1
    if dm.isFeatureWriteable s.driverHandle "Width" then
      (s, writes1 ++ [ConnectWrite.setPropI64 "Width" s.width])
    else (s, writes1)
  else (src1, writes1)

/-- The height block, on the element and the writes made so far. -/
def connect_height_block (dm : DeviceManager) (src2 : GstImpactAcquireSrc)
    (writes2 : List ConnectWrite) : GstImpactAcquireSrc × List ConnectWrite :=
  if src2.height ≠ DEFAULT_PROP_SIZE ∨ src2.offsety ≠ DEFAULT_PROP_OFFSET then
    let max := to_gint (dm.PROP_MAX_VAL src2.driverHandle "Height")
    let s :=
      if src2.height = DEFAULT_PROP_SIZE then
        { src2 with height := gint_sub max src2.offsety }
      else if gint_add src2.height src2.offsety > max then
        { src2 with height := gint_sub src2.height src2.offsety }
      else src2
    if dm.isFeatureWriteable s.driverHandle "Height" then
      (s, writes2 ++ [ConnectWrite.setPropI64 "Height" s.height])
    else (s, writes2)
  else (src2, writes2)

/-- The two offset blocks, on the writes made so far. -/
def connect_offset_writes (dm : DeviceManager) (src3 : GstImpactAcquireSrc)
    (writes : List ConnectWrite) : List ConnectWrite :=
  let writes3 :=
    if src3.offsetx ≠ DEFAULT_PROP_OFFSET ∧ dm.isFeatureWriteable src3.driverHandle "OffsetX" then
      writes ++ [ConnectWrite.setPropI64 "OffsetX" src3.offsetx]
    else writes
  if src3.offsety ≠ DEFAULT_PROP_OFFSET ∧ dm.isFeatureWriteable src3.driverHandle "OffsetY" then
    writes3 ++ [ConnectWrite.setPropI64 "OffsetY" src3.offsety]
  else writes3

/-- The write sets the property `name`. -/
def ConnectWrite.sets (name : String) : ConnectWrite → Bool
  | ConnectWrite.conditionalSetPropI n _ => decide (n = name)
  | ConnectWrite.setPropI64 n _ => decide (n = name)

/-! ## Probing: `gst_impactacquiresrc_get_supported_caps` -/

def G_MAXINT : Int := 2147483647

/-- `G_BYTE_ORDER` of the build platform. -/
def G_BYTE_ORDER : Int := G_LITTLE_ENDIAN

/-- A `GstStructure` as `gst_impactacquire_pixel_format_caps_from_pixel_format_var`
builds it: the caps string handed to `gst_structure_from_string`, and the fields
set on the parsed structure afterwards: `width`, `height`, the `framerate`
fraction range, and `bpp` (`none`: not set by the call). -/
structure GstStructure where
  from_string : CapsString
  width : Int
  height : Int
  framerate_min : Int × Int
  framerate_max : Int × Int
  bpp : Option Int
  deriving DecidableEq, Repr

/-- `gst_impactacquire_pixel_format_caps_from_pixel_format_var (index, endianness,
width, height)`: caps of one structure, `none` for `NULL`. The caps strings of the
catalog are not `NULL` and `gst_structure_from_string` parses each of them. The
function is called with `index < G_N_ELEMENTS (gst_impactacquire_pixel_format_infos)`. -/
def gst_impactacquire_pixel_format_caps_from_pixel_format_var (index : Nat)
    (_endianness width height : Int) : Option (List GstStructure) :=
  match gst_impactacquire_pixel_format_infos[index]? with
  | none => none
  | some info =>
    let s : GstStructure := ⟨info.gst_caps_string, width, height, (0, 1), (G_MAXINT, 1), none⟩
    let s1 := if g_str_has_prefix info.pixel_format "Bayer" then { s with bpp := some info.bpp } else s
    some [s1]

/-- What a call of `gst_impactacquiresrc_get_supported_caps` leaves behind: the
caps it returns, as the list of their structures, the indices `i` for which the
loop body ran, and the indices at which it reached a `gst_caps_append`. -/
structure SupportedCapsResult where
  caps : List GstStructure
  visited : List Nat
  added : List Nat
  deriving DecidableEq, Repr

/-- The body of the `for` loop of `gst_impactacquiresrc_get_supported_caps` for the
catalog entry `i`, on the caps collected so far; the second component says whether
a `gst_caps_append` was made. `Width` and `Height` are what `getPropI64 (hWidth, 0)`
and `getPropI64 (hHeight, 0)` read. -/
def get_supported_caps_entry (dev : Device) (Width Height : Int) (i : Nat)
    (info : GstImpactAcquirePixelFormatInfo) (caps : List GstStructure) :
    List GstStructure × Bool :=
  if boDeviceFeatureAvailableInList (some dev.ImageFormatControlPixelFormat) info.pixel_format then
    match gst_impactacquire_pixel_format_caps_from_pixel_format_var i G_BYTE_ORDER
        (to_gint Width) (to_gint Height) with
    | some format_caps => (caps ++ format_caps, true)
    | none => (caps, false)
  else if ! g_str_has_prefix info.pixel_format "Bayer"
      && boDeviceFeatureAvailableInList dev.ImageDestinationPixelFormat
          info.image_destination_pixel_format then
    match gst_impactacquire_pixel_format_caps_from_pixel_format_var i G_BYTE_ORDER
        (to_gint Width) (to_gint Height) with
    | some format_caps => (caps ++ format_caps, true)
    | none => (caps, false)
  else (caps, false)

/-- The `for (i = 0; i < G_N_ELEMENTS (...); i++)` loop of
`gst_impactacquiresrc_get_supported_caps` over the entries from index `i` on. -/
def get_supported_caps_loop (dev : Device) (Width Height : Int) :
    List GstImpactAcquirePixelFormatInfo → Nat → SupportedCapsResult → SupportedCapsResult
  | [], _, r => r
  | info :: rest, i, r =>
    let e := get_supported_caps_entry dev Width Height i info r.caps
    get_supported_caps_loop dev Width Height rest (i + 1)
      ⟨e.1, r.visited ++ [i], if e.2 then r.added ++ [i] else r.added⟩

/-- `gst_impactacquiresrc_get_supported_caps (src)`. A failing `OBJ_GetHandleEx` is
logged and the function goes on with `hPropImageDestinationPixelFormat = INVALID_ID`
(`dev.ImageDestinationPixelFormat = none`). -/
def gst_impactacquiresrc_get_supported_caps (dev : Device) (Width Height : Int) :
    SupportedCapsResult :=
  get_supported_caps_loop dev Width Height gst_impactacquire_pixel_format_infos 0 ⟨[], [], []⟩

/-- The rule by which `gst_impactacquiresrc_get_supported_caps` adds an entry: the
source-format dictionary has `pixel_format`, or the entry is not Bayer and the
conversion-stage dictionary has `image_destination_pixel_format`. -/
def probe_feasible (dev : Device) (info : GstImpactAcquirePixelFormatInfo) : Bool :=
  native_match dev info || forced_conversion dev info

/-- The structure `gst_impactacquiresrc_get_supported_caps` adds for an entry. -/
def probe_structure (Width Height : Int) (info : GstImpactAcquirePixelFormatInfo) : GstStructure :=
  { from_string := info.gst_caps_string
    width := to_gint Width
    height := to_gint Height
    framerate_min := (0, 1)
    framerate_max := (G_MAXINT, 1)
    bpp := if g_str_has_prefix info.pixel_format "Bayer" then some info.bpp else none }

/-! ## Two cameras -/

/-- A device manager with two cameras of the family `mv*`: number 0 has serial
`"GX000001"`, device handle 10 and device id 0, number 1 has serial `"GX000002"`,
device handle 11 and device id 1. -/
def two_cameras : DeviceManager where
  DMR_GetDeviceCount := 2
  DMR_GetDevice := fun mode searchString devNr _ =>
    match mode with
    | TDeviceSearchMode.dmdsmFamily =>
      if devNr = 0 then (TDMR_ERROR.DMR_NO_ERROR, 10)
      else if devNr = 1 then (TDMR_ERROR.DMR_NO_ERROR, 11)
      else (TDMR_ERROR.DMR_ERROR (-2100), INVALID_ID)
    | TDeviceSearchMode.dmdsmSerial =>
      if devNr = 0 ∧ searchString = "GX000001" then (TDMR_ERROR.DMR_NO_ERROR, 10)
      else if devNr = 0 ∧ searchString = "GX000002" then (TDMR_ERROR.DMR_NO_ERROR, 11)
      else (TDMR_ERROR.DMR_ERROR (-2100), INVALID_ID)
  DMR_GetDeviceInfo := fun hDev =>
    if hDev = 11 then (TDMR_ERROR.DMR_NO_ERROR, ⟨"GX000002", 1⟩)
    else (TDMR_ERROR.DMR_NO_ERROR, ⟨"GX000001", 0⟩)
  DMR_GetDeviceIsInUse := fun _ => (TDMR_ERROR.DMR_NO_ERROR, 0)
  DMR_OpenDevice := fun hDev => (TDMR_ERROR.DMR_NO_ERROR, hDev + 100)
  DMR_LoadSetting := fun _ _ => TDMR_ERROR.DMR_NO_ERROR
  DMR_CloseDevice := fun _ _ => TDMR_ERROR.DMR_NO_ERROR
  PROP_MAX_VAL := fun _ name => if name = "Width" then 1920 else 1080
  isFeatureWriteable := fun _ _ => true

/-! ## The size blocks as arithmetic -/

/-- What a size block of `gst_impactacquiresrc_connect_device` that is entered makes
of the configured size, given the offset and `max`:
`if (size == DEFAULT_PROP_SIZE) size = max - offset;
 else if ((size + offset) > max) size -= offset;`. -/
def adjusted_size (size offset max : Int) : Int :=
  if size = DEFAULT_PROP_SIZE then gint_sub max offset
  else if gint_add size offset > max then gint_sub size offset
  else size

/-- The rule `probe_feasible` for the catalog entry of index `i`. -/
def probe_feasible_at (dev : Device) (i : Nat) : Bool :=
  match gst_impactacquire_pixel_format_infos[i]? with
  | some info => probe_feasible dev info
  | none => false

/-- The structure `probe_structure` for the catalog entry of index `i`. -/
def probe_structure_at (Width Height : Int) (i : Nat) : Option GstStructure :=
  match gst_impactacquire_pixel_format_infos[i]? with
  | some info => some (probe_structure Width Height info)
  | none => none

/-! ## A bounded request queue -/

/-- Two device states hold the same number of free, queued and locked request slots. -/
def same_slots {σ : Type} (free queued locked : σ → Nat) (s s1 : σ) : Prop :=
  free s1 = free s ∧ queued s1 = queued s ∧ locked s1 = locked s

/-- The request queue behind a driver is bounded, with the numbers of free, queued
and locked request slots read off the device state by `free`, `queued` and
`locked`: a fill request succeeds if and only if a slot is free, and queues that
slot; with no free slot it is answered `DEV_NO_FREE_REQUEST_AVAILABLE`; a wait that
completes moves one queued slot to locked; an unlock frees one locked slot; the
result query, the buffer fetch, the start of the capture engine and a system
setting move no slot. -/
structure bounded_queue {σ : Type} (drv : Driver σ) (free queued locked : σ → Nat) : Prop where
  fill_free : ∀ s, 0 < free s →
    (drv.DMR_ImageRequestSingle s).1 = TDMR_ERROR.DMR_NO_ERROR ∧
    free (drv.DMR_ImageRequestSingle s).2 + 1 = free s ∧
    queued (drv.DMR_ImageRequestSingle s).2 = queued s + 1 ∧
    locked (drv.DMR_ImageRequestSingle s).2 = locked s
  fill_full : ∀ s, free s = 0 →
    (drv.DMR_ImageRequestSingle s).1 = TDMR_ERROR.DEV_NO_FREE_REQUEST_AVAILABLE ∧
    same_slots free queued locked s (drv.DMR_ImageRequestSingle s).2
  wait_completed : ∀ s timeout_ms,
    (drv.DMR_ImageRequestWaitFor s timeout_ms).1 = TDMR_ERROR.DMR_NO_ERROR →
    free (drv.DMR_ImageRequestWaitFor s timeout_ms).2.2 = free s ∧
    queued (drv.DMR_ImageRequestWaitFor s timeout_ms).2.2 + 1 = queued s ∧
    locked (drv.DMR_ImageRequestWaitFor s timeout_ms).2.2 = locked s + 1
  wait_failed : ∀ s timeout_ms,
    (drv.DMR_ImageRequestWaitFor s timeout_ms).1 ≠ TDMR_ERROR.DMR_NO_ERROR →
    same_slots free queued locked s (drv.DMR_ImageRequestWaitFor s timeout_ms).2.2
  unlock : ∀ s requestNr, 0 < locked s →
    free (drv.DMR_ImageRequestUnlock s requestNr).2 = free s + 1 ∧
    queued (drv.DMR_ImageRequestUnlock s requestNr).2 = queued s ∧
    locked (drv.DMR_ImageRequestUnlock s requestNr).2 + 1 = locked s
  result_query : ∀ s requestNr,
    same_slots free queued locked s (drv.DMR_GetImageRequestResultEx s requestNr).2.2
  buffer_fetch : ∀ s requestNr,
    same_slots free queued locked s (drv.DMR_GetImageRequestBuffer s requestNr).2.2
  start : ∀ s, same_slots free queued locked s (drv.DMR_AcquisitionStart s).2
  setting : ∀ s name value, same_slots free queued locked s (drv.setSystemSettingI s name value)

/-- A device with a bounded request queue whose completions follow a script: the
slot counts, and the answers of the waits to come (a wait completes when the
script says so and a request is queued; with an empty script it times out). -/
structure Bounded where
  free : Nat
  queued : Nat
  locked : Nat
  script : List (TDMR_ERROR × Int × TDMR_ERROR × TRequestResult × TDMR_ERROR × ImageBuffer)
  current : TDMR_ERROR × TRequestResult × TDMR_ERROR × ImageBuffer
  deriving DecidableEq, Repr

/-- The driver of a `Bounded` device. -/
def bounded : Driver Bounded where
  DMR_ImageRequestSingle := fun s =>
    if s.free = 0 then (TDMR_ERROR.DEV_NO_FREE_REQUEST_AVAILABLE, s)
    else (TDMR_ERROR.DMR_NO_ERROR, { s with free := s.free - 1, queued := s.queued + 1 })
  DMR_AcquisitionStart := fun s => (TDMR_ERROR.DMR_NO_ERROR, s)
  DMR_AcquisitionStop := fun s => (TDMR_ERROR.DMR_NO_ERROR, s)
  DMR_ImageRequestReset := fun s => (TDMR_ERROR.DMR_NO_ERROR, s)
  DMR_ImageRequestWaitFor := fun s _ =>
    match s.script with
    | [] => (TDMR_ERROR.DMR_ERROR (-2119), 0, s)
    | e :: rest =>
      if e.1 = TDMR_ERROR.DMR_NO_ERROR ∧ 0 < s.queued then
        (TDMR_ERROR.DMR_NO_ERROR, e.2.1,
          { s with queued := s.queued - 1, locked := s.locked + 1, script := rest, current := e.2.2 })
      else (TDMR_ERROR.DMR_ERROR (-2119), 0, { s with script := rest })
  DMR_GetImageRequestResultEx := fun s _ => (s.current.1, s.current.2.1, s)
  DMR_GetImageRequestBuffer := fun s _ => (s.current.2.2.1, s.current.2.2.2, s)
  DMR_ImageRequestUnlock := fun s _ =>
    if s.locked = 0 then (TDMR_ERROR.DMR_ERROR (-2112), s)
    else (TDMR_ERROR.DMR_NO_ERROR, { s with locked := s.locked - 1, free := s.free + 1 })
  setSystemSettingI := fun s _ _ => s

/-- A bounded device with `free` free request slots, nothing queued or locked, and
the completions `script`. -/
def bounded_world
    (free : Nat) (script : List (TDMR_ERROR × Int × TDMR_ERROR × TRequestResult × TDMR_ERROR × ImageBuffer)) :
    World Bounded :=
  ⟨⟨free, 0, 0, script,
    (TDMR_ERROR.DMR_NO_ERROR, TRequestResult.rrOK, TDMR_ERROR.DMR_NO_ERROR, ⟨0, 0, 0⟩)⟩, []⟩

/-! ## The worlds a `gst_impactacquiresrc_create` passes through -/

section worlds

variable {σ : Type} (drv : Driver σ)

/-- The request number the wait of `gst_impactacquiresrc_create` hands back. -/
def waited_request (w : World σ) : Int := (ImageRequestWaitFor drv w 500).2.1

/-- The world after the wait. -/
def wait_world (w : World σ) : World σ := (ImageRequestWaitFor drv w 500).2.2

/-- The world after the result query. -/
def query_world (w : World σ) : World σ :=
  (GetImageRequestResultEx drv (wait_world drv w) (waited_request drv w)).2.2

/-- The world after the buffer fetch. -/
def fetch_world (w : World σ) : World σ :=
  (GetImageRequestBuffer drv (query_world drv w) (waited_request drv w)).2.2

end worlds

/-! ## Sessions of pulls and releases -/

/-- One operation on a running acquisition: a `gst_impactacquiresrc_create` entered
with `buf` in `*buf`, or the destroy notify of the `i`-th delivered buffer that is
still held. -/
inductive QueueOp where
  | pull (buf : Option GstBuffer)
  | release (i : Nat)
  deriving DecidableEq, Repr

/-- The element, the world, and the handles (`user_data`) of the delivered buffers
whose destroy notify has not run yet. -/
structure Session (σ : Type) where
  src : GstImpactAcquireSrc
  w : World σ
  held : List CurrentRequestInfo

/-- One operation of a session; `none` when the `gst_impactacquiresrc_create` does
not return. A release for an index that holds no buffer does nothing. -/
def session_step {σ : Type} (drv : Driver σ) (fuel : Nat) (s : Session σ) :
    QueueOp → Option (Session σ)
  | QueueOp.pull buf =>
    match gst_impactacquiresrc_create drv fuel s.src buf s.w with
    | none => none
    | some r =>
      match r.ret with
      | none => none
      | some _ =>
        some ⟨r.src, r.w,
          if r.path = CreatePath.delivered then
            s.held ++ (r.buf.bind (fun b => b.user_data)).toList
          else s.held⟩
  | QueueOp.release i =>
    match s.held[i]? with
    | none => some s
    | some currentRequestInfo =>
      some ⟨s.src, release_frame_buffer drv currentRequestInfo s.w, s.held.eraseIdx i⟩

/-- The sessions after each operation of a list, up to the first one that does not
return. -/
def session_states {σ : Type} (drv : Driver σ) (fuel : Nat) :
    List QueueOp → Session σ → List (Session σ)
  | [], _ => []
  | op :: ops, s =>
    match session_step drv fuel s op with
    | none => []
    | some s1 => s1 :: session_states drv fuel ops s1

/-- The queue of a session is saturated: the acquisition runs, no slot is free,
the locked slots are those of the held buffers, and `N` slots are queued or locked. -/
def saturated {σ : Type} (free queued locked : σ → Nat) (N : Nat) (s : Session σ) : Prop :=
  s.src.boAcquisitionRunning = true ∧ free s.w.dev = 0 ∧ locked s.w.dev = s.held.length ∧
    queued s.w.dev + locked s.w.dev = N

end ImpactAcquire

namespace ImpactAcquire

open TPROPHANDLING_ERROR

/-! ## String comparison -/

theorem g_ascii_strncasecmp_eq_zero_iff (s1 : List Char) :
    ∀ (s2 : List Char) (n : Nat), s1.length < n →
      (∀ c ∈ s1, c.toNat ≠ 0) → (∀ c ∈ s2, c.toNat ≠ 0) →
      (g_ascii_strncasecmp s1 s2 n = 0 ↔
        s1.map (fun c => TOLOWER c.toNat) = s2.map (fun c => TOLOWER c.toNat)) := by
  induction s1 with
  | nil =>
    intro s2 n hn _ h2
    obtain ⟨m, rfl⟩ : ∃ m, n = m + 1 := ⟨n - 1, by simp at hn; omega⟩
    cases s2 with
    | nil => simp [g_ascii_strncasecmp, deref]
    | cons c2 t2 =>
      have hc : c2.toNat ≠ 0 := h2 c2 (by simp)
      simp [g_ascii_strncasecmp, deref]
      omega
  | cons c1 t1 ih =>
    intro s2 n hn h1 h2
    obtain ⟨m, rfl⟩ : ∃ m, n = m + 1 := ⟨n - 1, by simp at hn; omega⟩
    cases s2 with
    | nil =>
      have hc : c1.toNat ≠ 0 := h1 c1 (by simp)
      simp [g_ascii_strncasecmp, deref]
      omega
    | cons c2 t2 =>
      have hlen : t1.length < m := by simp at hn; omega
      have h1t : ∀ c ∈ t1, c.toNat ≠ 0 := fun c hc => h1 c (by simp [hc])
      have h2t : ∀ c ∈ t2, c.toNat ≠ 0 := fun c hc => h2 c (by simp [hc])
      by_cases hne : TOLOWER c1.toNat = TOLOWER c2.toNat
      · simp [g_ascii_strncasecmp, hne, ih t2 m hlen h1t h2t]
      · simp [g_ascii_strncasecmp, hne]
        omega

/-! ## Dictionary lookup -/

theorem loop_found_iff (strFeature : String) (hlen : strFeature.length < G_MAXSIZE)
    (hs : nul_free strFeature) (entries : List (Option String)) :
    ∀ (res : TPROPHANDLING_ERROR),
      (∀ p, some p ∈ entries → nul_free p) →
      (((boDeviceFeatureAvailableInList_loop strFeature entries false res).1 = true ↔
        ∃ p, some p ∈ entries ∧ ascii_case_eq strFeature p) ∧
      ((boDeviceFeatureAvailableInList_loop strFeature entries false res).1 = true →
        (boDeviceFeatureAvailableInList_loop strFeature entries false res).2
          = PROPHANDLING_NO_ERROR)) := by
  induction entries with
  | nil => intro res _; simp [boDeviceFeatureAvailableInList_loop]
  | cons e rest ih =>
    intro res hD
    have hrest : ∀ p, some p ∈ rest → nul_free p := fun p hp => hD p (by simp [hp])
    cases e with
    | none =>
      simp only [boDeviceFeatureAvailableInList_loop]
      have := ih PROPHANDLING_ERROR hrest
      simpa using this
    | some propStr =>
      have hp : nul_free propStr := hD propStr (by simp)
      have hcmp := g_ascii_strncasecmp_eq_zero_iff strFeature.data propStr.data G_MAXSIZE
        hlen hs hp
      simp only [boDeviceFeatureAvailableInList_loop]
      by_cases h0 : g_ascii_strncasecmp strFeature.data propStr.data G_MAXSIZE = 0
      · have : ascii_case_eq strFeature propStr := hcmp.mp h0
        simp only [h0, decide_True, if_true, true_iff, implies_true, and_true]
        exact ⟨propStr, by simp, this⟩
      · have hne : ¬ ascii_case_eq strFeature propStr := fun h => h0 (hcmp.mpr h)
        have := ih PROPHANDLING_NO_ERROR hrest
        simp only [h0, decide_False, Bool.false_eq_true, if_false]
        refine ⟨?_, this.2⟩
        rw [this.1]
        constructor
        · rintro ⟨p, hp, hpe⟩
          exact ⟨p, by simp [hp], hpe⟩
        · rintro ⟨p, hp, hpe⟩
          simp at hp
          rcases hp with rfl | hp
          · exact absurd hpe hne
          · exact ⟨p, hp, hpe⟩

theorem mem_dict_strings (h : PropertyS) (d : List (Option String)) (hd : h.dict = some d)
    (p : String) : p ∈ dict_strings (some h) ↔ some p ∈ d := by
  simp [dict_strings, hd, List.mem_filterMap]

theorem available_iff (hProp : HOBJ) (strFeature : String)
    (hlen : strFeature.length < G_MAXSIZE) (hs : nul_free strFeature)
    (hD : ∀ p ∈ dict_strings hProp, nul_free p) :
    boDeviceFeatureAvailableInList hProp strFeature = true ↔
      ∃ p ∈ dict_strings hProp, ascii_case_eq strFeature p := by
  cases hProp with
  | none => simp [boDeviceFeatureAvailableInList, OBJ_GetDict, dict_strings]
  | some h =>
    cases hd : h.dict with
    | none => simp [boDeviceFeatureAvailableInList, OBJ_GetDict, dict_strings, hd]
    | some d =>
      have hD2 : ∀ p, some p ∈ d → nul_free p :=
        fun p hp => hD p ((mem_dict_strings h d hd p).mpr hp)
      have := loop_found_iff strFeature hlen hs d PROPHANDLING_NO_ERROR hD2
      simp only [boDeviceFeatureAvailableInList, OBJ_GetDict, hd, Bool.and_eq_true,
        decide_eq_true_eq]
      constructor
      · rintro ⟨h1, _⟩
        obtain ⟨p, hp, hpe⟩ := this.1.mp h1
        exact ⟨p, (mem_dict_strings h d hd p).mpr hp, hpe⟩
      · rintro ⟨p, hp, hpe⟩
        have h1 := this.1.mpr ⟨p, (mem_dict_strings h d hd p).mp hp, hpe⟩
        exact ⟨h1, this.2 h1⟩

/-! ## One catalog entry -/

/-- What the two conversion branches leave in the element for `info`. -/
theorem read_back_src_pixel_format_eq (src : GstImpactAcquireSrc) (dev : Device) :
    read_back_src_pixel_format src dev
      = { src with src_pixel_format := recorded_read_back src dev } := by
  unfold read_back_src_pixel_format recorded_read_back OBJ_GetSFormattedEx
  simp only
  cases dev.ImageFormatControlPixelFormat.value <;> rfl

theorem entry_not_selectable (caps : GstCaps) (info : GstImpactAcquirePixelFormatInfo)
    (src : GstImpactAcquireSrc) (dev : Device) (h : selectable caps src dev info = false) :
    set_caps_entry caps info src dev = (false, src, dev) := by
  unfold selectable device_debayers native_match forced_conversion at h
  unfold set_caps_entry
  by_cases hc : gst_caps_is_subset caps info.gst_caps_string = true
  · simp only [hc, Bool.true_and, Bool.or_eq_false_iff] at h
    obtain ⟨⟨h1, h2⟩, h3⟩ := h
    simp [hc, h1, h2, h3]
  · simp [hc]

theorem entry_debayers (caps : GstCaps) (info : GstImpactAcquirePixelFormatInfo)
    (src : GstImpactAcquireSrc) (dev : Device)
    (hc : gst_caps_is_subset caps info.gst_caps_string = true)
    (h : device_debayers src dev info = true) :
    set_caps_entry caps info src dev
      = (true,
          { src with
            src_pixel_format := recorded_read_back src dev
            dest_pixel_format := info.image_destination_pixel_format
            gst_pixel_format := info.gst_pixel_format },
          setPropS dev DeviceProperty.ImageDestination_PixelFormat
            info.image_destination_pixel_format) := by
  unfold device_debayers at h
  unfold set_caps_entry
  simp [hc, h, read_back_src_pixel_format_eq]

theorem entry_native (caps : GstCaps) (info : GstImpactAcquirePixelFormatInfo)
    (src : GstImpactAcquireSrc) (dev : Device)
    (hc : gst_caps_is_subset caps info.gst_caps_string = true)
    (h : device_debayers src dev info = false) (hn : native_match dev info = true) :
    set_caps_entry caps info src dev
      = (true,
          { src with
            src_pixel_format := info.pixel_format
            dest_pixel_format := DEFAULT_PROP_DESTINATION_PIXEL_FORMAT
            gst_pixel_format := info.gst_pixel_format },
          setPropS
            (setPropS dev DeviceProperty.ImageFormatControl_PixelFormat info.pixel_format)
            DeviceProperty.ImageDestination_PixelFormat
            DEFAULT_PROP_DESTINATION_PIXEL_FORMAT) := by
  unfold device_debayers at h
  unfold native_match at hn
  unfold set_caps_entry
  simp [hc, h, hn]

theorem entry_forced (caps : GstCaps) (info : GstImpactAcquirePixelFormatInfo)
    (src : GstImpactAcquireSrc) (dev : Device)
    (hc : gst_caps_is_subset caps info.gst_caps_string = true)
    (h : device_debayers src dev info = false) (hn : native_match dev info = false)
    (hf : forced_conversion dev info = true) :
    set_caps_entry caps info src dev
      = (true,
          { src with
            src_pixel_format := recorded_read_back src dev
            dest_pixel_format := info.image_destination_pixel_format
            gst_pixel_format := info.gst_pixel_format },
          setPropS dev DeviceProperty.ImageDestination_PixelFormat
            info.image_destination_pixel_format) := by
  unfold device_debayers at h
  unfold native_match at hn
  unfold forced_conversion at hf
  unfold set_caps_entry
  simp [hc, h, hn, hf, read_back_src_pixel_format_eq]

/-- A selectable entry sets `boMatchPixelFormat`, records its output layout and
leaves the dictionaries and the debayer flag as they were. -/
theorem entry_selectable (caps : GstCaps) (info : GstImpactAcquirePixelFormatInfo)
    (src : GstImpactAcquireSrc) (dev : Device) (h : selectable caps src dev info = true) :
    (set_caps_entry caps info src dev).1 = true ∧
    (set_caps_entry caps info src dev).2.1.gst_pixel_format = info.gst_pixel_format := by
  unfold selectable at h
  simp only [Bool.and_eq_true, Bool.or_eq_true] at h
  obtain ⟨hc, hb⟩ := h
  by_cases hd : device_debayers src dev info = true
  · rw [entry_debayers caps info src dev hc hd]; exact ⟨rfl, rfl⟩
  · have hd' : device_debayers src dev info = false := by simpa using hd
    by_cases hn : native_match dev info = true
    · rw [entry_native caps info src dev hc hd' hn]; exact ⟨rfl, rfl⟩
    · have hn' : native_match dev info = false := by simpa using hn
      have hf : forced_conversion dev info = true := by
        rcases hb with (hb | hb) | hb
        · exact absurd hb hd
        · exact absurd hb hn
        · exact hb
      rw [entry_forced caps info src dev hc hd' hn' hf]; exact ⟨rfl, rfl⟩

/-! ## The walk over the catalog -/

theorem set_caps_loop_none (caps : GstCaps) (infos : List GstImpactAcquirePixelFormatInfo)
    (src : GstImpactAcquireSrc) (dev : Device) :
    ∀ (i : Nat) (visited : List Nat),
      (∀ x ∈ infos, selectable caps src dev x = false) →
      set_caps_loop caps infos i src dev visited
        = ⟨false, src, dev, visited ++ List.range' i infos.length⟩ := by
  induction infos with
  | nil => intro i visited _; simp [set_caps_loop]
  | cons info rest ih =>
    intro i visited h
    have h0 := entry_not_selectable caps info src dev (h info (by simp))
    have := ih (i + 1) (visited ++ [i]) (fun x hx => h x (by simp [hx]))
    simp [set_caps_loop, h0, this, List.range'_succ]

theorem set_caps_loop_first (caps : GstCaps) (pre : List GstImpactAcquirePixelFormatInfo)
    (info : GstImpactAcquirePixelFormatInfo) (post : List GstImpactAcquirePixelFormatInfo)
    (src : GstImpactAcquireSrc) (dev : Device) :
    ∀ (i : Nat) (visited : List Nat),
      (∀ x ∈ pre, selectable caps src dev x = false) →
      selectable caps src dev info = true →
      set_caps_loop caps (pre ++ info :: post) i src dev visited
        = ⟨true, (set_caps_entry caps info src dev).2.1, (set_caps_entry caps info src dev).2.2,
            visited ++ List.range' i (pre.length + 1)⟩ := by
  induction pre with
  | nil =>
    intro i visited _ hs
    have h1 := (entry_selectable caps info src dev hs).1
    rcases hE : set_caps_entry caps info src dev with ⟨m, s1, d1⟩
    rw [hE] at h1
    simp only at h1
    subst h1
    simp [set_caps_loop, hE]
  | cons x rest ih =>
    intro i visited h hs
    have h0 := entry_not_selectable caps x src dev (h x (by simp))
    have := ih (i + 1) (visited ++ [i]) (fun y hy => h y (by simp [hy])) hs
    simp [set_caps_loop, h0, this, List.range'_succ]

/-- Either no entry is selectable and the walk visits all of them, or the walk
stops at the first selectable one. -/
theorem set_caps_loop_cases (caps : GstCaps) (infos : List GstImpactAcquirePixelFormatInfo)
    (src : GstImpactAcquireSrc) (dev : Device) :
    (∀ x ∈ infos, selectable caps src dev x = false) ∨
    ∃ pre info post, infos = pre ++ info :: post ∧
      (∀ x ∈ pre, selectable caps src dev x = false) ∧ selectable caps src dev info = true := by
  induction infos with
  | nil => left; simp
  | cons x rest ih =>
    by_cases hx : selectable caps src dev x = true
    · right; exact ⟨[], x, rest, rfl, by simp, hx⟩
    · have hx' : selectable caps src dev x = false := by simpa using hx
      rcases ih with h | ⟨pre, info, post, he, hp, hs⟩
      · left
        intro y hy
        simp at hy
        rcases hy with rfl | hy
        · exact hx'
        · exact h y hy
      · right
        refine ⟨x :: pre, info, post, by simp [he], ?_, hs⟩
        intro y hy
        simp at hy
        rcases hy with rfl | hy
        · exact hx'
        · exact hp y hy


theorem mem_of_getElem?_eq_some {α : Type} (l : List α) (i : Nat) (a : α)
    (h : l[i]? = some a) : a ∈ l := by
  rw [List.getElem?_eq_some] at h
  obtain ⟨hi, rfl⟩ := h
  exact List.getElem_mem hi

/-- A visited entry that is selectable is the one the walk stops at. -/
theorem loop_visited_selectable (caps : GstCaps) (infos : List GstImpactAcquirePixelFormatInfo)
    (src : GstImpactAcquireSrc) (dev : Device) (i : Nat) (info : GstImpactAcquirePixelFormatInfo)
    (hi : infos[i]? = some info)
    (hv : i ∈ (set_caps_loop caps infos 0 src dev []).visited)
    (hs : selectable caps src dev info = true) :
    set_caps_loop caps infos 0 src dev []
      = ⟨true, (set_caps_entry caps info src dev).2.1, (set_caps_entry caps info src dev).2.2,
          List.range' 0 (i + 1)⟩ := by
  rcases set_caps_loop_cases caps infos src dev with h | ⟨pre, info0, post, he, hp, hs0⟩
  · have := h info (mem_of_getElem?_eq_some infos i info hi)
    rw [this] at hs
    exact absurd hs (by simp)
  · subst he
    rw [set_caps_loop_first caps pre info0 post src dev 0 [] hp hs0] at hv ⊢
    simp only [List.nil_append, List.mem_range'_1] at hv
    have hle : i ≤ pre.length := by omega
    rcases Nat.lt_or_eq_of_le hle with hlt | heq
    · rw [List.getElem?_append_left hlt] at hi
      have := hp info (mem_of_getElem?_eq_some pre i info hi)
      rw [this] at hs
      exact absurd hs (by simp)
    · subst heq
      have hget : (pre ++ info0 :: post)[pre.length]? = some info0 := by
        rw [List.getElem?_append_right (Nat.le_refl _)]
        simp
      rw [hget] at hi
      injection hi with hi
      subst hi
      simp

/-- A visited entry that is not selectable is followed by a visit of the next entry. -/
theorem loop_visited_not_selectable (caps : GstCaps)
    (infos : List GstImpactAcquirePixelFormatInfo)
    (src : GstImpactAcquireSrc) (dev : Device) (i : Nat) (info : GstImpactAcquirePixelFormatInfo)
    (hi : infos[i]? = some info)
    (hv : i ∈ (set_caps_loop caps infos 0 src dev []).visited)
    (hs : selectable caps src dev info = false) (hn : i + 1 < infos.length) :
    i + 1 ∈ (set_caps_loop caps infos 0 src dev []).visited := by
  rcases set_caps_loop_cases caps infos src dev with h | ⟨pre, info0, post, he, hp, hs0⟩
  · rw [set_caps_loop_none caps infos src dev 0 [] h]
    simp only [List.nil_append, List.mem_range'_1]
    omega
  · subst he
    rw [set_caps_loop_first caps pre info0 post src dev 0 [] hp hs0] at hv ⊢
    simp only [List.nil_append, List.mem_range'_1] at hv ⊢
    have hle : i ≤ pre.length := by omega
    rcases Nat.lt_or_eq_of_le hle with hlt | heq
    · omega
    · subst heq
      have hget : (pre ++ info0 :: post)[pre.length]? = some info0 := by
        rw [List.getElem?_append_right (Nat.le_refl _)]
        simp
      rw [hget] at hi
      injection hi with hi
      subst hi
      rw [hs] at hs0
      exact absurd hs0 (by simp)

/-- The entries before index `i` are those of `take i`. -/
theorem split_at_index {α : Type} (l : List α) (i : Nat) (a : α) (h : l[i]? = some a) :
    l = l.take i ++ a :: l.drop (i + 1) ∧ (l.take i).length = i := by
  rw [List.getElem?_eq_some] at h
  obtain ⟨hi, rfl⟩ := h
  refine ⟨?_, by simp; omega⟩
  rw [← List.drop_eq_getElem_cons hi, List.take_append_drop]

theorem mem_take_getElem? {α : Type} (l : List α) (i : Nat) (x : α) (h : x ∈ l.take i) :
    ∃ j, j < i ∧ l[j]? = some x := by
  rw [List.mem_iff_getElem?] at h
  obtain ⟨j, hj⟩ := h
  rw [List.getElem?_take] at hj
  split at hj
  · exact ⟨j, by assumption, hj⟩
  · exact absurd hj (by simp)

/-- `selectable` looks at the element and the device through the debayer flag and
the two dictionaries only. -/
theorem selectable_congr (caps : GstCaps) (src src2 : GstImpactAcquireSrc) (dev dev2 : Device)
    (hf : src2.boDebayerOnHost = src.boDebayerOnHost) (hd : same_dictionaries dev dev2)
    (info : GstImpactAcquirePixelFormatInfo) :
    selectable caps src2 dev2 info = selectable caps src dev info := by
  have key : ∀ (a b : HOBJ) (s : String), a.map (fun p => p.dict) = b.map (fun p => p.dict) →
      boDeviceFeatureAvailableInList a s = boDeviceFeatureAvailableInList b s := by
    intro a b s h
    cases a <;> cases b <;> simp [boDeviceFeatureAvailableInList, OBJ_GetDict] at h ⊢
    rw [h]
  obtain ⟨h1, h2⟩ := hd
  have k1 := key (some dev2.ImageFormatControlPixelFormat) (some dev.ImageFormatControlPixelFormat)
    info.pixel_format (by simp [h1])
  have k2 := key dev2.ImageDestinationPixelFormat dev.ImageDestinationPixelFormat
    info.image_destination_pixel_format h2
  unfold selectable device_debayers native_match forced_conversion
  rw [hf, k1, k2]

/-- `setPropS` leaves the dictionaries alone. -/
theorem same_dictionaries_setPropS (dev : Device) (hProp : DeviceProperty) (value : String) :
    same_dictionaries dev (setPropS dev hProp value) := by
  cases hProp
  · exact ⟨rfl, rfl⟩
  · refine ⟨rfl, ?_⟩
    simp only [setPropS]
    cases dev.ImageDestinationPixelFormat <;> rfl

theorem same_dictionaries_trans (a b c : Device) (h1 : same_dictionaries a b)
    (h2 : same_dictionaries b c) : same_dictionaries a c :=
  ⟨h2.1.trans h1.1, h2.2.trans h1.2⟩

/-- The body of the loop keeps the debayer flag and the dictionaries. -/
theorem entry_keeps (caps : GstCaps) (info : GstImpactAcquirePixelFormatInfo)
    (src : GstImpactAcquireSrc) (dev : Device) :
    (set_caps_entry caps info src dev).2.1.boDebayerOnHost = src.boDebayerOnHost ∧
    same_dictionaries dev (set_caps_entry caps info src dev).2.2 := by
  by_cases hs : selectable caps src dev info = true
  · have hs0 := hs
    unfold selectable at hs
    simp only [Bool.and_eq_true, Bool.or_eq_true] at hs
    obtain ⟨hc, hb⟩ := hs
    by_cases hd : device_debayers src dev info = true
    · rw [entry_debayers caps info src dev hc hd]
      exact ⟨rfl, same_dictionaries_setPropS _ _ _⟩
    · have hd' : device_debayers src dev info = false := by simpa using hd
      by_cases hn : native_match dev info = true
      · rw [entry_native caps info src dev hc hd' hn]
        exact ⟨rfl, same_dictionaries_trans _ _ _ (same_dictionaries_setPropS _ _ _)
          (same_dictionaries_setPropS _ _ _)⟩
      · have hn' : native_match dev info = false := by simpa using hn
        have hf : forced_conversion dev info = true := by
          rcases hb with (hb | hb) | hb
          · exact absurd hb hd
          · exact absurd hb hn
          · exact hb
        rw [entry_forced caps info src dev hc hd' hn' hf]
        exact ⟨rfl, same_dictionaries_setPropS _ _ _⟩
  · have hs' : selectable caps src dev info = false := by simpa using hs
    rw [entry_not_selectable caps info src dev hs']
    exact ⟨rfl, rfl, rfl⟩


/-! ## `gst_impactacquiresrc_set_caps` as a whole -/

theorem set_caps_with_handle (caps : GstCaps) (src : GstImpactAcquireSrc) (dev : Device)
    (hDst : PropertyS) (hh : dev.ImageDestinationPixelFormat = some hDst) :
    gst_impactacquiresrc_set_caps src dev caps
      = set_caps_loop caps gst_impactacquire_pixel_format_infos 0 src dev [] := by
  unfold gst_impactacquiresrc_set_caps
  rw [hh]

theorem set_caps_without_handle (caps : GstCaps) (src : GstImpactAcquireSrc) (dev : Device)
    (hh : dev.ImageDestinationPixelFormat = none) :
    gst_impactacquiresrc_set_caps src dev caps = ⟨false, src, dev, []⟩ := by
  unfold gst_impactacquiresrc_set_caps
  rw [hh]

/-- The walk stops at entry `i` when it is selectable and no entry before it is. -/
theorem set_caps_first (caps : GstCaps) (src : GstImpactAcquireSrc) (dev : Device)
    (hDst : PropertyS) (i : Nat) (info : GstImpactAcquirePixelFormatInfo)
    (hh : dev.ImageDestinationPixelFormat = some hDst)
    (hi : gst_impactacquire_pixel_format_infos[i]? = some info)
    (hs : selectable caps src dev info = true)
    (hpre : ∀ x ∈ gst_impactacquire_pixel_format_infos.take i, selectable caps src dev x = false) :
    gst_impactacquiresrc_set_caps src dev caps
      = ⟨true, (set_caps_entry caps info src dev).2.1, (set_caps_entry caps info src dev).2.2,
          List.range' 0 (i + 1)⟩ := by
  rw [set_caps_with_handle caps src dev hDst hh]
  obtain ⟨hsplit, hlen⟩ := split_at_index gst_impactacquire_pixel_format_infos i info hi
  have := set_caps_loop_first caps (gst_impactacquire_pixel_format_infos.take i) info
    (gst_impactacquire_pixel_format_infos.drop (i + 1)) src dev 0 [] hpre hs
  rw [← hsplit, hlen] at this
  simpa using this

/-- A visited entry that is selectable is the one `set_caps` stops at. -/
theorem set_caps_visited_selectable (caps : GstCaps) (src : GstImpactAcquireSrc) (dev : Device)
    (i : Nat) (info : GstImpactAcquirePixelFormatInfo)
    (hi : gst_impactacquire_pixel_format_infos[i]? = some info)
    (hv : i ∈ (gst_impactacquiresrc_set_caps src dev caps).visited)
    (hs : selectable caps src dev info = true) :
    gst_impactacquiresrc_set_caps src dev caps
      = ⟨true, (set_caps_entry caps info src dev).2.1, (set_caps_entry caps info src dev).2.2,
          List.range' 0 (i + 1)⟩ := by
  cases hh : dev.ImageDestinationPixelFormat with
  | none =>
    rw [set_caps_without_handle caps src dev hh] at hv
    exact absurd hv (by simp)
  | some hDst =>
    rw [set_caps_with_handle caps src dev hDst hh] at hv ⊢
    exact loop_visited_selectable caps _ src dev i info hi hv hs

theorem getLast?_range' (n : Nat) : (List.range' 0 (n + 1)).getLast? = some n := by
  rw [List.range'_concat]
  simp

/-- The result of a call that stopped at entry `i`. -/
theorem selected_of_eq (r : SetCapsResult) (s : GstImpactAcquireSrc) (d : Device) (i : Nat)
    (h : r = ⟨true, s, d, List.range' 0 (i + 1)⟩) :
    r.ret = true ∧ r.selected = some i ∧ r.visited = List.range (i + 1) ∧ r.src = s ∧ r.dev = d := by
  subst h
  refine ⟨rfl, ?_, ?_, rfl, rfl⟩
  · simp only [SetCapsResult.selected, if_true]
    exact getLast?_range' i
  · simp [List.range_eq_range']

/-- The entry a call selected is selectable, and the call stopped at it. -/
theorem set_caps_selected (caps : GstCaps) (src : GstImpactAcquireSrc) (dev : Device)
    (i : Nat) (info : GstImpactAcquirePixelFormatInfo)
    (hi : gst_impactacquire_pixel_format_infos[i]? = some info)
    (hsel : (gst_impactacquiresrc_set_caps src dev caps).selected = some i) :
    selectable caps src dev info = true ∧
    gst_impactacquiresrc_set_caps src dev caps
      = ⟨true, (set_caps_entry caps info src dev).2.1, (set_caps_entry caps info src dev).2.2,
          List.range' 0 (i + 1)⟩ := by
  cases hh : dev.ImageDestinationPixelFormat with
  | none =>
    rw [set_caps_without_handle caps src dev hh] at hsel
    simp [SetCapsResult.selected] at hsel
  | some hDst =>
    rw [set_caps_with_handle caps src dev hDst hh] at hsel ⊢
    rcases set_caps_loop_cases caps gst_impactacquire_pixel_format_infos src dev with
      h | ⟨pre, info0, post, he, hp, hs0⟩
    · rw [set_caps_loop_none caps _ src dev 0 [] h] at hsel
      simp [SetCapsResult.selected] at hsel
    · rw [he] at hi hsel ⊢
      rw [set_caps_loop_first caps pre info0 post src dev 0 [] hp hs0] at hsel ⊢
      simp only [SetCapsResult.selected, if_true, List.nil_append] at hsel
      rw [getLast?_range'] at hsel
      injection hsel with hsel
      subst hsel
      have hget : (pre ++ info0 :: post)[pre.length]? = some info0 := by
        rw [List.getElem?_append_right (Nat.le_refl _)]
        simp
      rw [hget] at hi
      injection hi with hi
      subst hi
      exact ⟨hs0, by simp⟩

/-- A call returns `FALSE` exactly when the handle is missing or nothing is selectable,
and then hands back the element and the device untouched. -/
theorem set_caps_false (caps : GstCaps) (src : GstImpactAcquireSrc) (dev : Device) :
    ((gst_impactacquiresrc_set_caps src dev caps).ret = false ↔
      (dev.ImageDestinationPixelFormat = none ∨
        ∀ x ∈ gst_impactacquire_pixel_format_infos, selectable caps src dev x = false)) ∧
    ((gst_impactacquiresrc_set_caps src dev caps).ret = false →
      (gst_impactacquiresrc_set_caps src dev caps).src = src ∧
      (gst_impactacquiresrc_set_caps src dev caps).dev = dev) := by
  cases hh : dev.ImageDestinationPixelFormat with
  | none =>
    rw [set_caps_without_handle caps src dev hh]
    simp
  | some hDst =>
    rw [set_caps_with_handle caps src dev hDst hh]
    rcases set_caps_loop_cases caps gst_impactacquire_pixel_format_infos src dev with
      h | ⟨pre, info0, post, he, hp, hs0⟩
    · rw [set_caps_loop_none caps _ src dev 0 [] h]
      simp only [true_iff, implies_true, and_self, and_true]
      right
      exact h
    · have hmem : info0 ∈ gst_impactacquire_pixel_format_infos := by rw [he]; simp
      rw [he, set_caps_loop_first caps pre info0 post src dev 0 [] hp hs0, ← he]
      simp only [Bool.true_eq_false, false_iff, false_implies, and_true, not_or]
      refine ⟨by simp, ?_⟩
      intro hall
      rw [hall info0 hmem] at hs0
      exact absurd hs0 (by simp)


theorem available_congr (a b : HOBJ) (s : String)
    (h : a.map (fun p => p.dict) = b.map (fun p => p.dict)) :
    boDeviceFeatureAvailableInList a s = boDeviceFeatureAvailableInList b s := by
  cases a <;> cases b <;> simp [boDeviceFeatureAvailableInList, OBJ_GetDict] at h ⊢
  rw [h]

theorem native_match_congr (dev dev2 : Device) (hd : same_dictionaries dev dev2)
    (info : GstImpactAcquirePixelFormatInfo) : native_match dev2 info = native_match dev info := by
  unfold native_match
  exact available_congr _ _ _ (by simp [hd.1])

theorem device_debayers_congr (src src2 : GstImpactAcquireSrc) (dev dev2 : Device)
    (hf : src2.boDebayerOnHost = src.boDebayerOnHost) (hd : same_dictionaries dev dev2)
    (info : GstImpactAcquirePixelFormatInfo) :
    device_debayers src2 dev2 info = device_debayers src dev info := by
  unfold device_debayers
  rw [hf, available_congr _ _ _ hd.2]

theorem forced_conversion_congr (dev dev2 : Device) (hd : same_dictionaries dev dev2)
    (info : GstImpactAcquirePixelFormatInfo) :
    forced_conversion dev2 info = forced_conversion dev info := by
  unfold forced_conversion
  rw [available_congr _ _ _ hd.2]

theorem handle_of_same_dictionaries (dev dev2 : Device) (hDst : PropertyS)
    (hh : dev.ImageDestinationPixelFormat = some hDst) (hd : same_dictionaries dev dev2) :
    ∃ hDst2, dev2.ImageDestinationPixelFormat = some hDst2 := by
  have := hd.2
  rw [hh] at this
  cases h2 : dev2.ImageDestinationPixelFormat with
  | none => rw [h2] at this; simp at this
  | some q => exact ⟨q, rfl⟩

/-- Whether an entry is selectable does not depend on the debayer flag: where the
device-debayers branch applies, the forced-conversion condition holds as well. -/
theorem selectable_flag_free (caps : GstCaps) (src : GstImpactAcquireSrc) (dev : Device)
    (info : GstImpactAcquirePixelFormatInfo) :
    selectable caps src dev info
      = (gst_caps_is_subset caps info.gst_caps_string
          && (native_match dev info || forced_conversion dev info)) := by
  unfold selectable device_debayers forced_conversion
  cases src.boDebayerOnHost <;> cases g_str_has_prefix info.pixel_format "Mono" <;>
    cases g_str_has_prefix info.pixel_format "Bayer" <;>
    cases boDeviceFeatureAvailableInList dev.ImageDestinationPixelFormat
      info.image_destination_pixel_format <;>
    cases native_match dev info <;> rfl

theorem selectable_congr_dict (caps : GstCaps) (src src2 : GstImpactAcquireSrc)
    (dev dev2 : Device) (hd : same_dictionaries dev dev2)
    (info : GstImpactAcquirePixelFormatInfo) :
    selectable caps src2 dev2 info = selectable caps src dev info := by
  rw [selectable_flag_free, selectable_flag_free, native_match_congr dev dev2 hd,
    forced_conversion_congr dev dev2 hd]

theorem pre_of_first (caps : GstCaps) (src : GstImpactAcquireSrc) (dev : Device) (i : Nat)
    (hfirst : ∀ j info2, j < i → gst_impactacquire_pixel_format_infos[j]? = some info2 →
      selectable caps src dev info2 = false) :
    ∀ x ∈ gst_impactacquire_pixel_format_infos.take i, selectable caps src dev x = false := by
  intro x hx
  obtain ⟨j, hj, hget⟩ := mem_take_getElem? _ i x hx
  exact hfirst j x hj hget

/-! ## Claims on the negotiation -/

/-- C1: `gst_impactacquiresrc_set_caps` walks the catalog in array order and selects
the entry with the smallest index that covers the proposed caps and for which one
of the three routing branches applies. It returns `TRUE`, records the
`gst_pixel_format` of that entry, ran the loop body for the indices `0..i` and for
no later one. A run for the same proposal from any element (whatever its debayer
flag) and any device with the same dictionaries, also the run that starts from
what this one left, selects the same entry. -/
theorem set_caps_selects_first_match (caps : GstCaps) (src : GstImpactAcquireSrc) (dev : Device)
    (hDst : PropertyS) (i : Nat) (info : GstImpactAcquirePixelFormatInfo)
    (hh : dev.ImageDestinationPixelFormat = some hDst)
    (hi : gst_impactacquire_pixel_format_infos[i]? = some info)
    (hs : selectable caps src dev info = true)
    (hfirst : ∀ j info2, j < i → gst_impactacquire_pixel_format_infos[j]? = some info2 →
      selectable caps src dev info2 = false) :
    (gst_impactacquiresrc_set_caps src dev caps).ret = true ∧
    (gst_impactacquiresrc_set_caps src dev caps).selected = some i ∧
    (gst_impactacquiresrc_set_caps src dev caps).src.gst_pixel_format = info.gst_pixel_format ∧
    (gst_impactacquiresrc_set_caps src dev caps).visited = List.range (i + 1) ∧
    (∀ (src2 : GstImpactAcquireSrc) (dev2 : Device), same_dictionaries dev dev2 →
        (gst_impactacquiresrc_set_caps src2 dev2 caps).ret = true ∧
        (gst_impactacquiresrc_set_caps src2 dev2 caps).selected = some i ∧
        (gst_impactacquiresrc_set_caps src2 dev2 caps).src.gst_pixel_format
          = info.gst_pixel_format ∧
        (gst_impactacquiresrc_set_caps src2 dev2 caps).visited = List.range (i + 1)) ∧
    (gst_impactacquiresrc_set_caps (gst_impactacquiresrc_set_caps src dev caps).src
      (gst_impactacquiresrc_set_caps src dev caps).dev caps).selected = some i := by
  have general : ∀ (src2 : GstImpactAcquireSrc) (dev2 : Device), same_dictionaries dev dev2 →
        (gst_impactacquiresrc_set_caps src2 dev2 caps).ret = true ∧
        (gst_impactacquiresrc_set_caps src2 dev2 caps).selected = some i ∧
        (gst_impactacquiresrc_set_caps src2 dev2 caps).src.gst_pixel_format
          = info.gst_pixel_format ∧
        (gst_impactacquiresrc_set_caps src2 dev2 caps).visited = List.range (i + 1) := by
    intro src2 dev2 hd
    obtain ⟨hDst2, hh2⟩ := handle_of_same_dictionaries dev dev2 hDst hh hd
    have hs2 : selectable caps src2 dev2 info = true := by
      rw [selectable_congr_dict caps src src2 dev dev2 hd]; exact hs
    have hpre2 : ∀ x ∈ gst_impactacquire_pixel_format_infos.take i,
        selectable caps src2 dev2 x = false := by
      intro x hx
      rw [selectable_congr_dict caps src src2 dev dev2 hd]
      exact pre_of_first caps src dev i hfirst x hx
    have hrun := set_caps_first caps src2 dev2 hDst2 i info hh2 hi hs2 hpre2
    obtain ⟨h1, h2, h3, h4, _⟩ := selected_of_eq _ _ _ i hrun
    refine ⟨h1, h2, ?_, h3⟩
    rw [h4]
    exact (entry_selectable caps info src2 dev2 hs2).2
  have hpre := pre_of_first caps src dev i hfirst
  have hrun := set_caps_first caps src dev hDst i info hh hi hs hpre
  obtain ⟨_, _, _, _, hdev⟩ := selected_of_eq _ _ _ i hrun
  obtain ⟨g1, g2, g3, g4⟩ := general src dev ⟨rfl, rfl⟩
  refine ⟨g1, g2, g3, g4, general, ?_⟩
  have hk := entry_keeps caps info src dev
  rw [← hdev] at hk
  exact (general _ _ hk.2).2.1

/-- C1 at a device that emits `Mono8` and `BGR8` natively and converts nothing, for
a `BGR` proposal: the walk passes the nine entries before `BGR8` and stops there. -/
theorem set_caps_selects_first_match_witness :
    (gst_impactacquiresrc_set_caps gst_impactacquiresrc_init
      (device_with ["Mono8", "BGR8"] [] "Mono8") (video_caps "BGR")).selected = some 9 ∧
    (gst_impactacquiresrc_set_caps gst_impactacquiresrc_init
      (device_with ["Mono8", "BGR8"] [] "Mono8") (video_caps "BGR")).src.gst_pixel_format = "BGR" ∧
    (gst_impactacquiresrc_set_caps gst_impactacquiresrc_init
      (device_with ["Mono8", "BGR8"] [] "Mono8") (video_caps "BGR")).visited
        = [0, 1, 2, 3, 4, 5, 6, 7, 8, 9] := by
  have hall : ∀ x ∈ gst_impactacquire_pixel_format_infos.take 9,
      selectable (video_caps "BGR") gst_impactacquiresrc_init
        (device_with ["Mono8", "BGR8"] [] "Mono8") x = false := by decide
  have h := set_caps_selects_first_match (video_caps "BGR") gst_impactacquiresrc_init
    (device_with ["Mono8", "BGR8"] [] "Mono8") ⟨some "Raw", some []⟩ 9
    ⟨"BGR8", "RGB888Packed", 0, "BGR", CapsString.GST_VIDEO_CAPS_MAKE "BGR", 24, 24, 4⟩
    rfl (by decide) (by decide)
    (by
      intro j info2 hj hget
      apply hall
      rw [List.mem_iff_getElem?]
      exact ⟨j, by rw [List.getElem?_take]; simp [hj, hget]⟩)
  exact ⟨h.2.1, h.2.2.1, h.2.2.2.1⟩

/-- C5: whenever `gst_impactacquiresrc_set_caps` returns `FALSE`, the
`ImageDestination` `PixelFormat` handle could not be obtained or no catalog entry
is both covering and satisfiable, no device property has been written (the device,
its write log included, is what it was) and the element, so `src_pixel_format`,
`dest_pixel_format` and `gst_pixel_format`, is what it was before the call. -/
theorem set_caps_failure_is_atomic (caps : GstCaps) (src : GstImpactAcquireSrc) (dev : Device)
    (h : (gst_impactacquiresrc_set_caps src dev caps).ret = false) :
    (dev.ImageDestinationPixelFormat = none ∨
      ∀ x ∈ gst_impactacquire_pixel_format_infos, selectable caps src dev x = false) ∧
    (gst_impactacquiresrc_set_caps src dev caps).dev.writes = dev.writes ∧
    (gst_impactacquiresrc_set_caps src dev caps).dev = dev ∧
    (gst_impactacquiresrc_set_caps src dev caps).src.src_pixel_format = src.src_pixel_format ∧
    (gst_impactacquiresrc_set_caps src dev caps).src.dest_pixel_format = src.dest_pixel_format ∧
    (gst_impactacquiresrc_set_caps src dev caps).src.gst_pixel_format = src.gst_pixel_format ∧
    (gst_impactacquiresrc_set_caps src dev caps).src = src := by
  obtain ⟨h1, h2⟩ := set_caps_false caps src dev
  obtain ⟨hsrc, hdev⟩ := h2 h
  refine ⟨h1.mp h, ?_, hdev, ?_, ?_, ?_, hsrc⟩
  · rw [hdev]
  · rw [hsrc]
  · rw [hsrc]
  · rw [hsrc]

/-- C5 at a device that emits `Mono8` only and converts nothing, for an `IYU2`
proposal: the call fails and the device and the element are as before. -/
theorem set_caps_failure_is_atomic_witness :
    (gst_impactacquiresrc_set_caps gst_impactacquiresrc_init
      (device_with ["Mono8"] [] "Mono8") (video_caps "IYU2")).ret = false ∧
    (gst_impactacquiresrc_set_caps gst_impactacquiresrc_init
      (device_with ["Mono8"] [] "Mono8") (video_caps "IYU2")).dev
        = device_with ["Mono8"] [] "Mono8" ∧
    (gst_impactacquiresrc_set_caps gst_impactacquiresrc_init
      (device_with ["Mono8"] [] "Mono8") (video_caps "IYU2")).src = gst_impactacquiresrc_init := by
  have hret : (gst_impactacquiresrc_set_caps gst_impactacquiresrc_init
      (device_with ["Mono8"] [] "Mono8") (video_caps "IYU2")).ret = false := by decide
  have h := set_caps_failure_is_atomic (video_caps "IYU2") gst_impactacquiresrc_init
    (device_with ["Mono8"] [] "Mono8") hret
  exact ⟨hret, h.2.2.1, h.2.2.2.2.2.2⟩


/-- C2: native-match path. For every catalog entry that covers the proposed caps and
to which the device-debayers branch does not apply, if the source-format
dictionary contains the entry's `pixel_format`, then the loop body of `set_caps`
writes the device source `PixelFormat` to exactly that `pixel_format`, then the
`ImageDestination` `PixelFormat` to the pass-through default `"Raw"`, and records
the entry's output layout; this is what the call as a whole does when the walk
reaches the entry. With native formats `{"Mono8"}`, an empty conversion dictionary
and a `GRAY8` proposal the result is source `"Mono8"`, destination `"Raw"`, output
layout `GRAY8`, whatever the debayer flag. -/
theorem set_caps_native_match :
    (∀ (caps : GstCaps) (src : GstImpactAcquireSrc) (dev : Device)
        (info : GstImpactAcquirePixelFormatInfo),
      gst_caps_is_subset caps info.gst_caps_string = true →
      device_debayers src dev info = false →
      native_match dev info = true →
        (set_caps_entry caps info src dev).1 = true ∧
        (set_caps_entry caps info src dev).2.2.writes
          = dev.writes ++ [(DeviceProperty.ImageFormatControl_PixelFormat, info.pixel_format),
              (DeviceProperty.ImageDestination_PixelFormat, "Raw")] ∧
        (set_caps_entry caps info src dev).2.1
          = { src with
              src_pixel_format := info.pixel_format
              dest_pixel_format := "Raw"
              gst_pixel_format := info.gst_pixel_format }) ∧
    (∀ (caps : GstCaps) (src : GstImpactAcquireSrc) (dev : Device) (i : Nat)
        (info : GstImpactAcquirePixelFormatInfo),
      gst_impactacquire_pixel_format_infos[i]? = some info →
      i ∈ (gst_impactacquiresrc_set_caps src dev caps).visited →
      gst_caps_is_subset caps info.gst_caps_string = true →
      device_debayers src dev info = false →
      native_match dev info = true →
        (gst_impactacquiresrc_set_caps src dev caps).ret = true ∧
        (gst_impactacquiresrc_set_caps src dev caps).selected = some i ∧
        (gst_impactacquiresrc_set_caps src dev caps).dev.writes
          = dev.writes ++ [(DeviceProperty.ImageFormatControl_PixelFormat, info.pixel_format),
              (DeviceProperty.ImageDestination_PixelFormat, "Raw")] ∧
        (gst_impactacquiresrc_set_caps src dev caps).dev.ImageFormatControlPixelFormat.value
          = some info.pixel_format ∧
        OBJ_GetSFormattedEx
          (gst_impactacquiresrc_set_caps src dev caps).dev.ImageDestinationPixelFormat
          = some "Raw" ∧
        (gst_impactacquiresrc_set_caps src dev caps).src.src_pixel_format = info.pixel_format ∧
        (gst_impactacquiresrc_set_caps src dev caps).src.dest_pixel_format = "Raw" ∧
        (gst_impactacquiresrc_set_caps src dev caps).src.gst_pixel_format
          = info.gst_pixel_format) ∧
    (∀ (src : GstImpactAcquireSrc) (dev : Device) (hDst : PropertyS),
      dev.ImageFormatControlPixelFormat.dict = some [some "Mono8"] →
      dev.ImageDestinationPixelFormat = some hDst →
      hDst.dict = some [] →
        (gst_impactacquiresrc_set_caps src dev (video_caps "GRAY8")).ret = true ∧
        (gst_impactacquiresrc_set_caps src dev (video_caps "GRAY8")).selected = some 0 ∧
        (gst_impactacquiresrc_set_caps src dev (video_caps "GRAY8")).dev.writes
          = dev.writes ++ [(DeviceProperty.ImageFormatControl_PixelFormat, "Mono8"),
              (DeviceProperty.ImageDestination_PixelFormat, "Raw")] ∧
        (gst_impactacquiresrc_set_caps src dev (video_caps "GRAY8")).src.src_pixel_format
          = "Mono8" ∧
        (gst_impactacquiresrc_set_caps src dev (video_caps "GRAY8")).src.dest_pixel_format
          = "Raw" ∧
        (gst_impactacquiresrc_set_caps src dev (video_caps "GRAY8")).src.gst_pixel_format
          = "GRAY8") := by
  refine ⟨?_, ?_, ?_⟩
  · intro caps src dev info hc hd hn
    rw [entry_native caps info src dev hc hd hn]
    refine ⟨rfl, ?_, rfl⟩
    simp [setPropS, DEFAULT_PROP_DESTINATION_PIXEL_FORMAT]
  · intro caps src dev i info hi hv hc hd hn
    have hs : selectable caps src dev info = true := by
      unfold selectable; simp [hc, hn]
    have hrun := set_caps_visited_selectable caps src dev i info hi hv hs
    rw [entry_native caps info src dev hc hd hn] at hrun
    obtain ⟨h1, h2, _, h4, h5⟩ := selected_of_eq _ _ _ i hrun
    have hh : ∃ hDst, dev.ImageDestinationPixelFormat = some hDst := by
      cases hh : dev.ImageDestinationPixelFormat with
      | none =>
        rw [set_caps_without_handle caps src dev hh] at hv
        exact absurd hv (by simp)
      | some q => exact ⟨q, rfl⟩
    obtain ⟨hDst, hh⟩ := hh
    refine ⟨h1, h2, ?_, ?_, ?_, ?_, ?_, ?_⟩
    · rw [h5]; simp [setPropS, DEFAULT_PROP_DESTINATION_PIXEL_FORMAT]
    · rw [h5]; simp [setPropS]
    · rw [h5]; simp [setPropS, hh, OBJ_GetSFormattedEx, DEFAULT_PROP_DESTINATION_PIXEL_FORMAT]
    · rw [h4]
    · rw [h4]; rfl
    · rw [h4]
  · intro src dev hDst hsrc hh hdst
    have hd : same_dictionaries (device_with ["Mono8"] [] "Mono8") dev := by
      refine ⟨by rw [hsrc]; rfl, ?_⟩
      rw [hh]
      simp [device_with, hdst]
    have hi : gst_impactacquire_pixel_format_infos[0]?
        = some ⟨"Mono8", "Mono8", 0, "GRAY8", CapsString.GST_VIDEO_CAPS_MAKE "GRAY8", 8, 8, 4⟩ := rfl
    have hc : gst_caps_is_subset (video_caps "GRAY8") (CapsString.GST_VIDEO_CAPS_MAKE "GRAY8")
        = true := by decide
    have hn : native_match dev
        ⟨"Mono8", "Mono8", 0, "GRAY8", CapsString.GST_VIDEO_CAPS_MAKE "GRAY8", 8, 8, 4⟩ = true := by
      rw [native_match_congr _ dev hd]
      decide
    have hmono : g_str_has_prefix "Mono8" "Mono" = true := by decide
    have hdeb : device_debayers src dev
        ⟨"Mono8", "Mono8", 0, "GRAY8", CapsString.GST_VIDEO_CAPS_MAKE "GRAY8", 8, 8, 4⟩ = false := by
      unfold device_debayers
      simp [hmono]
    have hs : selectable (video_caps "GRAY8") src dev
        ⟨"Mono8", "Mono8", 0, "GRAY8", CapsString.GST_VIDEO_CAPS_MAKE "GRAY8", 8, 8, 4⟩ = true := by
      unfold selectable; simp [hc, hn]
    have hrun := set_caps_first (video_caps "GRAY8") src dev hDst 0 _ hh hi hs (by simp)
    rw [entry_native _ _ src dev hc hdeb hn] at hrun
    obtain ⟨h1, h2, _, h4, h5⟩ := selected_of_eq _ _ _ 0 hrun
    refine ⟨h1, h2, ?_, ?_, ?_, ?_⟩
    · rw [h5]; simp [setPropS, DEFAULT_PROP_DESTINATION_PIXEL_FORMAT]
    · rw [h4]
    · rw [h4]; rfl
    · rw [h4]

/-- C2 at the device of the scenario with the debayer flag set, through the
statement on the walk and through the scenario statement. -/
theorem set_caps_native_match_witness :
    (gst_impactacquiresrc_set_caps { gst_impactacquiresrc_init with boDebayerOnHost := true }
      (device_with ["Mono8"] [] "Mono8") (video_caps "GRAY8")).dev.writes
        = [(DeviceProperty.ImageFormatControl_PixelFormat, "Mono8"),
            (DeviceProperty.ImageDestination_PixelFormat, "Raw")] ∧
    (gst_impactacquiresrc_set_caps gst_impactacquiresrc_init
      (device_with ["Mono8"] [] "Mono8") (video_caps "GRAY8")).src.gst_pixel_format = "GRAY8" :=
  ⟨(set_caps_native_match.2.1 (video_caps "GRAY8")
      { gst_impactacquiresrc_init with boDebayerOnHost := true }
      (device_with ["Mono8"] [] "Mono8") 0
      ⟨"Mono8", "Mono8", 0, "GRAY8", CapsString.GST_VIDEO_CAPS_MAKE "GRAY8", 8, 8, 4⟩
      rfl (by decide) (by decide) (by decide) (by decide)).2.2.1,
    (set_caps_native_match.2.2 gst_impactacquiresrc_init (device_with ["Mono8"] [] "Mono8")
      ⟨some "Raw", some []⟩ rfl rfl rfl).2.2.2.2.2⟩

/-- C3: device-debayers path. For every catalog entry that covers the proposed caps,
if debayer-on-host is set, `pixel_format` starts with neither `"Mono"` nor
`"Bayer"` and the conversion-stage dictionary contains
`image_destination_pixel_format`, then the loop body of `set_caps` takes this
branch, whether or not the device supports `pixel_format` natively: its only write
is the `ImageDestination` `PixelFormat`, set to `image_destination_pixel_format`;
the device source `PixelFormat` is not written, and the recorded source format is
the value read back from the device (the former one when the read fails). This is
what the call as a whole does when the walk reaches the entry. -/
theorem set_caps_device_debayers :
    (∀ (caps : GstCaps) (src : GstImpactAcquireSrc) (dev : Device)
        (info : GstImpactAcquirePixelFormatInfo),
      gst_caps_is_subset caps info.gst_caps_string = true →
      src.boDebayerOnHost = true →
      g_str_has_prefix info.pixel_format "Mono" = false →
      g_str_has_prefix info.pixel_format "Bayer" = false →
      boDeviceFeatureAvailableInList dev.ImageDestinationPixelFormat
        info.image_destination_pixel_format = true →
        (set_caps_entry caps info src dev).1 = true ∧
        (set_caps_entry caps info src dev).2.2.writes
          = dev.writes ++ [(DeviceProperty.ImageDestination_PixelFormat,
              info.image_destination_pixel_format)] ∧
        (set_caps_entry caps info src dev).2.2.ImageFormatControlPixelFormat
          = dev.ImageFormatControlPixelFormat ∧
        (set_caps_entry caps info src dev).2.1
          = { src with
              src_pixel_format := recorded_read_back src dev
              dest_pixel_format := info.image_destination_pixel_format
              gst_pixel_format := info.gst_pixel_format }) ∧
    (∀ (caps : GstCaps) (src : GstImpactAcquireSrc) (dev : Device) (i : Nat)
        (info : GstImpactAcquirePixelFormatInfo),
      gst_impactacquire_pixel_format_infos[i]? = some info →
      i ∈ (gst_impactacquiresrc_set_caps src dev caps).visited →
      gst_caps_is_subset caps info.gst_caps_string = true →
      src.boDebayerOnHost = true →
      g_str_has_prefix info.pixel_format "Mono" = false →
      g_str_has_prefix info.pixel_format "Bayer" = false →
      boDeviceFeatureAvailableInList dev.ImageDestinationPixelFormat
        info.image_destination_pixel_format = true →
        (gst_impactacquiresrc_set_caps src dev caps).ret = true ∧
        (gst_impactacquiresrc_set_caps src dev caps).selected = some i ∧
        (gst_impactacquiresrc_set_caps src dev caps).dev.writes
          = dev.writes ++ [(DeviceProperty.ImageDestination_PixelFormat,
              info.image_destination_pixel_format)] ∧
        (gst_impactacquiresrc_set_caps src dev caps).dev.ImageFormatControlPixelFormat
          = dev.ImageFormatControlPixelFormat ∧
        (gst_impactacquiresrc_set_caps src dev caps).src.src_pixel_format
          = recorded_read_back src dev ∧
        (∀ v, OBJ_GetSFormattedEx (some dev.ImageFormatControlPixelFormat) = some v →
          (gst_impactacquiresrc_set_caps src dev caps).src.src_pixel_format = v) ∧
        (gst_impactacquiresrc_set_caps src dev caps).src.dest_pixel_format
          = info.image_destination_pixel_format ∧
        (gst_impactacquiresrc_set_caps src dev caps).src.gst_pixel_format
          = info.gst_pixel_format) := by
  have hdeb : ∀ (src : GstImpactAcquireSrc) (dev : Device)
      (info : GstImpactAcquirePixelFormatInfo),
      src.boDebayerOnHost = true →
      g_str_has_prefix info.pixel_format "Mono" = false →
      g_str_has_prefix info.pixel_format "Bayer" = false →
      boDeviceFeatureAvailableInList dev.ImageDestinationPixelFormat
        info.image_destination_pixel_format = true →
      device_debayers src dev info = true := by
    intro src dev info hflag hmono hbayer hdst
    unfold device_debayers; simp [hflag, hmono, hbayer, hdst]
  constructor
  · intro caps src dev info hc hflag hmono hbayer hdst
    rw [entry_debayers caps info src dev hc (hdeb src dev info hflag hmono hbayer hdst)]
    refine ⟨rfl, ?_, ?_, rfl⟩
    · simp [setPropS]
    · simp [setPropS]
  · intro caps src dev i info hi hv hc hflag hmono hbayer hdst
    have hd := hdeb src dev info hflag hmono hbayer hdst
    have hs : selectable caps src dev info = true := by
      unfold selectable; simp [hc, hd]
    have hrun := set_caps_visited_selectable caps src dev i info hi hv hs
    rw [entry_debayers caps info src dev hc hd] at hrun
    obtain ⟨h1, h2, _, h4, h5⟩ := selected_of_eq _ _ _ i hrun
    refine ⟨h1, h2, ?_, ?_, ?_, ?_, ?_, ?_⟩
    · rw [h5]; simp [setPropS]
    · rw [h5]; simp [setPropS]
    · rw [h4]
    · intro v hv2
      rw [h4]
      simp only [OBJ_GetSFormattedEx] at hv2
      simp [recorded_read_back, hv2]
    · rw [h4]
    · rw [h4]

/-- C3 at a device that emits `RGB8` natively and converts to `BGR888Packed`, with
the debayer flag set and an `RGB` proposal: the conversion stage is written, the
source format is the value read back. -/
theorem set_caps_device_debayers_witness :
    native_match (device_with ["RGB8"] ["BGR888Packed"] "BayerRG8")
      ⟨"RGB8", "BGR888Packed", 0, "RGB", CapsString.GST_VIDEO_CAPS_MAKE "RGB", 24, 24, 4⟩ = true ∧
    (gst_impactacquiresrc_set_caps { gst_impactacquiresrc_init with boDebayerOnHost := true }
      (device_with ["RGB8"] ["BGR888Packed"] "BayerRG8") (video_caps "RGB")).dev.writes
        = [(DeviceProperty.ImageDestination_PixelFormat, "BGR888Packed")] ∧
    (gst_impactacquiresrc_set_caps { gst_impactacquiresrc_init with boDebayerOnHost := true }
      (device_with ["RGB8"] ["BGR888Packed"] "BayerRG8") (video_caps "RGB")).src.src_pixel_format
        = "BayerRG8" := by
  have h := set_caps_device_debayers.2 (video_caps "RGB")
    { gst_impactacquiresrc_init with boDebayerOnHost := true }
    (device_with ["RGB8"] ["BGR888Packed"] "BayerRG8") 7
    ⟨"RGB8", "BGR888Packed", 0, "RGB", CapsString.GST_VIDEO_CAPS_MAKE "RGB", 24, 24, 4⟩
    rfl (by decide) (by decide) rfl (by decide) (by decide) (by decide)
  exact ⟨by decide, h.2.2.1, h.2.2.2.2.2.1 "BayerRG8" rfl⟩

/-- C4: forced-conversion path. For every catalog entry that covers the proposed
caps, if neither the device-debayers branch nor the native-match branch applies,
`pixel_format` does not start with `"Bayer"` and the conversion-stage dictionary
contains `image_destination_pixel_format`, then the loop body of `set_caps` writes
the `ImageDestination` `PixelFormat` to that name and nothing else, and records the
read-back source format; this is what the call as a whole does when the walk
reaches the entry. If that condition fails as well, the body leaves element and
device alone, the entry is not selected and the walk goes on to the next entry. -/
theorem set_caps_forced_conversion :
    (∀ (caps : GstCaps) (src : GstImpactAcquireSrc) (dev : Device)
        (info : GstImpactAcquirePixelFormatInfo),
      gst_caps_is_subset caps info.gst_caps_string = true →
      device_debayers src dev info = false →
      native_match dev info = false →
      g_str_has_prefix info.pixel_format "Bayer" = false →
      boDeviceFeatureAvailableInList dev.ImageDestinationPixelFormat
        info.image_destination_pixel_format = true →
        (set_caps_entry caps info src dev).1 = true ∧
        (set_caps_entry caps info src dev).2.2.writes
          = dev.writes ++ [(DeviceProperty.ImageDestination_PixelFormat,
              info.image_destination_pixel_format)] ∧
        (set_caps_entry caps info src dev).2.2.ImageFormatControlPixelFormat
          = dev.ImageFormatControlPixelFormat ∧
        (set_caps_entry caps info src dev).2.1
          = { src with
              src_pixel_format := recorded_read_back src dev
              dest_pixel_format := info.image_destination_pixel_format
              gst_pixel_format := info.gst_pixel_format }) ∧
    (∀ (caps : GstCaps) (src : GstImpactAcquireSrc) (dev : Device) (i : Nat)
        (info : GstImpactAcquirePixelFormatInfo),
      gst_impactacquire_pixel_format_infos[i]? = some info →
      i ∈ (gst_impactacquiresrc_set_caps src dev caps).visited →
      gst_caps_is_subset caps info.gst_caps_string = true →
      device_debayers src dev info = false →
      native_match dev info = false →
      g_str_has_prefix info.pixel_format "Bayer" = false →
      boDeviceFeatureAvailableInList dev.ImageDestinationPixelFormat
        info.image_destination_pixel_format = true →
        (gst_impactacquiresrc_set_caps src dev caps).ret = true ∧
        (gst_impactacquiresrc_set_caps src dev caps).selected = some i ∧
        (gst_impactacquiresrc_set_caps src dev caps).dev.writes
          = dev.writes ++ [(DeviceProperty.ImageDestination_PixelFormat,
              info.image_destination_pixel_format)] ∧
        (gst_impactacquiresrc_set_caps src dev caps).dev.ImageFormatControlPixelFormat
          = dev.ImageFormatControlPixelFormat ∧
        (gst_impactacquiresrc_set_caps src dev caps).src.src_pixel_format
          = recorded_read_back src dev ∧
        (∀ v, OBJ_GetSFormattedEx (some dev.ImageFormatControlPixelFormat) = some v →
          (gst_impactacquiresrc_set_caps src dev caps).src.src_pixel_format = v) ∧
        (gst_impactacquiresrc_set_caps src dev caps).src.dest_pixel_format
          = info.image_destination_pixel_format ∧
        (gst_impactacquiresrc_set_caps src dev caps).src.gst_pixel_format
          = info.gst_pixel_format) ∧
    (∀ (caps : GstCaps) (src : GstImpactAcquireSrc) (dev : Device) (i : Nat)
        (info : GstImpactAcquirePixelFormatInfo),
      gst_impactacquire_pixel_format_infos[i]? = some info →
      i ∈ (gst_impactacquiresrc_set_caps src dev caps).visited →
      gst_caps_is_subset caps info.gst_caps_string = true →
      device_debayers src dev info = false →
      native_match dev info = false →
      forced_conversion dev info = false →
        set_caps_entry caps info src dev = (false, src, dev) ∧
        (gst_impactacquiresrc_set_caps src dev caps).selected ≠ some i ∧
        (i + 1 < gst_impactacquire_pixel_format_infos.length →
          i + 1 ∈ (gst_impactacquiresrc_set_caps src dev caps).visited)) := by
  have hforced : ∀ (dev : Device) (info : GstImpactAcquirePixelFormatInfo),
      g_str_has_prefix info.pixel_format "Bayer" = false →
      boDeviceFeatureAvailableInList dev.ImageDestinationPixelFormat
        info.image_destination_pixel_format = true →
      forced_conversion dev info = true := by
    intro dev info hbayer hdst
    unfold forced_conversion; simp [hbayer, hdst]
  refine ⟨?_, ?_, ?_⟩
  · intro caps src dev info hc hd hn hbayer hdst
    rw [entry_forced caps info src dev hc hd hn (hforced dev info hbayer hdst)]
    refine ⟨rfl, ?_, ?_, rfl⟩
    · simp [setPropS]
    · simp [setPropS]
  · intro caps src dev i info hi hv hc hd hn hbayer hdst
    have hf := hforced dev info hbayer hdst
    have hs : selectable caps src dev info = true := by
      unfold selectable; simp [hc, hf]
    have hrun := set_caps_visited_selectable caps src dev i info hi hv hs
    rw [entry_forced caps info src dev hc hd hn hf] at hrun
    obtain ⟨h1, h2, _, h4, h5⟩ := selected_of_eq _ _ _ i hrun
    refine ⟨h1, h2, ?_, ?_, ?_, ?_, ?_, ?_⟩
    · rw [h5]; simp [setPropS]
    · rw [h5]; simp [setPropS]
    · rw [h4]
    · intro v hv2
      rw [h4]
      simp only [OBJ_GetSFormattedEx] at hv2
      simp [recorded_read_back, hv2]
    · rw [h4]
    · rw [h4]
  · intro caps src dev i info hi hv _ hd hn hf
    have hs : selectable caps src dev info = false := by
      unfold selectable; simp [hd, hn, hf]
    refine ⟨entry_not_selectable caps info src dev hs, ?_, ?_⟩
    · intro hsel
      have := (set_caps_selected caps src dev i info hi hsel).1
      rw [hs] at this
      exact absurd this (by simp)
    · intro hlt
      cases hh : dev.ImageDestinationPixelFormat with
      | none =>
        rw [set_caps_without_handle caps src dev hh] at hv
        exact absurd hv (by simp)
      | some hDst =>
        rw [set_caps_with_handle caps src dev hDst hh] at hv ⊢
        exact loop_visited_not_selectable caps _ src dev i info hi hv hs hlt

/-- C4 at a device that emits `BayerRG8` only and converts to `RGB888Packed`: a
`BGR` proposal is served by forced conversion at entry 9, and for an `RGB` proposal
entry 7 is skipped and entry 8 visited. -/
theorem set_caps_forced_conversion_witness :
    (gst_impactacquiresrc_set_caps gst_impactacquiresrc_init
      (device_with ["BayerRG8"] ["RGB888Packed"] "BayerRG8") (video_caps "BGR")).dev.writes
        = [(DeviceProperty.ImageDestination_PixelFormat, "RGB888Packed")] ∧
    (gst_impactacquiresrc_set_caps gst_impactacquiresrc_init
      (device_with ["BayerRG8"] ["RGB888Packed"] "BayerRG8") (video_caps "BGR")).src.src_pixel_format
        = "BayerRG8" ∧
    8 ∈ (gst_impactacquiresrc_set_caps gst_impactacquiresrc_init
      (device_with ["BayerRG8"] ["RGB888Packed"] "BayerRG8") (video_caps "RGB")).visited := by
  have h := set_caps_forced_conversion.2.1 (video_caps "BGR") gst_impactacquiresrc_init
    (device_with ["BayerRG8"] ["RGB888Packed"] "BayerRG8") 9
    ⟨"BGR8", "RGB888Packed", 0, "BGR", CapsString.GST_VIDEO_CAPS_MAKE "BGR", 24, 24, 4⟩
    rfl (by decide) (by decide) (by decide) (by decide) (by decide) (by decide)
  have h2 := set_caps_forced_conversion.2.2 (video_caps "RGB") gst_impactacquiresrc_init
    (device_with ["BayerRG8"] ["RGB888Packed"] "BayerRG8") 7
    ⟨"RGB8", "BGR888Packed", 0, "RGB", CapsString.GST_VIDEO_CAPS_MAKE "RGB", 24, 24, 4⟩
    rfl (by decide) (by decide) (by decide) (by decide) (by decide)
  exact ⟨h.2.2.1, h.2.2.2.2.2.1 "BayerRG8" rfl, h2.2.2 (by decide)⟩

/-- C6, as stated, fails: a device that emits `BayerRG8` natively, asked for
`video/x-bayer, format=rggb`, makes `set_caps` select entry 3 (`"BayerRG8"`, which
starts with `"Bayer"`), and the call writes `"Raw"` to the `ImageDestination`
`PixelFormat` property. -/
theorem bayer_selection_writes_destination :
    gst_impactacquire_pixel_format_infos[3]?
      = some ⟨"BayerRG8", "Raw", 0, "rggb",
          CapsString.GST_GENICAM_PIXEL_FORMAT_MAKE_BAYER8 "rggb", 8, 8, 1⟩ ∧
    g_str_has_prefix "BayerRG8" "Bayer" = true ∧
    (gst_impactacquiresrc_set_caps gst_impactacquiresrc_init
      (device_with ["BayerRG8"] [] "BayerRG8") (bayer8_caps "rggb")).selected = some 3 ∧
    (gst_impactacquiresrc_set_caps gst_impactacquiresrc_init
      (device_with ["BayerRG8"] [] "BayerRG8") (bayer8_caps "rggb")).dev.writes
        = [(DeviceProperty.ImageFormatControl_PixelFormat, "BayerRG8"),
            (DeviceProperty.ImageDestination_PixelFormat, "Raw")] := by
  decide

/-- C6, amended: when `set_caps` selects a catalog entry whose `pixel_format` starts
with `"Bayer"`, neither conversion branch applies to it and it is selected through
the native-match branch; the call writes the device source `PixelFormat` to the
entry's `pixel_format` and the `ImageDestination` `PixelFormat` to the pass-through
default `"Raw"`, never to another value. -/
theorem set_caps_bayer_resets_destination (caps : GstCaps) (src : GstImpactAcquireSrc)
    (dev : Device) (i : Nat) (info : GstImpactAcquirePixelFormatInfo)
    (hi : gst_impactacquire_pixel_format_infos[i]? = some info)
    (hbayer : g_str_has_prefix info.pixel_format "Bayer" = true)
    (hsel : (gst_impactacquiresrc_set_caps src dev caps).selected = some i) :
    device_debayers src dev info = false ∧
    forced_conversion dev info = false ∧
    native_match dev info = true ∧
    (gst_impactacquiresrc_set_caps src dev caps).dev.writes
      = dev.writes ++ [(DeviceProperty.ImageFormatControl_PixelFormat, info.pixel_format),
          (DeviceProperty.ImageDestination_PixelFormat, DEFAULT_PROP_DESTINATION_PIXEL_FORMAT)] ∧
    (∀ v, (DeviceProperty.ImageDestination_PixelFormat, v)
        ∈ (gst_impactacquiresrc_set_caps src dev caps).dev.writes →
      (DeviceProperty.ImageDestination_PixelFormat, v) ∈ dev.writes ∨ v = "Raw") ∧
    (gst_impactacquiresrc_set_caps src dev caps).src.dest_pixel_format = "Raw" := by
  obtain ⟨hs, hrun⟩ := set_caps_selected caps src dev i info hi hsel
  have hd : device_debayers src dev info = false := by
    unfold device_debayers; simp [hbayer]
  have hf : forced_conversion dev info = false := by
    unfold forced_conversion; simp [hbayer]
  have hn : native_match dev info = true := by
    unfold selectable at hs
    simp only [hd, hf, Bool.false_or, Bool.or_false, Bool.and_eq_true] at hs
    exact hs.2
  have hc : gst_caps_is_subset caps info.gst_caps_string = true := by
    unfold selectable at hs
    simp only [Bool.and_eq_true] at hs
    exact hs.1
  rw [entry_native caps info src dev hc hd hn] at hrun
  obtain ⟨_, _, _, h4, h5⟩ := selected_of_eq _ _ _ i hrun
  have hw : (gst_impactacquiresrc_set_caps src dev caps).dev.writes
      = dev.writes ++ [(DeviceProperty.ImageFormatControl_PixelFormat, info.pixel_format),
          (DeviceProperty.ImageDestination_PixelFormat, DEFAULT_PROP_DESTINATION_PIXEL_FORMAT)] := by
    rw [h5]; simp [setPropS]
  refine ⟨hd, hf, hn, hw, ?_, ?_⟩
  · intro v hv
    rw [hw] at hv
    simp only [List.mem_append, List.mem_cons, Prod.mk.injEq, List.mem_singleton, false_and,
      true_and, false_or, List.not_mem_nil, or_false, reduceCtorEq] at hv
    rcases hv with hv | hv
    · left; exact hv
    · right; rw [hv]; rfl
  · rw [h4]; rfl

/-- C6, amended, at a device that emits `BayerGR8` natively and converts to
`BGR888Packed`, with the debayer flag set, for `video/x-bayer, format=grbg`. -/
theorem set_caps_bayer_resets_destination_witness :
    (gst_impactacquiresrc_set_caps { gst_impactacquiresrc_init with boDebayerOnHost := true }
      (device_with ["BayerGR8"] ["BGR888Packed"] "BayerGR8") (bayer8_caps "grbg")).selected
        = some 5 ∧
    (gst_impactacquiresrc_set_caps { gst_impactacquiresrc_init with boDebayerOnHost := true }
      (device_with ["BayerGR8"] ["BGR888Packed"] "BayerGR8") (bayer8_caps "grbg")).dev.writes
        = [(DeviceProperty.ImageFormatControl_PixelFormat, "BayerGR8"),
            (DeviceProperty.ImageDestination_PixelFormat, "Raw")] := by
  have hsel : (gst_impactacquiresrc_set_caps
      { gst_impactacquiresrc_init with boDebayerOnHost := true }
      (device_with ["BayerGR8"] ["BGR888Packed"] "BayerGR8") (bayer8_caps "grbg")).selected
        = some 5 := by decide
  have h := set_caps_bayer_resets_destination (bayer8_caps "grbg")
    { gst_impactacquiresrc_init with boDebayerOnHost := true }
    (device_with ["BayerGR8"] ["BGR888Packed"] "BayerGR8") 5
    ⟨"BayerGR8", "Raw", 0, "grbg", CapsString.GST_GENICAM_PIXEL_FORMAT_MAKE_BAYER8 "grbg", 8, 8, 1⟩
    rfl (by decide) hsel
  exact ⟨hsel, h.2.2.2.1⟩

/-- C7, as stated, fails: with native formats `{"BayerRG8"}`, conversion-stage
formats `{"BGR888Packed"}`, an `RGB` proposal and debayer-on-host set, `set_caps`
returns `TRUE`; it selected entry 7 (`"RGB8"`), wrote `"BGR888Packed"` to the
`ImageDestination` `PixelFormat` and changed the negotiated formats of the element. -/
theorem bayer_device_serves_rgb :
    (gst_impactacquiresrc_set_caps { gst_impactacquiresrc_init with boDebayerOnHost := true }
      (device_with ["BayerRG8"] ["BGR888Packed"] "BayerRG8") (video_caps "RGB")).ret = true ∧
    (gst_impactacquiresrc_set_caps { gst_impactacquiresrc_init with boDebayerOnHost := true }
      (device_with ["BayerRG8"] ["BGR888Packed"] "BayerRG8") (video_caps "RGB")).selected
        = some 7 ∧
    (gst_impactacquiresrc_set_caps { gst_impactacquiresrc_init with boDebayerOnHost := true }
      (device_with ["BayerRG8"] ["BGR888Packed"] "BayerRG8") (video_caps "RGB")).dev.writes
        = [(DeviceProperty.ImageDestination_PixelFormat, "BGR888Packed")] ∧
    (gst_impactacquiresrc_set_caps { gst_impactacquiresrc_init with boDebayerOnHost := true }
      (device_with ["BayerRG8"] ["BGR888Packed"] "BayerRG8") (video_caps "RGB")).src.gst_pixel_format
        = "RGB" ∧
    gst_impactacquiresrc_init.gst_pixel_format = "GRAY8" := by
  decide

/-- C7, amended: with native formats `{"BayerRG8"}`, conversion-stage formats
`{"BGR888Packed"}`, an `RGB` proposal and debayer-on-host set, `set_caps` finds a
match at the `"RGB8"` entry through the device-debayers branch: it returns `TRUE`,
writes `"BGR888Packed"` to the `ImageDestination` `PixelFormat` and nothing else,
leaves the device source `PixelFormat` alone and records destination
`"BGR888Packed"`, output layout `RGB` and the read-back source format. -/
theorem set_caps_bayer_device_rgb (src : GstImpactAcquireSrc) (dev : Device) (hDst : PropertyS)
    (hflag : src.boDebayerOnHost = true)
    (hsrc : dev.ImageFormatControlPixelFormat.dict = some [some "BayerRG8"])
    (hh : dev.ImageDestinationPixelFormat = some hDst)
    (hdst : hDst.dict = some [some "BGR888Packed"]) :
    (gst_impactacquiresrc_set_caps src dev (video_caps "RGB")).ret = true ∧
    (gst_impactacquiresrc_set_caps src dev (video_caps "RGB")).selected = some 7 ∧
    (gst_impactacquiresrc_set_caps src dev (video_caps "RGB")).dev.writes
      = dev.writes ++ [(DeviceProperty.ImageDestination_PixelFormat, "BGR888Packed")] ∧
    (gst_impactacquiresrc_set_caps src dev (video_caps "RGB")).dev.ImageFormatControlPixelFormat
      = dev.ImageFormatControlPixelFormat ∧
    (gst_impactacquiresrc_set_caps src dev (video_caps "RGB")).src.src_pixel_format
      = recorded_read_back src dev ∧
    (gst_impactacquiresrc_set_caps src dev (video_caps "RGB")).src.dest_pixel_format
      = "BGR888Packed" ∧
    (gst_impactacquiresrc_set_caps src dev (video_caps "RGB")).src.gst_pixel_format = "RGB" := by
  have hd : same_dictionaries (device_with ["BayerRG8"] ["BGR888Packed"] "BayerRG8") dev := by
    refine ⟨by rw [hsrc]; rfl, ?_⟩
    rw [hh]
    simp [device_with, hdst]
  have hf : src.boDebayerOnHost
      = ({ gst_impactacquiresrc_init with boDebayerOnHost := true } : GstImpactAcquireSrc).boDebayerOnHost :=
    hflag
  have hi : gst_impactacquire_pixel_format_infos[7]?
      = some ⟨"RGB8", "BGR888Packed", 0, "RGB", CapsString.GST_VIDEO_CAPS_MAKE "RGB", 24, 24, 4⟩ :=
    rfl
  have hc : gst_caps_is_subset (video_caps "RGB") (CapsString.GST_VIDEO_CAPS_MAKE "RGB")
      = true := by decide
  have hdeb : device_debayers src dev
      ⟨"RGB8", "BGR888Packed", 0, "RGB", CapsString.GST_VIDEO_CAPS_MAKE "RGB", 24, 24, 4⟩ = true := by
    rw [device_debayers_congr _ src _ dev hf hd]
    decide
  have hs : selectable (video_caps "RGB") src dev
      ⟨"RGB8", "BGR888Packed", 0, "RGB", CapsString.GST_VIDEO_CAPS_MAKE "RGB", 24, 24, 4⟩ = true := by
    unfold selectable; simp [hc, hdeb]
  have hpre0 : ∀ x ∈ gst_impactacquire_pixel_format_infos.take 7,
      selectable (video_caps "RGB") { gst_impactacquiresrc_init with boDebayerOnHost := true }
        (device_with ["BayerRG8"] ["BGR888Packed"] "BayerRG8") x = false := by decide
  have hpre : ∀ x ∈ gst_impactacquire_pixel_format_infos.take 7,
      selectable (video_caps "RGB") src dev x = false := by
    intro x hx
    rw [selectable_congr _ _ src _ dev hf hd]
    exact hpre0 x hx
  have hrun := set_caps_first (video_caps "RGB") src dev hDst 7 _ hh hi hs hpre
  rw [entry_debayers _ _ src dev hc hdeb] at hrun
  obtain ⟨h1, h2, _, h4, h5⟩ := selected_of_eq _ _ _ 7 hrun
  refine ⟨h1, h2, ?_, ?_, ?_, ?_, ?_⟩
  · rw [h5]; simp [setPropS]
  · rw [h5]; simp [setPropS]
  · rw [h4]
  · rw [h4]
  · rw [h4]

/-- C7, amended, at an element that had negotiated `BGR` before and a device that
currently emits `BayerRG8` with a `"Mono8"` conversion left over. -/
theorem set_caps_bayer_device_rgb_witness :
    (gst_impactacquiresrc_set_caps
      { gst_impactacquiresrc_init with boDebayerOnHost := true, gst_pixel_format := "BGR" }
      ⟨⟨some "BayerRG8", some [some "BayerRG8"]⟩, some ⟨some "Mono8", some [some "BGR888Packed"]⟩, []⟩
      (video_caps "RGB")).ret = true ∧
    (gst_impactacquiresrc_set_caps
      { gst_impactacquiresrc_init with boDebayerOnHost := true, gst_pixel_format := "BGR" }
      ⟨⟨some "BayerRG8", some [some "BayerRG8"]⟩, some ⟨some "Mono8", some [some "BGR888Packed"]⟩, []⟩
      (video_caps "RGB")).src.gst_pixel_format = "RGB" :=
  have h := set_caps_bayer_device_rgb
    { gst_impactacquiresrc_init with boDebayerOnHost := true, gst_pixel_format := "BGR" }
    ⟨⟨some "BayerRG8", some [some "BayerRG8"]⟩, some ⟨some "Mono8", some [some "BGR888Packed"]⟩, []⟩
    ⟨some "Mono8", some [some "BGR888Packed"]⟩ rfl rfl rfl rfl
  ⟨h.1, h.2.2.2.2.2.2⟩

/-- C8: for every dictionary and every feature name (C strings: no NUL inside, the
name shorter than `G_MAXSIZE`), `boDeviceFeatureAvailableInList` returns `TRUE` if
and only if the dictionary hands out a string equal to the name under ASCII
case-insensitive comparison of the whole string. It returns `FALSE` for a
dictionary that hands out nothing, and for a name that is only a proper start of
every entry. -/
theorem boDeviceFeatureAvailableInList_spec (hProp : HOBJ) (strFeature : String)
    (hlen : strFeature.length < G_MAXSIZE) (hs : nul_free strFeature)
    (hD : ∀ p ∈ dict_strings hProp, nul_free p) :
    (boDeviceFeatureAvailableInList hProp strFeature = true ↔
      ∃ p ∈ dict_strings hProp, ascii_case_eq strFeature p) ∧
    (dict_strings hProp = [] → boDeviceFeatureAvailableInList hProp strFeature = false) ∧
    ((∀ p ∈ dict_strings hProp, ∃ t, t ≠ [] ∧ p.data = strFeature.data ++ t) →
      boDeviceFeatureAvailableInList hProp strFeature = false) := by
  have hiff := available_iff hProp strFeature hlen hs hD
  refine ⟨hiff, ?_, ?_⟩
  · intro hnil
    cases hb : boDeviceFeatureAvailableInList hProp strFeature with
    | false => rfl
    | true =>
      obtain ⟨p, hp, _⟩ := hiff.mp hb
      rw [hnil] at hp
      exact absurd hp (by simp)
  · intro hpre
    cases hb : boDeviceFeatureAvailableInList hProp strFeature with
    | false => rfl
    | true =>
      obtain ⟨p, hp, heq⟩ := hiff.mp hb
      obtain ⟨t, ht, hpt⟩ := hpre p hp
      unfold ascii_case_eq at heq
      have hl := congrArg List.length heq
      rw [hpt] at hl
      simp only [List.length_map, List.length_append] at hl
      have : t.length = 0 := by omega
      exact absurd (List.length_eq_zero.mp this) ht

/-- C8 at a dictionary of three entries, the second of which cannot be read: the
name `"bayerrg8"` is found in spite of its case, the name `"Bayer"` is not. -/
theorem boDeviceFeatureAvailableInList_spec_witness :
    boDeviceFeatureAvailableInList (some ⟨none, some [some "Mono8", none, some "BayerRG8"]⟩)
      "bayerrg8" = true ∧
    boDeviceFeatureAvailableInList (some ⟨none, some [some "BayerGR8", none, some "BayerRG8"]⟩)
      "Bayer" = false :=
  ⟨(boDeviceFeatureAvailableInList_spec (some ⟨none, some [some "Mono8", none, some "BayerRG8"]⟩)
      "bayerrg8" (by decide) (by decide) (by decide)).1.mpr ⟨"BayerRG8", by decide, by decide⟩,
    (boDeviceFeatureAvailableInList_spec
      (some ⟨none, some [some "BayerGR8", none, some "BayerRG8"]⟩)
      "Bayer" (by decide) (by decide) (by decide)).2.2 (by
        intro p hp
        have hp2 : p = "BayerGR8" ∨ p = "BayerRG8" := by
          simpa [dict_strings] using hp
        rcases hp2 with rfl | rfl
        · exact ⟨['G', 'R', '8'], by simp, rfl⟩
        · exact ⟨['R', 'G', '8'], by simp, rfl⟩)⟩


/-! ## Frame delivery -/

section delivery

variable {σ : Type} (drv : Driver σ)

/-- A call that went through the delivery branch returns `GST_FLOW_OK` with a buffer
that carries the frame number the call started with, and adds one to it. -/
theorem create_wait_delivered (src : GstImpactAcquireSrc) (buf : Option GstBuffer) (w : World σ)
    (h : (create_wait drv src buf w).path = CreatePath.delivered) :
    (create_wait drv src buf w).ret = some GstFlowReturn.GST_FLOW_OK ∧
    (create_wait drv src buf w).src
      = { src with frameNumber := guint64_add src.frameNumber 1 } ∧
    (create_wait drv src buf w).buf.map (fun b => (b.offset, b.offset_end))
      = some (src.frameNumber, guint64_add src.frameNumber 1) := by
  unfold create_wait at h ⊢
  by_cases h1 : (ImageRequestWaitFor drv w 500).1 = TDMR_ERROR.DMR_NO_ERROR
  · by_cases h2 : (GetImageRequestResultEx drv (ImageRequestWaitFor drv w 500).2.2
        (ImageRequestWaitFor drv w 500).2.1).1 = TDMR_ERROR.DMR_NO_ERROR ∧
        (GetImageRequestResultEx drv (ImageRequestWaitFor drv w 500).2.2
          (ImageRequestWaitFor drv w 500).2.1).2.1 = TRequestResult.rrOK
    · by_cases h3 : (GetImageRequestBuffer drv
          (GetImageRequestResultEx drv (ImageRequestWaitFor drv w 500).2.2
            (ImageRequestWaitFor drv w 500).2.1).2.2
          (ImageRequestWaitFor drv w 500).2.1).1 = TDMR_ERROR.DMR_NO_ERROR
      · simp [h1, h2, h3, gst_buffer_new_wrapped_full]
      · simp only [h1, h2, h3, if_true, if_false, and_self] at h
        cases buf <;> simp at h
    · simp only [h1, h2, if_true, if_false] at h
      cases buf <;> (simp only at h; split at h <;> simp at h)
  · simp [h1] at h

/-- A call whose wait failed returns `GST_FLOW_OK` and leaves element and `*buf` alone. -/
theorem create_wait_wait_failed (src : GstImpactAcquireSrc) (buf : Option GstBuffer)
    (w : World σ) (h : (create_wait drv src buf w).path = CreatePath.wait_failed) :
    (create_wait drv src buf w).ret = some GstFlowReturn.GST_FLOW_OK ∧
    (create_wait drv src buf w).src = src ∧ (create_wait drv src buf w).buf = buf := by
  unfold create_wait at h ⊢
  by_cases h1 : (ImageRequestWaitFor drv w 500).1 = TDMR_ERROR.DMR_NO_ERROR
  · by_cases h2 : (GetImageRequestResultEx drv (ImageRequestWaitFor drv w 500).2.2
        (ImageRequestWaitFor drv w 500).2.1).1 = TDMR_ERROR.DMR_NO_ERROR ∧
        (GetImageRequestResultEx drv (ImageRequestWaitFor drv w 500).2.2
          (ImageRequestWaitFor drv w 500).2.1).2.1 = TRequestResult.rrOK
    · by_cases h3 : (GetImageRequestBuffer drv
          (GetImageRequestResultEx drv (ImageRequestWaitFor drv w 500).2.2
            (ImageRequestWaitFor drv w 500).2.1).2.2
          (ImageRequestWaitFor drv w 500).2.1).1 = TDMR_ERROR.DMR_NO_ERROR
      · simp [h1, h2, h3] at h
      · simp only [h1, h2, h3, if_true, if_false, and_self] at h
        cases buf <;> simp at h
    · simp only [h1, h2, if_true, if_false] at h
      cases buf <;> (simp only at h; split at h <;> simp at h)
  · simp [h1]

/-- `create_wait` never reports a failed start. -/
theorem create_wait_not_start_failed (src : GstImpactAcquireSrc) (buf : Option GstBuffer)
    (w : World σ) : (create_wait drv src buf w).path ≠ CreatePath.start_failed := by
  unfold create_wait
  by_cases h1 : (ImageRequestWaitFor drv w 500).1 = TDMR_ERROR.DMR_NO_ERROR
  · by_cases h2 : (GetImageRequestResultEx drv (ImageRequestWaitFor drv w 500).2.2
        (ImageRequestWaitFor drv w 500).2.1).1 = TDMR_ERROR.DMR_NO_ERROR ∧
        (GetImageRequestResultEx drv (ImageRequestWaitFor drv w 500).2.2
          (ImageRequestWaitFor drv w 500).2.1).2.1 = TRequestResult.rrOK
    · by_cases h3 : (GetImageRequestBuffer drv
          (GetImageRequestResultEx drv (ImageRequestWaitFor drv w 500).2.2
            (ImageRequestWaitFor drv w 500).2.1).2.2
          (ImageRequestWaitFor drv w 500).2.1).1 = TDMR_ERROR.DMR_NO_ERROR
      · simp [h1, h2, h3]
      · simp only [h1, h2, h3, if_true, if_false, and_self]
        cases buf <;> simp
    · simp only [h1, h2, if_true, if_false]
      cases buf <;> (simp only; split <;> simp)
  · simp [h1]

end delivery


section session

variable {σ : Type} (drv : Driver σ)

/-- What `gst_impactacquiresrc_start_acquisition` hands back when it is entered with
the acquisition not running. -/
theorem start_acquisition_cases (fuel : Nat) (src : GstImpactAcquireSrc) (w : World σ)
    (b : Bool) (src1 : GstImpactAcquireSrc) (w1 : World σ)
    (hrun : src.boAcquisitionRunning = false)
    (h : gst_impactacquiresrc_start_acquisition drv fuel src w = some (b, src1, w1)) :
    (b = true ∧
      src1 = { src with frameNumber := 0, failedFrames := 0, boAcquisitionRunning := true }) ∨
    (b = false ∧ src1 = src) := by
  unfold gst_impactacquiresrc_start_acquisition at h
  simp only at h
  split at h
  · exact absurd h (by simp)
  · rename_i res wp _
    by_cases hstart : (AcquisitionStart drv wp).1 = TDMR_ERROR.DMR_NO_ERROR
    · simp only [hstart, ne_eq, not_true_eq_false, if_false, Option.some.injEq,
        Prod.mk.injEq] at h
      obtain ⟨hb, hs, _⟩ := h
      left
      exact ⟨hb.symm, hs.symm⟩
    · simp only [hstart, ne_eq, not_false_eq_true, if_true, Option.some.injEq,
        Prod.mk.injEq] at h
      obtain ⟨hb, hs, _⟩ := h
      right
      exact ⟨by rw [← hb, hrun], hs.symm⟩

/-- The frame number a call of `create` works with: the one of the element when the
acquisition runs, zero after the start the call performs otherwise. -/
theorem create_cases (fuel : Nat) (src : GstImpactAcquireSrc) (buf : Option GstBuffer)
    (w : World σ) (r : CreateResult σ)
    (h : gst_impactacquiresrc_create drv fuel src buf w = some r) :
    (r.path = CreatePath.start_failed ∧ r.src = src ∧ src.boAcquisitionRunning = false) ∨
    (∃ (src1 : GstImpactAcquireSrc) (w1 : World σ), r = create_wait drv src1 buf w1 ∧
      src1.boAcquisitionRunning = true ∧
      src1.frameNumber = (if src.boAcquisitionRunning then src.frameNumber else 0)) := by
  unfold gst_impactacquiresrc_create at h
  cases hrun : src.boAcquisitionRunning with
  | true =>
    simp only [hrun, Bool.not_true, Bool.false_eq_true, if_false, Option.some.injEq] at h
    right
    exact ⟨src, w, h.symm, hrun, by simp⟩
  | false =>
    simp only [hrun, Bool.not_false, if_true] at h
    cases hst : gst_impactacquiresrc_start_acquisition drv fuel src w with
    | none => rw [hst] at h; exact absurd h (by simp)
    | some t =>
      obtain ⟨b, src1, w1⟩ := t
      rw [hst] at h
      rcases start_acquisition_cases drv fuel src w b src1 w1 hrun hst with
        ⟨hb, hs⟩ | ⟨hb, hs⟩
      · subst hb
        simp only [Option.some.injEq] at h
        right
        exact ⟨src1, w1, h.symm, by rw [hs], by rw [hs]; simp⟩
      · subst hb
        simp only [Option.some.injEq] at h
        left
        rw [← h]
        exact ⟨rfl, hs, rfl⟩

/-- Offsets of the frames a session without failed frames delivers, from an element
whose frame number stands at `n` modulo `2^64` (at any value when the acquisition
has not started and `n = 0`). -/
theorem session_offsets (fuel : Nat) (bufs : List (Option GstBuffer)) :
    ∀ (src : GstImpactAcquireSrc) (w : World σ) (n : Nat),
      (if src.boAcquisitionRunning then src.frameNumber = n % 18446744073709551616 else n = 0) →
      no_failed_frames (create_calls drv fuel bufs src w) →
      delivered_offsets (create_calls drv fuel bufs src w)
        = (List.range' n (delivered_calls (create_calls drv fuel bufs src w)).length).map
            (fun k => some (k % 18446744073709551616, (k + 1) % 18446744073709551616)) := by
  induction bufs with
  | nil => intro src w n _ _; simp [create_calls, delivered_offsets, delivered_calls]
  | cons buf rest ih =>
    intro src w n hJ hno
    unfold create_calls at hno ⊢
    cases hc : gst_impactacquiresrc_create drv fuel src buf w with
    | none => simp [delivered_offsets, delivered_calls]
    | some r =>
      rw [hc] at hno
      simp only at hno ⊢
      have hfn : (if src.boAcquisitionRunning then src.frameNumber else 0)
          = n % 18446744073709551616 := by
        cases hrun : src.boAcquisitionRunning with
        | true => simpa [hrun] using hJ
        | false =>
          have : n = 0 := by simpa [hrun] using hJ
          subst this
          simp
      cases hret : r.ret with
      | none =>
        rw [hret] at hno
        simp only at hno ⊢
        have hp := hno r (by simp)
        rcases create_cases drv fuel src buf w r hc with ⟨h1, _, _⟩ | ⟨src1, w1, hr, _, _⟩
        · simp [delivered_offsets, delivered_calls, h1]
        · rcases hp with hp | hp | hp
          · rw [hr] at hp
            exact absurd hp (create_wait_not_start_failed drv src1 buf w1)
          · rw [hr] at hp hret
            rw [(create_wait_wait_failed drv src1 buf w1 hp).1] at hret
            exact absurd hret (by simp)
          · rw [hr] at hp hret
            rw [(create_wait_delivered drv src1 buf w1 hp).1] at hret
            exact absurd hret (by simp)
      | some flow =>
        rw [hret] at hno
        simp only at hno ⊢
        have hp := hno r (by simp)
        have hno_rest : no_failed_frames (create_calls drv fuel rest r.src r.w) :=
          fun x hx => hno x (by simp [hx])
        rcases create_cases drv fuel src buf w r hc with ⟨h1, h2, _⟩ | ⟨src1, w1, hr, hrun1, hf1⟩
        · have hJ2 : (if r.src.boAcquisitionRunning then
              r.src.frameNumber = n % 18446744073709551616 else n = 0) := by rw [h2]; exact hJ
          have := ih r.src r.w n hJ2 hno_rest
          simp only [delivered_offsets, delivered_calls, List.filter_cons, h1] at this ⊢
          simpa using this
        · rcases hp with hp | hp | hp
          · rw [hr] at hp
            exact absurd hp (create_wait_not_start_failed drv src1 buf w1)
          · have hp0 := hp
            rw [hr] at hp
            obtain ⟨_, hs, _⟩ := create_wait_wait_failed drv src1 buf w1 hp
            have hJ2 : (if r.src.boAcquisitionRunning then
                r.src.frameNumber = n % 18446744073709551616 else n = 0) := by
              rw [hr, hs, hrun1, hf1]
              simpa using hfn
            have := ih r.src r.w n hJ2 hno_rest
            simp only [delivered_offsets, delivered_calls, List.filter_cons, hp0] at this ⊢
            simpa using this
          · have hp0 := hp
            rw [hr] at hp
            obtain ⟨_, hs, hb⟩ := create_wait_delivered drv src1 buf w1 hp
            rw [← hr] at hs hb
            have hsf : src1.frameNumber = n % 18446744073709551616 := hf1.trans hfn
            have hJ2 : (if r.src.boAcquisitionRunning then
                r.src.frameNumber = (n + 1) % 18446744073709551616 else n + 1 = 0) := by
              rw [hs]
              simp only [hrun1, if_true, guint64_add, hsf]
              omega
            have := ih r.src r.w (n + 1) hJ2 hno_rest
            simp only [delivered_offsets, delivered_calls, List.filter_cons, hp0, decide_True,
              if_true, List.map_cons, List.length_cons, List.range'_succ, hb] at this ⊢
            rw [this]
            simp only [guint64_add, hsf, List.cons.injEq, Option.some.injEq, Prod.mk.injEq,
              and_true, true_and]
            omega

end session


/-- A call that went through a failed-frame branch counts the failure; entered with
a buffer in `*buf` it stamps that buffer and adds one to the frame number, entered
with `NULL` in `*buf` it does not return. -/
theorem create_wait_failed_frame {σ : Type} (drv : Driver σ) (src : GstImpactAcquireSrc)
    (buf : Option GstBuffer) (w : World σ)
    (h : (create_wait drv src buf w).path = CreatePath.result_query_failed ∨
      (create_wait drv src buf w).path = CreatePath.result_not_ok ∨
      (create_wait drv src buf w).path = CreatePath.buffer_fetch_failed) :
    (create_wait drv src buf w).src.failedFrames = gint_add src.failedFrames 1 ∧
    (∀ b, buf = some b →
      (create_wait drv src buf w).ret = some GstFlowReturn.GST_FLOW_OK ∧
      (create_wait drv src buf w).src.frameNumber = guint64_add src.frameNumber 1 ∧
      (create_wait drv src buf w).buf
        = some { b with offset := src.frameNumber,
                        offset_end := guint64_add src.frameNumber 1 }) ∧
    (buf = none →
      (create_wait drv src buf w).ret = none ∧
      (create_wait drv src buf w).src.frameNumber = src.frameNumber) := by
  unfold create_wait at h ⊢
  by_cases h1 : (ImageRequestWaitFor drv w 500).1 = TDMR_ERROR.DMR_NO_ERROR
  · by_cases h2 : (GetImageRequestResultEx drv (ImageRequestWaitFor drv w 500).2.2
        (ImageRequestWaitFor drv w 500).2.1).1 = TDMR_ERROR.DMR_NO_ERROR ∧
        (GetImageRequestResultEx drv (ImageRequestWaitFor drv w 500).2.2
          (ImageRequestWaitFor drv w 500).2.1).2.1 = TRequestResult.rrOK
    · by_cases h3 : (GetImageRequestBuffer drv
          (GetImageRequestResultEx drv (ImageRequestWaitFor drv w 500).2.2
            (ImageRequestWaitFor drv w 500).2.1).2.2
          (ImageRequestWaitFor drv w 500).2.1).1 = TDMR_ERROR.DMR_NO_ERROR
      · simp [h1, h2, h3] at h
      · simp only [h1, h2, h3, if_true, if_false, and_self]
        cases buf <;> simp
    · simp only [h1, h2, if_true, if_false]
      cases buf <;> simp
  · simp [h1] at h

/-! ## Claims on the frame counter -/

/-- C9 fails on the code. Acquisition runs, `frameNumber` is 5, the wait completes
with request 2 and the request result is not `rrOK`. Entered with a buffer in
`*buf`, `gst_impactacquiresrc_create` returns `GST_FLOW_OK` with `frameNumber` 6,
one failed frame, and offsets 5 and 6 stamped on the caller's buffer. Entered with
`NULL` in `*buf`, it does not return from the write of `GST_BUFFER_OFFSET (*buf)`. -/
theorem create_failed_frame_consumes_frame_number :
    (gst_impactacquiresrc_create scripted 0
        { gst_impactacquiresrc_init with boAcquisitionRunning := true, frameNumber := 5 }
        (some ⟨7, 7, 0, 7, none, 3, 4⟩) (scripted_world 0 [bad_frame 2])).map
      (fun r => (r.ret, r.path, r.src.frameNumber, r.src.failedFrames,
        r.buf.map (fun b => (b.offset, b.offset_end))))
      = some (some GstFlowReturn.GST_FLOW_OK, CreatePath.result_not_ok, 6, 1, some (5, 6)) ∧
    (gst_impactacquiresrc_create scripted 0
        { gst_impactacquiresrc_init with boAcquisitionRunning := true, frameNumber := 5 }
        none (scripted_world 0 [bad_frame 2])).map
      (fun r => (r.ret, r.path, r.src.failedFrames))
      = some (none, CreatePath.result_not_ok, 1) :=
  ⟨rfl, rfl⟩

/-- C10: a `gst_impactacquiresrc_start_acquisition` that is entered with the
acquisition not running and returns `TRUE` has set `frameNumber` and `failedFrames`
to 0. In a session of `gst_impactacquiresrc_create` calls that starts with the
acquisition not running and has no failed frame, the `k`-th delivered buffer
(`k = 0, 1, 2, ...`) carries offset `k` and offset-end `k + 1`, as `guint64` values;
these are `k` and `k + 1` themselves while fewer than `2^64` frames were delivered. -/
theorem session_sequence_numbers :
    (∀ (σ : Type) (drv : Driver σ) (fuel : Nat) (src : GstImpactAcquireSrc) (w : World σ)
        (src1 : GstImpactAcquireSrc) (w1 : World σ),
      src.boAcquisitionRunning = false →
      gst_impactacquiresrc_start_acquisition drv fuel src w = some (true, src1, w1) →
        src1.frameNumber = 0 ∧ src1.failedFrames = 0 ∧ src1.boAcquisitionRunning = true) ∧
    (∀ (σ : Type) (drv : Driver σ) (fuel : Nat) (bufs : List (Option GstBuffer))
        (src : GstImpactAcquireSrc) (w : World σ),
      src.boAcquisitionRunning = false →
      no_failed_frames (create_calls drv fuel bufs src w) →
        delivered_offsets (create_calls drv fuel bufs src w)
          = (List.range (delivered_calls (create_calls drv fuel bufs src w)).length).map
              (fun k => some (k % 18446744073709551616, (k + 1) % 18446744073709551616)) ∧
        ((delivered_calls (create_calls drv fuel bufs src w)).length < 18446744073709551616 →
          delivered_offsets (create_calls drv fuel bufs src w)
            = (List.range (delivered_calls (create_calls drv fuel bufs src w)).length).map
                (fun k => some (k, k + 1)))) := by
  constructor
  · intro σ drv fuel src w src1 w1 hrun h
    rcases start_acquisition_cases drv fuel src w true src1 w1 hrun h with ⟨_, hs⟩ | ⟨hb, _⟩
    · rw [hs]; exact ⟨rfl, rfl, rfl⟩
    · exact absurd hb (by simp)
  · intro σ drv fuel bufs src w hrun hno
    have key := session_offsets drv fuel bufs src w 0 (by simp [hrun]) hno
    rw [← List.range_eq_range'] at key
    refine ⟨key, ?_⟩
    intro hlt
    rw [key]
    apply List.map_congr_left
    intro k hk
    rw [List.mem_range] at hk
    rw [Nat.mod_eq_of_lt (by omega), Nat.mod_eq_of_lt (by omega)]

/-- C10 at a scripted device with four request slots: the first call starts the
acquisition and delivers request 0, the second times out, the third and fourth
deliver requests 1 and 2; the three buffers carry offsets 0, 1 and 2. -/
theorem session_sequence_numbers_witness :
    (gst_impactacquiresrc_start_acquisition scripted 10 gst_impactacquiresrc_init
      (scripted_world 4 [])).map (fun t => (t.1, t.2.1.frameNumber, t.2.1.failedFrames))
      = some (true, 0, 0) ∧
    no_failed_frames (create_calls scripted 10 [none, none, none, none] gst_impactacquiresrc_init
      (scripted_world 4
        [good_frame 0 1000 64, wait_timeout, good_frame 1 2000 64, good_frame 2 3000 64])) ∧
    delivered_offsets (create_calls scripted 10 [none, none, none, none] gst_impactacquiresrc_init
      (scripted_world 4
        [good_frame 0 1000 64, wait_timeout, good_frame 1 2000 64, good_frame 2 3000 64]))
      = [some (0, 1), some (1, 2), some (2, 3)] := by
  have hno : no_failed_frames (create_calls scripted 10 [none, none, none, none]
      gst_impactacquiresrc_init (scripted_world 4
        [good_frame 0 1000 64, wait_timeout, good_frame 1 2000 64, good_frame 2 3000 64])) := by
    decide
  have h := session_sequence_numbers.2 Scripted scripted 10 [none, none, none, none]
    gst_impactacquiresrc_init (scripted_world 4
      [good_frame 0 1000 64, wait_timeout, good_frame 1 2000 64, good_frame 2 3000 64]) rfl hno
  exact ⟨by decide, hno, h.2 (by decide)⟩


/-! ## Calls of one `gst_impactacquiresrc_create` -/

section calls

variable {σ : Type} (drv : Driver σ)

theorem new_calls_append (w0 w1 : World σ) (l : List Call) (h : w1.calls = w0.calls ++ l) :
    new_calls w0 w1 = l := by
  unfold new_calls
  rw [h, List.drop_left]

/-- The two calls of `release_frame_buffer`, with the statuses the driver gave. -/
theorem release_frame_buffer_eq (info : CurrentRequestInfo) (w : World σ) :
    (release_frame_buffer drv info w).calls
      = w.calls ++ [Call.ImageRequestUnlock info.requestNr
            (drv.DMR_ImageRequestUnlock w.dev info.requestNr).1,
          Call.ImageRequestSingle
            (drv.DMR_ImageRequestSingle (drv.DMR_ImageRequestUnlock w.dev info.requestNr).2).1] ∧
    (release_frame_buffer drv info w).dev
      = (drv.DMR_ImageRequestSingle (drv.DMR_ImageRequestUnlock w.dev info.requestNr).2).2 := by
  simp [release_frame_buffer, ImageRequestUnlock, ImageRequestSingle]

/-- A call whose wait fails logs the wait and nothing else. -/
theorem create_wait_timeout (src : GstImpactAcquireSrc) (buf : Option GstBuffer) (w : World σ)
    (h : (drv.DMR_ImageRequestWaitFor w.dev 500).1 ≠ TDMR_ERROR.DMR_NO_ERROR) :
    (create_wait drv src buf w).path = CreatePath.wait_failed ∧
    (create_wait drv src buf w).w.calls
      = w.calls ++ [Call.ImageRequestWaitFor 500 (drv.DMR_ImageRequestWaitFor w.dev 500).1
          (drv.DMR_ImageRequestWaitFor w.dev 500).2.1] := by
  unfold create_wait
  have h1 : ¬ (ImageRequestWaitFor drv w 500).1 = TDMR_ERROR.DMR_NO_ERROR := h
  simp only [h1, if_false]
  exact ⟨trivial, rfl⟩

theorem result_query_call (w : World σ) (requestNr : Int) :
    ∃ c, (GetImageRequestResultEx drv w requestNr).2.2.calls = w.calls ++ [c] ∧
      c.is_unlock = false ∧ c.is_fill = false ∧ c.is_wrap = false :=
  ⟨_, rfl, rfl, rfl, rfl⟩

theorem buffer_fetch_call (w : World σ) (requestNr : Int) :
    ∃ c, (GetImageRequestBuffer drv w requestNr).2.2.calls = w.calls ++ [c] ∧
      c.is_unlock = false ∧ c.is_fill = false ∧ c.is_wrap = false :=
  ⟨_, rfl, rfl, rfl, rfl⟩

/-- A call whose wait completes either delivers, with the four calls of the
delivery branch, or releases the request itself, with the result query, the
buffer fetch when the result was good, and the two calls of the release. -/
theorem create_wait_completed (src : GstImpactAcquireSrc) (buf : Option GstBuffer) (w : World σ)
    (h : (drv.DMR_ImageRequestWaitFor w.dev 500).1 = TDMR_ERROR.DMR_NO_ERROR) :
    ((create_wait drv src buf w).path = CreatePath.delivered ∧
      (∃ c2 c3, (create_wait drv src buf w).w.calls
        = w.calls ++ [Call.ImageRequestWaitFor 500 TDMR_ERROR.DMR_NO_ERROR
              (drv.DMR_ImageRequestWaitFor w.dev 500).2.1, c2, c3,
            Call.buffer_new_wrapped_full ⟨(drv.DMR_ImageRequestWaitFor w.dev 500).2.1⟩] ∧
        c2.is_unlock = false ∧ c2.is_fill = false ∧ c2.is_wrap = false ∧
        c3.is_unlock = false ∧ c3.is_fill = false ∧ c3.is_wrap = false) ∧
      (create_wait drv src buf w).buf.map (fun b => b.user_data)
        = some (some ⟨(drv.DMR_ImageRequestWaitFor w.dev 500).2.1⟩)) ∨
    (((create_wait drv src buf w).path = CreatePath.result_query_failed ∨
        (create_wait drv src buf w).path = CreatePath.result_not_ok ∨
        (create_wait drv src buf w).path = CreatePath.buffer_fetch_failed) ∧
      (∃ (w2 : World σ) (queries : List Call),
        (create_wait drv src buf w).w
          = release_frame_buffer drv ⟨(drv.DMR_ImageRequestWaitFor w.dev 500).2.1⟩ w2 ∧
        w2.calls = w.calls ++ [Call.ImageRequestWaitFor 500 TDMR_ERROR.DMR_NO_ERROR
          (drv.DMR_ImageRequestWaitFor w.dev 500).2.1] ++ queries ∧
        ∀ c ∈ queries, c.is_unlock = false ∧ c.is_fill = false ∧ c.is_wrap = false) ∧
      (create_wait drv src buf w).buf.map (fun b => b.user_data)
        = buf.map (fun b => b.user_data)) := by
  have h1 : (ImageRequestWaitFor drv w 500).1 = TDMR_ERROR.DMR_NO_ERROR := h
  have hnr : (ImageRequestWaitFor drv w 500).2.1 = (drv.DMR_ImageRequestWaitFor w.dev 500).2.1 :=
    rfl
  have hw1 : (ImageRequestWaitFor drv w 500).2.2.calls
      = w.calls ++ [Call.ImageRequestWaitFor 500 TDMR_ERROR.DMR_NO_ERROR
          (drv.DMR_ImageRequestWaitFor w.dev 500).2.1] := by
    simp [ImageRequestWaitFor, h]
  obtain ⟨c2, hq, hc2⟩ := result_query_call drv (ImageRequestWaitFor drv w 500).2.2
    (ImageRequestWaitFor drv w 500).2.1
  obtain ⟨c3, hg, hc3⟩ := buffer_fetch_call drv
    (GetImageRequestResultEx drv (ImageRequestWaitFor drv w 500).2.2
      (ImageRequestWaitFor drv w 500).2.1).2.2
    (ImageRequestWaitFor drv w 500).2.1
  rw [hw1] at hq
  rw [hq] at hg
  unfold create_wait
  by_cases h2 : (GetImageRequestResultEx drv (ImageRequestWaitFor drv w 500).2.2
      (ImageRequestWaitFor drv w 500).2.1).1 = TDMR_ERROR.DMR_NO_ERROR ∧
      (GetImageRequestResultEx drv (ImageRequestWaitFor drv w 500).2.2
        (ImageRequestWaitFor drv w 500).2.1).2.1 = TRequestResult.rrOK
  · by_cases h3 : (GetImageRequestBuffer drv
        (GetImageRequestResultEx drv (ImageRequestWaitFor drv w 500).2.2
          (ImageRequestWaitFor drv w 500).2.1).2.2
        (ImageRequestWaitFor drv w 500).2.1).1 = TDMR_ERROR.DMR_NO_ERROR
    · left
      simp only [h1, h2, h3, if_true, and_self]
      refine ⟨trivial, ⟨c2, c3, ?_, hc2.1, hc2.2.1, hc2.2.2, hc3.1, hc3.2.1, hc3.2.2⟩, ?_⟩
      · rw [hg]
        simp only [hnr, List.append_assoc, List.singleton_append, List.cons_append,
          List.nil_append]
      · simp [gst_buffer_new_wrapped_full, hnr]
    · right
      simp only [h1, h2, h3, if_true, if_false, and_self]
      refine ⟨?_, ⟨(GetImageRequestBuffer drv
        (GetImageRequestResultEx drv (ImageRequestWaitFor drv w 500).2.2
          (ImageRequestWaitFor drv w 500).2.1).2.2
        (ImageRequestWaitFor drv w 500).2.1).2.2, [c2, c3], ?_, ?_, ?_⟩, ?_⟩
      · cases buf <;> simp
      · cases buf <;> simp only [hnr]
      · simp only [hg, List.append_assoc, List.singleton_append, List.cons_append,
          List.nil_append]
      · intro c hc
        simp only [List.mem_cons, List.mem_singleton, List.not_mem_nil, or_false] at hc
        rcases hc with rfl | rfl
        · exact hc2
        · exact hc3
      · cases buf <;> simp
  · right
    simp only [h1, h2, if_true, if_false]
    refine ⟨?_, ⟨(GetImageRequestResultEx drv (ImageRequestWaitFor drv w 500).2.2
        (ImageRequestWaitFor drv w 500).2.1).2.2, [c2], ?_, ?_, ?_⟩, ?_⟩
    · cases buf <;> (simp only; split <;> simp)
    · cases buf <;> simp only [hnr]
    · simp only [hq, List.append_assoc, List.singleton_append, List.cons_append,
        List.nil_append]
    · intro c hc
      simp only [List.mem_singleton] at hc
      subst hc
      exact hc2
    · cases buf <;> simp

/-- A call of `create` either fails to start the acquisition, or is the part from
the wait on, entered with what the start left (with element and world as they
were passed in, when the acquisition runs already). -/
theorem create_eq_wait (fuel : Nat) (src : GstImpactAcquireSrc) (buf : Option GstBuffer)
    (w : World σ) (r : CreateResult σ)
    (h : gst_impactacquiresrc_create drv fuel src buf w = some r) :
    (r.path = CreatePath.start_failed ∧ src.boAcquisitionRunning = false) ∨
    (∃ (src1 : GstImpactAcquireSrc) (w1 : World σ), r = create_wait drv src1 buf w1 ∧
      (src.boAcquisitionRunning = true → src1 = src ∧ w1 = w) ∧
      (src.boAcquisitionRunning = false →
        gst_impactacquiresrc_start_acquisition drv fuel src w = some (true, src1, w1))) := by
  unfold gst_impactacquiresrc_create at h
  cases hrun : src.boAcquisitionRunning with
  | true =>
    simp only [hrun, Bool.not_true, Bool.false_eq_true, if_false, Option.some.injEq] at h
    right
    exact ⟨src, w, h.symm, fun _ => ⟨rfl, rfl⟩, fun hf => absurd hf (by simp)⟩
  | false =>
    simp only [hrun, Bool.not_false, if_true] at h
    cases hst : gst_impactacquiresrc_start_acquisition drv fuel src w with
    | none => rw [hst] at h; exact absurd h (by simp)
    | some t =>
      obtain ⟨b, src1, w1⟩ := t
      rw [hst] at h
      cases b with
      | true =>
        simp only [Option.some.injEq] at h
        right
        exact ⟨src1, w1, h.symm, fun hf => absurd hf (by simp), fun _ => rfl⟩
      | false =>
        simp only [Option.some.injEq] at h
        left
        rw [← h]
        exact ⟨rfl, rfl⟩

end calls

theorem countP_eq_zero_of_false (p : Call → Bool) (l : List Call)
    (h : ∀ c ∈ l, p c = false) : l.countP p = 0 := by
  rw [List.countP_eq_zero]
  intro c hc
  rw [h c hc]
  simp

/-- The calls a failed-frame branch adds: the wait, the queries, one unlock of the
request the wait returned, one fill request. -/
theorem failed_branch_counts {σ : Type} (drv : Driver σ) (w w2 wr : World σ) (requestNr : Int)
    (queries : List Call)
    (hw2 : w2.calls = w.calls ++ [Call.ImageRequestWaitFor 500 TDMR_ERROR.DMR_NO_ERROR requestNr]
      ++ queries)
    (hq : ∀ c ∈ queries, c.is_unlock = false ∧ c.is_fill = false ∧ c.is_wrap = false)
    (hr : wr = release_frame_buffer drv ⟨requestNr⟩ w2) :
    (new_calls w w2).countP Call.is_unlock = 0 ∧
    (new_calls w w2).countP Call.is_fill = 0 ∧
    (new_calls w wr).countP (Call.is_unlock_of requestNr) = 1 ∧
    (new_calls w wr).countP Call.is_unlock = 1 ∧
    (new_calls w wr).countP Call.is_fill = 1 ∧
    (new_calls w wr).countP Call.is_wrap = 0 ∧
    (new_calls w wr).drop ((new_calls w wr).length - 2)
      = [Call.ImageRequestUnlock requestNr (drv.DMR_ImageRequestUnlock w2.dev requestNr).1,
          Call.ImageRequestSingle
            (drv.DMR_ImageRequestSingle (drv.DMR_ImageRequestUnlock w2.dev requestNr).2).1] := by
  have hu : queries.countP Call.is_unlock = 0 :=
    countP_eq_zero_of_false _ _ (fun c hc => (hq c hc).1)
  have hun : queries.countP (Call.is_unlock_of requestNr) = 0 := by
    apply countP_eq_zero_of_false
    intro c hc
    have := (hq c hc).1
    cases c <;> simp [Call.is_unlock, Call.is_unlock_of] at this ⊢
  have hf : queries.countP Call.is_fill = 0 :=
    countP_eq_zero_of_false _ _ (fun c hc => (hq c hc).2.1)
  have hwrap : queries.countP Call.is_wrap = 0 :=
    countP_eq_zero_of_false _ _ (fun c hc => (hq c hc).2.2)
  have h2 : new_calls w w2
      = [Call.ImageRequestWaitFor 500 TDMR_ERROR.DMR_NO_ERROR requestNr] ++ queries :=
    new_calls_append w w2 _ (by rw [hw2, List.append_assoc])
  have hrc := (release_frame_buffer_eq drv ⟨requestNr⟩ w2).1
  rw [← hr] at hrc
  have h3 : new_calls w wr
      = [Call.ImageRequestWaitFor 500 TDMR_ERROR.DMR_NO_ERROR requestNr] ++ queries ++
        [Call.ImageRequestUnlock requestNr (drv.DMR_ImageRequestUnlock w2.dev requestNr).1,
          Call.ImageRequestSingle
            (drv.DMR_ImageRequestSingle (drv.DMR_ImageRequestUnlock w2.dev requestNr).2).1] :=
    new_calls_append w wr _ (by rw [hrc, hw2]; simp only [List.append_assoc])
  refine ⟨?_, ?_, ?_, ?_, ?_, ?_, ?_⟩
  · rw [h2]; simp [List.countP_cons, Call.is_unlock, hu]
  · rw [h2]; simp [List.countP_cons, Call.is_fill, hf]
  · rw [h3]; simp [List.countP_cons, Call.is_unlock_of, hun]
  · rw [h3]; simp [List.countP_cons, Call.is_unlock, hu]
  · rw [h3]; simp [List.countP_cons, Call.is_fill, hf]
  · rw [h3]; simp [List.countP_cons, Call.is_wrap, hwrap]
  · rw [h3]
    rw [List.drop_append_eq_append_drop]
    simp

/-! ## Claims on the release of requests -/

/-- C11: in every call of `gst_impactacquiresrc_create` in which the wait returns a
completed request, the release of that request is arranged exactly once. On the
three failure paths `create` runs `release_frame_buffer` for it once (one unlock,
of that request, and one fill request, both after the queries) and wraps no
buffer, so the request is registered with none. On the success path `create`
issues no unlock and no fill request and registers the request once, as the
`user_data` of the one buffer it wraps. When the wait times out the wait is the
only call made: no unlock, no fill request. Every call of `create` that gets past
the acquisition start is this part, entered with what the start left. -/
theorem create_releases_exactly_once :
    (∀ (σ : Type) (drv : Driver σ) (src : GstImpactAcquireSrc) (buf : Option GstBuffer)
        (w : World σ),
      (drv.DMR_ImageRequestWaitFor w.dev 500).1 = TDMR_ERROR.DMR_NO_ERROR →
        ((create_wait drv src buf w).path = CreatePath.delivered ∧
          (new_calls w (create_wait drv src buf w).w).countP Call.is_unlock = 0 ∧
          (new_calls w (create_wait drv src buf w).w).countP Call.is_fill = 0 ∧
          (new_calls w (create_wait drv src buf w).w).filter Call.is_wrap
            = [Call.buffer_new_wrapped_full ⟨(drv.DMR_ImageRequestWaitFor w.dev 500).2.1⟩] ∧
          (create_wait drv src buf w).buf.map (fun b => b.user_data)
            = some (some ⟨(drv.DMR_ImageRequestWaitFor w.dev 500).2.1⟩)) ∨
        (((create_wait drv src buf w).path = CreatePath.result_query_failed ∨
            (create_wait drv src buf w).path = CreatePath.result_not_ok ∨
            (create_wait drv src buf w).path = CreatePath.buffer_fetch_failed) ∧
          (∃ w2 : World σ,
            (create_wait drv src buf w).w
              = release_frame_buffer drv ⟨(drv.DMR_ImageRequestWaitFor w.dev 500).2.1⟩ w2 ∧
            (new_calls w w2).countP Call.is_unlock = 0 ∧
            (new_calls w w2).countP Call.is_fill = 0) ∧
          (new_calls w (create_wait drv src buf w).w).countP
            (Call.is_unlock_of (drv.DMR_ImageRequestWaitFor w.dev 500).2.1) = 1 ∧
          (new_calls w (create_wait drv src buf w).w).countP Call.is_unlock = 1 ∧
          (new_calls w (create_wait drv src buf w).w).countP Call.is_fill = 1 ∧
          (new_calls w (create_wait drv src buf w).w).countP Call.is_wrap = 0 ∧
          (create_wait drv src buf w).buf.map (fun b => b.user_data)
            = buf.map (fun b => b.user_data))) ∧
    (∀ (σ : Type) (drv : Driver σ) (src : GstImpactAcquireSrc) (buf : Option GstBuffer)
        (w : World σ),
      (drv.DMR_ImageRequestWaitFor w.dev 500).1 ≠ TDMR_ERROR.DMR_NO_ERROR →
        new_calls w (create_wait drv src buf w).w
          = [Call.ImageRequestWaitFor 500 (drv.DMR_ImageRequestWaitFor w.dev 500).1
              (drv.DMR_ImageRequestWaitFor w.dev 500).2.1] ∧
        (new_calls w (create_wait drv src buf w).w).countP Call.is_unlock = 0 ∧
        (new_calls w (create_wait drv src buf w).w).countP Call.is_fill = 0 ∧
        (new_calls w (create_wait drv src buf w).w).countP Call.is_wrap = 0 ∧
        (create_wait drv src buf w).buf = buf) ∧
    (∀ (σ : Type) (drv : Driver σ) (fuel : Nat) (src : GstImpactAcquireSrc)
        (buf : Option GstBuffer) (w : World σ) (r : CreateResult σ),
      gst_impactacquiresrc_create drv fuel src buf w = some r →
        (r.path = CreatePath.start_failed ∧ src.boAcquisitionRunning = false) ∨
        (∃ (src1 : GstImpactAcquireSrc) (w1 : World σ), r = create_wait drv src1 buf w1 ∧
          (src.boAcquisitionRunning = true → src1 = src ∧ w1 = w) ∧
          (src.boAcquisitionRunning = false →
            gst_impactacquiresrc_start_acquisition drv fuel src w = some (true, src1, w1)))) := by
  refine ⟨?_, ?_, ?_⟩
  · intro σ drv src buf w h
    rcases create_wait_completed drv src buf w h with
      ⟨hp, ⟨c2, c3, hc, h2u, h2f, h2w, h3u, h3f, h3w⟩, hb⟩ | ⟨hp, ⟨w2, queries, hr, hw2, hq⟩, hb⟩
    · left
      have hn := new_calls_append w _ _ hc
      have e1 : ∀ (t : Int) (res : TDMR_ERROR) (n : Int),
          (Call.ImageRequestWaitFor t res n).is_unlock = false ∧
          (Call.ImageRequestWaitFor t res n).is_fill = false ∧
          (Call.ImageRequestWaitFor t res n).is_wrap = false := fun _ _ _ => ⟨rfl, rfl, rfl⟩
      have e4 : ∀ u : CurrentRequestInfo,
          (Call.buffer_new_wrapped_full u).is_unlock = false ∧
          (Call.buffer_new_wrapped_full u).is_fill = false ∧
          (Call.buffer_new_wrapped_full u).is_wrap = true := fun _ => ⟨rfl, rfl, rfl⟩
      refine ⟨hp, ?_, ?_, ?_, hb⟩
      · rw [hn]; simp [List.countP_cons, (e1 _ _ _).1, (e4 _).1, h2u, h3u]
      · rw [hn]; simp [List.countP_cons, (e1 _ _ _).2.1, (e4 _).2.1, h2f, h3f]
      · rw [hn]; simp [List.filter_cons, (e1 _ _ _).2.2, (e4 _).2.2, h2w, h3w]
    · right
      obtain ⟨k1, k2, k3, k4, k5, k6, _⟩ := failed_branch_counts drv w w2 _ _ queries hw2 hq hr
      exact ⟨hp, ⟨w2, hr, k1, k2⟩, k3, k4, k5, k6, hb⟩
  · intro σ drv src buf w h
    obtain ⟨hp, hc⟩ := create_wait_timeout drv src buf w h
    have hn := new_calls_append w _ _ hc
    refine ⟨hn, ?_, ?_, ?_, (create_wait_wait_failed drv src buf w hp).2.2⟩
    · rw [hn]; simp [List.countP_cons, Call.is_unlock]
    · rw [hn]; simp [List.countP_cons, Call.is_fill]
    · rw [hn]; simp [List.countP_cons, Call.is_wrap]
  · intro σ drv fuel src buf w r h
    exact create_eq_wait drv fuel src buf w r h

/-- C11 at a scripted device: a bad frame on request 2 is unlocked once and followed
by one fill request, a good frame on request 5 is registered with the buffer and
not unlocked, a timeout makes no call but the wait. -/
theorem create_releases_exactly_once_witness :
    (new_calls (scripted_world 0 [bad_frame 2])
      (create_wait scripted gst_impactacquiresrc_init none (scripted_world 0 [bad_frame 2])).w).countP
        (Call.is_unlock_of 2) = 1 ∧
    (create_wait scripted gst_impactacquiresrc_init none
      (scripted_world 0 [good_frame 5 1000 64])).buf.map (fun b => b.user_data)
        = some (some ⟨5⟩) ∧
    (new_calls (scripted_world 0 [])
      (create_wait scripted gst_impactacquiresrc_init none (scripted_world 0 [])).w).countP
        Call.is_fill = 0 := by
  have hbad := create_releases_exactly_once.1 Scripted scripted gst_impactacquiresrc_init none
    (scripted_world 0 [bad_frame 2]) rfl
  have hgood := create_releases_exactly_once.1 Scripted scripted gst_impactacquiresrc_init none
    (scripted_world 0 [good_frame 5 1000 64]) rfl
  have htime := create_releases_exactly_once.2.1 Scripted scripted gst_impactacquiresrc_init none
    (scripted_world 0 []) (by decide)
  refine ⟨?_, ?_, htime.2.2.1⟩
  · rcases hbad with ⟨hp, _⟩ | ⟨_, _, h, _⟩
    · exact absurd hp (by decide)
    · exact h
  · rcases hgood with ⟨_, _, _, _, h⟩ | ⟨hp, _⟩
    · exact h
    · exact absurd hp (by decide)

/-- C12: one invocation of `release_frame_buffer` for a request issues exactly two
device calls, in this order: the unlock of the request number stored in the
handle, then one fill request, made on the state the unlock left; the two are
issued whatever status the driver gives the unlock. -/
theorem release_frame_buffer_unlocks_then_refills (σ : Type) (drv : Driver σ)
    (info : CurrentRequestInfo) (w : World σ) :
    new_calls w (release_frame_buffer drv info w)
      = [Call.ImageRequestUnlock info.requestNr
            (drv.DMR_ImageRequestUnlock w.dev info.requestNr).1,
          Call.ImageRequestSingle
            (drv.DMR_ImageRequestSingle (drv.DMR_ImageRequestUnlock w.dev info.requestNr).2).1] ∧
    (release_frame_buffer drv info w).calls = w.calls ++ new_calls w (release_frame_buffer drv info w) ∧
    (release_frame_buffer drv info w).dev
      = (drv.DMR_ImageRequestSingle (drv.DMR_ImageRequestUnlock w.dev info.requestNr).2).2 := by
  obtain ⟨h1, h2⟩ := release_frame_buffer_eq drv info w
  have hn := new_calls_append w _ _ h1
  exact ⟨hn, by rw [hn, h1], h2⟩


/-! ## Timeouts, return values, stop and start -/

section timeouts

variable {σ : Type} (drv : Driver σ)

theorem create_running (fuel : Nat) (src : GstImpactAcquireSrc) (buf : Option GstBuffer)
    (w : World σ) (hrun : src.boAcquisitionRunning = true) :
    gst_impactacquiresrc_create drv fuel src buf w = some (create_wait drv src buf w) := by
  unfold gst_impactacquiresrc_create
  simp [hrun]

/-- A session in which every call times out makes all its calls and hands the
element from one to the next as it was. -/
theorem timeouts_keep_element (fuel : Nat) (src : GstImpactAcquireSrc)
    (hrun : src.boAcquisitionRunning = true) (bufs : List (Option GstBuffer)) :
    ∀ (w : World σ),
      (∀ r ∈ create_calls drv fuel bufs src w, r.path = CreatePath.wait_failed) →
      (create_calls drv fuel bufs src w).length = bufs.length ∧
      ∀ r ∈ create_calls drv fuel bufs src w, r.src = src := by
  induction bufs with
  | nil => intro w _; simp [create_calls]
  | cons buf rest ih =>
    intro w hall
    unfold create_calls at hall ⊢
    rw [create_running drv fuel src buf w hrun] at hall ⊢
    simp only at hall ⊢
    cases hret : (create_wait drv src buf w).ret with
    | none =>
      rw [hret] at hall
      simp only at hall
      have hp := hall (create_wait drv src buf w) (by simp)
      rw [(create_wait_wait_failed drv src buf w hp).1] at hret
      exact absurd hret (by simp)
    | some flow =>
      rw [hret] at hall
      simp only at hall ⊢
      have hp := hall (create_wait drv src buf w) (by simp)
      obtain ⟨_, hs, _⟩ := create_wait_wait_failed drv src buf w hp
      rw [hs] at hall ⊢
      have := ih (create_wait drv src buf w).w (fun r hr => hall r (by simp [hr]))
      refine ⟨by simp [this.1], ?_⟩
      intro r hr
      simp only [List.mem_cons] at hr
      rcases hr with rfl | hr
      · exact hs
      · exact this.2 r hr

/-- The priming loop ends on a status other than success, after successful fill
requests only. -/
theorem priming_loop_spec (fuel : Nat) :
    ∀ (w : World σ) (res : TDMR_ERROR) (w1 : World σ),
      priming_loop drv fuel w = some (res, w1) →
      res ≠ TDMR_ERROR.DMR_NO_ERROR ∧
      ∃ n, n < fuel ∧
        w1.calls = w.calls ++ List.replicate n (Call.ImageRequestSingle TDMR_ERROR.DMR_NO_ERROR)
          ++ [Call.ImageRequestSingle res] := by
  induction fuel with
  | zero => intro w res w1 h; simp [priming_loop] at h
  | succ fuel ih =>
    intro w res w1 h
    unfold priming_loop at h
    by_cases hr : (ImageRequestSingle drv w).1 = TDMR_ERROR.DMR_NO_ERROR
    · simp only [hr, if_true] at h
      obtain ⟨hres, n, hn, hc⟩ := ih _ res w1 h
      refine ⟨hres, n + 1, by omega, ?_⟩
      rw [hc]
      have : (ImageRequestSingle drv w).2.calls
          = w.calls ++ [Call.ImageRequestSingle TDMR_ERROR.DMR_NO_ERROR] := by
        have hr2 : (drv.DMR_ImageRequestSingle w.dev).1 = TDMR_ERROR.DMR_NO_ERROR := hr
        simp [ImageRequestSingle, hr2]
      rw [this, List.replicate_succ]
      simp
    · simp only [hr, if_false, Option.some.injEq] at h
      have h1 : (ImageRequestSingle drv w).1 = res := by rw [h]
      have h2 : (ImageRequestSingle drv w).2 = w1 := by rw [h]
      refine ⟨by rw [← h1]; exact hr, 0, by omega, ?_⟩
      rw [← h2, ← h1]
      simp [ImageRequestSingle]

/-- More fuel does not change what the priming loop ends with. -/
theorem priming_loop_mono (fuel k : Nat) :
    ∀ (w : World σ) (x : TDMR_ERROR × World σ),
      priming_loop drv fuel w = some x → priming_loop drv (fuel + k) w = some x := by
  induction fuel with
  | zero => intro w x h; simp [priming_loop] at h
  | succ fuel ih =>
    intro w x h
    rw [Nat.add_right_comm]
    unfold priming_loop at h ⊢
    by_cases hr : (ImageRequestSingle drv w).1 = TDMR_ERROR.DMR_NO_ERROR
    · simp only [hr, if_true] at h ⊢
      exact ih _ x h
    · simp only [hr, if_false] at h ⊢
      exact h

theorem start_acquisition_mono (fuel k : Nat) (src : GstImpactAcquireSrc) (w : World σ)
    (x : Bool × GstImpactAcquireSrc × World σ)
    (h : gst_impactacquiresrc_start_acquisition drv fuel src w = some x) :
    gst_impactacquiresrc_start_acquisition drv (fuel + k) src w = some x := by
  unfold gst_impactacquiresrc_start_acquisition at h ⊢
  simp only at h ⊢
  split at h
  · exact absurd h (by simp)
  · rename_i res wp hp
    rw [priming_loop_mono drv fuel k _ _ hp]
    exact h

/-- The calls of an acquisition start end with the start of the capture engine,
whose status decides what is handed back; no wait is among them. -/
theorem start_acquisition_spec (fuel : Nat) (src : GstImpactAcquireSrc) (w : World σ)
    (b : Bool) (src1 : GstImpactAcquireSrc) (w1 : World σ)
    (h : gst_impactacquiresrc_start_acquisition drv fuel src w = some (b, src1, w1)) :
    ∃ (l : List Call) (res : TDMR_ERROR),
      w1.calls = w.calls ++ l ++ [Call.AcquisitionStart res] ∧
      (∀ c ∈ l, c.is_wait = false) ∧
      (res ≠ TDMR_ERROR.DMR_NO_ERROR → b = src.boAcquisitionRunning ∧ src1 = src) ∧
      (res = TDMR_ERROR.DMR_NO_ERROR → b = true ∧
        src1 = { src with frameNumber := 0, failedFrames := 0, boAcquisitionRunning := true }) := by
  unfold gst_impactacquiresrc_start_acquisition at h
  simp only at h
  split at h
  · exact absurd h (by simp)
  · rename_i res0 wp hp
    obtain ⟨_, n, _, hcalls⟩ := priming_loop_spec drv fuel _ res0 wp hp
    have hw0 : ∃ l0 : List Call,
        (if g_ascii_strncasecmp src.gst_pixel_format.data "BGRA".data G_MAXSIZE = 0 then
          setPropI drv (setPropI drv w "MemoryInitEnable" 1) "MemoryInitValue" 255
        else w).calls = w.calls ++ l0 ∧ ∀ c ∈ l0, c.is_wait = false := by
      split
      · refine ⟨[Call.setPropI "MemoryInitEnable" 1, Call.setPropI "MemoryInitValue" 255], ?_, ?_⟩
        · simp [setPropI]
        · intro c hc
          simp only [List.mem_cons, List.mem_singleton, List.not_mem_nil, or_false] at hc
          rcases hc with rfl | rfl <;> rfl
      · exact ⟨[], by simp, by simp⟩
    obtain ⟨l0, hl0, hl0w⟩ := hw0
    rw [hl0] at hcalls
    have hstart : (AcquisitionStart drv wp).2.calls
        = wp.calls ++ [Call.AcquisitionStart (AcquisitionStart drv wp).1] := rfl
    refine ⟨l0 ++ List.replicate n (Call.ImageRequestSingle TDMR_ERROR.DMR_NO_ERROR)
      ++ [Call.ImageRequestSingle res0], (AcquisitionStart drv wp).1, ?_, ?_, ?_, ?_⟩
    · by_cases hs : (AcquisitionStart drv wp).1 = TDMR_ERROR.DMR_NO_ERROR
      · simp only [hs, ne_eq, not_true_eq_false, if_false, Option.some.injEq,
          Prod.mk.injEq] at h
        rw [← h.2.2, hstart, hcalls, hs]
        simp only [List.append_assoc]
      · simp only [hs, ne_eq, not_false_eq_true, if_true, Option.some.injEq,
          Prod.mk.injEq] at h
        rw [← h.2.2, hstart, hcalls]
        simp only [List.append_assoc]
    · intro c hc
      simp only [List.mem_append, List.mem_singleton] at hc
      rcases hc with (hc | hc) | hc
      · exact hl0w c hc
      · rw [List.eq_of_mem_replicate hc]; rfl
      · rw [hc]; rfl
    · intro hs
      simp only [hs, ne_eq, not_false_eq_true, if_true, Option.some.injEq, Prod.mk.injEq] at h
      exact ⟨h.1.symm, h.2.1.symm⟩
    · intro hs
      simp only [hs, ne_eq, not_true_eq_false, if_false, Option.some.injEq, Prod.mk.injEq] at h
      exact ⟨h.1.symm, h.2.1.symm⟩

end timeouts

/-! ## Claims on timeouts, return values, stop and start -/

/-- C13: a call of `gst_impactacquiresrc_create` made while the acquisition runs in
which the wait for a completed request fails (a timeout is such a failure) returns
with the element as it was: `failedFrames` and `frameNumber` are unchanged and
`boAcquisitionRunning` is still `TRUE`. A session of any number of calls that all
time out makes every one of its calls and leaves the element, so both counters,
where it was. -/
theorem create_timeout_keeps_counters :
    (∀ (σ : Type) (drv : Driver σ) (fuel : Nat) (src : GstImpactAcquireSrc)
        (buf : Option GstBuffer) (w : World σ),
      src.boAcquisitionRunning = true →
      (drv.DMR_ImageRequestWaitFor w.dev 500).1 ≠ TDMR_ERROR.DMR_NO_ERROR →
        ∃ r, gst_impactacquiresrc_create drv fuel src buf w = some r ∧
          r.path = CreatePath.wait_failed ∧
          r.src.failedFrames = src.failedFrames ∧
          r.src.frameNumber = src.frameNumber ∧
          r.src.boAcquisitionRunning = true ∧
          r.src = src) ∧
    (∀ (σ : Type) (drv : Driver σ) (fuel : Nat) (bufs : List (Option GstBuffer))
        (src : GstImpactAcquireSrc) (w : World σ),
      src.boAcquisitionRunning = true →
      (∀ r ∈ create_calls drv fuel bufs src w, r.path = CreatePath.wait_failed) →
        (create_calls drv fuel bufs src w).length = bufs.length ∧
        ∀ r ∈ create_calls drv fuel bufs src w,
          r.src.failedFrames = src.failedFrames ∧ r.src.frameNumber = src.frameNumber ∧
          r.src.boAcquisitionRunning = true ∧ r.src = src) := by
  constructor
  · intro σ drv fuel src buf w hrun hwait
    refine ⟨create_wait drv src buf w, create_running drv fuel src buf w hrun, ?_⟩
    have hp := (create_wait_timeout drv src buf w hwait).1
    obtain ⟨_, hs, _⟩ := create_wait_wait_failed drv src buf w hp
    refine ⟨hp, ?_, ?_, ?_, hs⟩
    · rw [hs]
    · rw [hs]
    · rw [hs]; exact hrun
  · intro σ drv fuel bufs src w hrun hall
    obtain ⟨hlen, hsrc⟩ := timeouts_keep_element drv fuel src hrun bufs w hall
    refine ⟨hlen, ?_⟩
    intro r hr
    have hs := hsrc r hr
    refine ⟨?_, ?_, ?_, hs⟩
    · rw [hs]
    · rw [hs]
    · rw [hs]; exact hrun

/-- C13 at a scripted device that completes nothing: three calls in a row time out
and the counters stay at 4 failed frames and frame number 9. -/
theorem create_timeout_keeps_counters_witness :
    (create_calls scripted 0 [none, none, none]
      { gst_impactacquiresrc_init with
        boAcquisitionRunning := true, failedFrames := 4, frameNumber := 9 }
      (scripted_world 0 [])).map
        (fun r => (r.path, r.src.failedFrames, r.src.frameNumber, r.src.boAcquisitionRunning))
      = [(CreatePath.wait_failed, 4, 9, true), (CreatePath.wait_failed, 4, 9, true),
          (CreatePath.wait_failed, 4, 9, true)] ∧
    (create_calls scripted 0 [none, none, none]
      { gst_impactacquiresrc_init with
        boAcquisitionRunning := true, failedFrames := 4, frameNumber := 9 }
      (scripted_world 0 [])).length = 3 := by
  have hall : ∀ r ∈ create_calls scripted 0 [none, none, none]
      { gst_impactacquiresrc_init with
        boAcquisitionRunning := true, failedFrames := 4, frameNumber := 9 }
      (scripted_world 0 []), r.path = CreatePath.wait_failed := by decide
  have h := create_timeout_keeps_counters.2 Scripted scripted 0 [none, none, none]
    { gst_impactacquiresrc_init with
      boAcquisitionRunning := true, failedFrames := 4, frameNumber := 9 }
    (scripted_world 0 []) rfl hall
  exact ⟨rfl, h.1⟩

/-- C14 fails on the code: with the acquisition running, `gst_impactacquiresrc_create`
returns `GST_FLOW_OK` when the wait times out (leaving `*buf` as it was, here
`NULL`), when the request result is not `rrOK`, and when the buffer fetch fails (the
latter two entered with a buffer in `*buf`). -/
theorem create_returns_ok_without_frame :
    (gst_impactacquiresrc_create scripted 0
        { gst_impactacquiresrc_init with boAcquisitionRunning := true }
        none (scripted_world 0 [])).map (fun r => (r.ret, r.path, r.buf))
      = some (some GstFlowReturn.GST_FLOW_OK, CreatePath.wait_failed, none) ∧
    (gst_impactacquiresrc_create scripted 0
        { gst_impactacquiresrc_init with boAcquisitionRunning := true }
        (some ⟨7, 7, 0, 7, none, 3, 4⟩) (scripted_world 0 [bad_frame 2])).map
      (fun r => (r.ret, r.path, r.buf.map (fun b => b.user_data)))
      = some (some GstFlowReturn.GST_FLOW_OK, CreatePath.result_not_ok, some none) ∧
    (gst_impactacquiresrc_create scripted 0
        { gst_impactacquiresrc_init with boAcquisitionRunning := true }
        (some ⟨7, 7, 0, 7, none, 3, 4⟩)
        (scripted_world 0 [(TDMR_ERROR.DMR_NO_ERROR, 3, TDMR_ERROR.DMR_NO_ERROR,
          TRequestResult.rrOK, TDMR_ERROR.DMR_ERROR (-2101), ⟨0, 0, 0⟩)])).map
      (fun r => (r.ret, r.path, r.buf.map (fun b => b.user_data)))
      = some (some GstFlowReturn.GST_FLOW_OK, CreatePath.buffer_fetch_failed, some none) :=
  ⟨rfl, rfl, rfl⟩

/-- C15, as stated, fails: when the device's stop call reports an error,
`gst_impactacquiresrc_stop_acquisition` returns `FALSE` with `boAcquisitionRunning`
still `TRUE`. -/
theorem stop_failure_leaves_acquisition_running :
    (gst_impactacquiresrc_stop_acquisition scripted_stop_fails
      { gst_impactacquiresrc_init with boAcquisitionRunning := true }
      (scripted_world 0 [])).1 = false ∧
    (gst_impactacquiresrc_stop_acquisition scripted_stop_fails
      { gst_impactacquiresrc_init with boAcquisitionRunning := true }
      (scripted_world 0 [])).2.1.boAcquisitionRunning = true :=
  ⟨rfl, rfl⟩

/-- C15, amended: after `gst_impactacquiresrc_stop_acquisition` returns,
`boAcquisitionRunning` is `FALSE` and the return value `TRUE` when the device's
stop call succeeded, whatever the queue reset that follows reports; when the stop
call reports an error the element is as it was, no queue reset is made and the
return value is the negation of `boAcquisitionRunning`. -/
theorem stop_acquisition_follows_stop_status (σ : Type) (drv : Driver σ)
    (src : GstImpactAcquireSrc) (w : World σ) :
    ((drv.DMR_AcquisitionStop w.dev).1 = TDMR_ERROR.DMR_NO_ERROR →
      (gst_impactacquiresrc_stop_acquisition drv src w).1 = true ∧
      (gst_impactacquiresrc_stop_acquisition drv src w).2.1.boAcquisitionRunning = false ∧
      (gst_impactacquiresrc_stop_acquisition drv src w).2.1
        = { src with boAcquisitionRunning := false } ∧
      new_calls w (gst_impactacquiresrc_stop_acquisition drv src w).2.2
        = [Call.AcquisitionStop TDMR_ERROR.DMR_NO_ERROR,
            Call.ImageRequestReset
              (drv.DMR_ImageRequestReset (drv.DMR_AcquisitionStop w.dev).2).1]) ∧
    ((drv.DMR_AcquisitionStop w.dev).1 ≠ TDMR_ERROR.DMR_NO_ERROR →
      (gst_impactacquiresrc_stop_acquisition drv src w).1 = !src.boAcquisitionRunning ∧
      (gst_impactacquiresrc_stop_acquisition drv src w).2.1 = src ∧
      new_calls w (gst_impactacquiresrc_stop_acquisition drv src w).2.2
        = [Call.AcquisitionStop (drv.DMR_AcquisitionStop w.dev).1]) := by
  constructor
  · intro h
    have h1 : (AcquisitionStop drv w).1 = TDMR_ERROR.DMR_NO_ERROR := h
    unfold gst_impactacquiresrc_stop_acquisition
    simp only [h1, ne_eq, not_true_eq_false, if_false]
    refine ⟨rfl, trivial, trivial, ?_⟩
    apply new_calls_append
    simp [ImageRequestReset, AcquisitionStop, h]
  · intro h
    have h1 : ¬ (AcquisitionStop drv w).1 = TDMR_ERROR.DMR_NO_ERROR := h
    unfold gst_impactacquiresrc_stop_acquisition
    simp only [h1, ne_eq, not_false_eq_true, if_true]
    refine ⟨trivial, trivial, ?_⟩
    apply new_calls_append
    simp [AcquisitionStop]

/-- C15, amended, at the scripted device: its capture engine stops, and the running
acquisition is then marked stopped. -/
theorem stop_acquisition_follows_stop_status_witness :
    (gst_impactacquiresrc_stop_acquisition scripted
      { gst_impactacquiresrc_init with boAcquisitionRunning := true }
      (scripted_world 0 [])).1 = true ∧
    (gst_impactacquiresrc_stop_acquisition scripted
      { gst_impactacquiresrc_init with boAcquisitionRunning := true }
      (scripted_world 0 [])).2.1.boAcquisitionRunning = false :=
  have h := (stop_acquisition_follows_stop_status Scripted scripted
    { gst_impactacquiresrc_init with boAcquisitionRunning := true }
    (scripted_world 0 [])).1 rfl
  ⟨h.1, h.2.1⟩

/-- C16: when `gst_impactacquiresrc_start_acquisition`, entered with the acquisition
not running, returns after a capture-engine start that failed (the last call it
logged), it returns `FALSE` and the element is as it was: `boAcquisitionRunning`
is still `FALSE`, `frameNumber` and `failedFrames` are not reset. The enclosing
`gst_impactacquiresrc_create` then returns `GST_FLOW_ERROR` with `*buf` untouched
and without a wait among its calls. More fuel for the priming loop gives the same
result. -/
theorem start_failure_fails_the_pull (σ : Type) (drv : Driver σ) (fuel : Nat)
    (src : GstImpactAcquireSrc) (buf : Option GstBuffer) (w : World σ) (b : Bool)
    (src1 : GstImpactAcquireSrc) (w1 : World σ) (res : TDMR_ERROR)
    (hrun : src.boAcquisitionRunning = false)
    (h : gst_impactacquiresrc_start_acquisition drv fuel src w = some (b, src1, w1))
    (hlast : w1.calls.getLast? = some (Call.AcquisitionStart res))
    (hres : res ≠ TDMR_ERROR.DMR_NO_ERROR) :
    b = false ∧ src1 = src ∧
    src1.boAcquisitionRunning = false ∧
    src1.frameNumber = src.frameNumber ∧ src1.failedFrames = src.failedFrames ∧
    (∃ r, gst_impactacquiresrc_create drv fuel src buf w = some r ∧
      r.ret = some GstFlowReturn.GST_FLOW_ERROR ∧ r.path = CreatePath.start_failed ∧
      r.src = src ∧ r.buf = buf ∧ r.w = w1 ∧
      (new_calls w r.w).countP Call.is_wait = 0) ∧
    (∀ k, gst_impactacquiresrc_start_acquisition drv (fuel + k) src w = some (false, src, w1)) := by
  obtain ⟨l, res2, hcalls, hl, hfail, _⟩ := start_acquisition_spec drv fuel src w b src1 w1 h
  have hres2 : res2 = res := by
    rw [hcalls] at hlast
    simp at hlast
    exact hlast
  subst hres2
  obtain ⟨hb, hs⟩ := hfail hres
  rw [hrun] at hb
  subst hb
  subst hs
  have hcreate : gst_impactacquiresrc_create drv fuel src1 buf w
      = some ⟨some GstFlowReturn.GST_FLOW_ERROR, src1, buf, w1, CreatePath.start_failed⟩ := by
    unfold gst_impactacquiresrc_create
    simp [hrun, h]
  refine ⟨rfl, rfl, hrun, rfl, rfl, ⟨_, hcreate, rfl, rfl, rfl, rfl, rfl, ?_⟩, ?_⟩
  · have hn := new_calls_append w w1 (l ++ [Call.AcquisitionStart res2])
      (by rw [hcalls, List.append_assoc])
    simp only [hn]
    rw [List.countP_append, countP_eq_zero_of_false _ _ hl]
    simp [List.countP_cons, Call.is_wait]
  · intro k
    exact start_acquisition_mono drv fuel k src1 w _ h

/-- C16 at a scripted device with two request slots whose capture engine refuses to
start: the priming fills both slots, the start fails, the pull fails. -/
theorem start_failure_fails_the_pull_witness :
    (gst_impactacquiresrc_create scripted 5
      { gst_impactacquiresrc_init with frameNumber := 3, failedFrames := 2 } none
      ⟨⟨2, TDMR_ERROR.DMR_ERROR (-2102), [],
        (TDMR_ERROR.DMR_NO_ERROR, TRequestResult.rrOK, TDMR_ERROR.DMR_NO_ERROR, ⟨0, 0, 0⟩)⟩, []⟩).map
      (fun r => (r.ret, r.src.boAcquisitionRunning, r.src.frameNumber, r.src.failedFrames,
        r.w.calls))
      = some (some GstFlowReturn.GST_FLOW_ERROR, false, 3, 2,
          [Call.ImageRequestSingle TDMR_ERROR.DMR_NO_ERROR,
            Call.ImageRequestSingle TDMR_ERROR.DMR_NO_ERROR,
            Call.ImageRequestSingle TDMR_ERROR.DEV_NO_FREE_REQUEST_AVAILABLE,
            Call.AcquisitionStart (TDMR_ERROR.DMR_ERROR (-2102))]) := by
  have h := start_failure_fails_the_pull Scripted scripted 5
    { gst_impactacquiresrc_init with frameNumber := 3, failedFrames := 2 } none
    ⟨⟨2, TDMR_ERROR.DMR_ERROR (-2102), [],
      (TDMR_ERROR.DMR_NO_ERROR, TRequestResult.rrOK, TDMR_ERROR.DMR_NO_ERROR, ⟨0, 0, 0⟩)⟩, []⟩
    false { gst_impactacquiresrc_init with frameNumber := 3, failedFrames := 2 }
    ⟨⟨0, TDMR_ERROR.DMR_ERROR (-2102), [],
      (TDMR_ERROR.DMR_NO_ERROR, TRequestResult.rrOK, TDMR_ERROR.DMR_NO_ERROR, ⟨0, 0, 0⟩)⟩,
      [Call.ImageRequestSingle TDMR_ERROR.DMR_NO_ERROR,
        Call.ImageRequestSingle TDMR_ERROR.DMR_NO_ERROR,
        Call.ImageRequestSingle TDMR_ERROR.DEV_NO_FREE_REQUEST_AVAILABLE,
        Call.AcquisitionStart (TDMR_ERROR.DMR_ERROR (-2102))]⟩
    (TDMR_ERROR.DMR_ERROR (-2102)) rfl rfl rfl (by decide)
  obtain ⟨r, hr, h1, _, h3, _, h5, _⟩ := h.2.2.2.2.2.1
  rw [hr]
  simp only [Option.map_some', Option.some.injEq, Prod.mk.injEq]
  rw [h1, h3, h5]
  exact ⟨rfl, rfl, rfl, rfl, rfl⟩


/-! ## Device selection, connection and disconnection -/

section lifecycle

variable (dm : DeviceManager) (src : GstImpactAcquireSrc)

/-- `gst_impactacquiresrc_connect_device` is its blocks, one after the other. -/
theorem connect_device_blocks :
    gst_impactacquiresrc_connect_device dm src
      = ⟨decide (connect_status dm src = TDMR_ERROR.DMR_NO_ERROR),
          { (connect_height_block dm
                (connect_width_block dm (connect_opened dm src) (connect_first_writes src)).1
                (connect_width_block dm (connect_opened dm src) (connect_first_writes src)).2).1
            with deviceConnected := decide (connect_status dm src = TDMR_ERROR.DMR_NO_ERROR) },
          connect_offset_writes dm
            (connect_height_block dm
                (connect_width_block dm (connect_opened dm src) (connect_first_writes src)).1
                (connect_width_block dm (connect_opened dm src) (connect_first_writes src)).2).1
            (connect_height_block dm
                (connect_width_block dm (connect_opened dm src) (connect_first_writes src)).1
                (connect_width_block dm (connect_opened dm src) (connect_first_writes src)).2).2⟩ := by
  rfl

/-- The width block leaves every member of the element but `width` as it was. -/
theorem connect_width_block_frame (src1 : GstImpactAcquireSrc) (ws : List ConnectWrite) :
    (connect_width_block dm src1 ws).1 = { src1 with width := (connect_width_block dm src1 ws).1.width } := by
  unfold connect_width_block
  simp only []
  split_ifs <;> rfl

/-- The height block leaves every member of the element but `height` as it was. -/
theorem connect_height_block_frame (src2 : GstImpactAcquireSrc) (ws : List ConnectWrite) :
    (connect_height_block dm src2 ws).1
      = { src2 with height := (connect_height_block dm src2 ws).1.height } := by
  unfold connect_height_block
  simp only []
  split_ifs <;> rfl

/-- The width the width block leaves. -/
theorem connect_width_block_width (src1 : GstImpactAcquireSrc) (ws : List ConnectWrite) :
    (connect_width_block dm src1 ws).1.width
      = if src1.width ≠ DEFAULT_PROP_SIZE ∨ src1.offsetx ≠ DEFAULT_PROP_OFFSET then
          if src1.width = DEFAULT_PROP_SIZE then
            gint_sub (to_gint (dm.PROP_MAX_VAL src1.driverHandle "Width")) src1.offsetx
          else if gint_add src1.width src1.offsetx
              > to_gint (dm.PROP_MAX_VAL src1.driverHandle "Width") then
            gint_sub src1.width src1.offsetx
          else src1.width
        else src1.width := by
  unfold connect_width_block
  simp only []
  split_ifs <;> rfl

/-- The height the height block leaves. -/
theorem connect_height_block_height (src2 : GstImpactAcquireSrc) (ws : List ConnectWrite) :
    (connect_height_block dm src2 ws).1.height
      = if src2.height ≠ DEFAULT_PROP_SIZE ∨ src2.offsety ≠ DEFAULT_PROP_OFFSET then
          if src2.height = DEFAULT_PROP_SIZE then
            gint_sub (to_gint (dm.PROP_MAX_VAL src2.driverHandle "Height")) src2.offsety
          else if gint_add src2.height src2.offsety
              > to_gint (dm.PROP_MAX_VAL src2.driverHandle "Height") then
            gint_sub src2.height src2.offsety
          else src2.height
        else src2.height := by
  unfold connect_height_block
  simp only []
  split_ifs <;> rfl

/-- The members of the element after `DMR_OpenDevice`. -/
theorem connect_opened_frame :
    connect_opened dm src = { src with driverHandle := (connect_opened dm src).driverHandle } := by
  unfold connect_opened
  split_ifs <;> rfl

/-- The element after `gst_impactacquiresrc_connect_device`, member by member. -/
theorem connect_device_src :
    (gst_impactacquiresrc_connect_device dm src).src
      = { src with
          driverHandle := (connect_opened dm src).driverHandle
          width := (connect_width_block dm (connect_opened dm src) (connect_first_writes src)).1.width
          height := (connect_height_block dm
            (connect_width_block dm (connect_opened dm src) (connect_first_writes src)).1
            (connect_width_block dm (connect_opened dm src) (connect_first_writes src)).2).1.height
          deviceConnected := decide (connect_status dm src = TDMR_ERROR.DMR_NO_ERROR) } := by
  rw [connect_device_blocks]
  simp only []
  rw [connect_height_block_frame, connect_width_block_frame, connect_opened_frame]

/-- The status `gst_impactacquiresrc_connect_device` ends with: the status of
`DMR_LoadSetting` when a configuration file path is set, of `DMR_OpenDevice`
otherwise; the return value and `deviceConnected` say whether it is
`DMR_NO_ERROR`. -/
theorem connect_ret :
    (gst_impactacquiresrc_connect_device dm src).ret
      = decide ((if src.configurationFilePath ≠ "" then
          dm.DMR_LoadSetting (gst_impactacquiresrc_connect_device dm src).src.driverHandle
            src.configurationFilePath
        else (dm.DMR_OpenDevice src.deviceHandle).1) = TDMR_ERROR.DMR_NO_ERROR) ∧
    (gst_impactacquiresrc_connect_device dm src).src.deviceConnected
      = (gst_impactacquiresrc_connect_device dm src).ret := by
  rw [connect_device_src]
  rw [connect_device_blocks]
  simp only []
  refine ⟨?_, trivial⟩
  unfold connect_status
  rw [connect_opened_frame]

/-- The width the element holds after `gst_impactacquiresrc_connect_device`. -/
theorem connect_width :
    (gst_impactacquiresrc_connect_device dm src).src.width
      = if src.width ≠ DEFAULT_PROP_SIZE ∨ src.offsetx ≠ DEFAULT_PROP_OFFSET then
          if src.width = DEFAULT_PROP_SIZE then
            gint_sub (to_gint (dm.PROP_MAX_VAL
              (gst_impactacquiresrc_connect_device dm src).src.driverHandle "Width")) src.offsetx
          else if gint_add src.width src.offsetx > to_gint (dm.PROP_MAX_VAL
              (gst_impactacquiresrc_connect_device dm src).src.driverHandle "Width") then
            gint_sub src.width src.offsetx
          else src.width
        else src.width := by
  rw [connect_device_src]
  simp only []
  rw [connect_width_block_width, connect_opened_frame]

/-- The height the element holds after `gst_impactacquiresrc_connect_device`. -/
theorem connect_height :
    (gst_impactacquiresrc_connect_device dm src).src.height
      = if src.height ≠ DEFAULT_PROP_SIZE ∨ src.offsety ≠ DEFAULT_PROP_OFFSET then
          if src.height = DEFAULT_PROP_SIZE then
            gint_sub (to_gint (dm.PROP_MAX_VAL
              (gst_impactacquiresrc_connect_device dm src).src.driverHandle "Height")) src.offsety
          else if gint_add src.height src.offsety > to_gint (dm.PROP_MAX_VAL
              (gst_impactacquiresrc_connect_device dm src).src.driverHandle "Height") then
            gint_sub src.height src.offsety
          else src.height
        else src.height := by
  rw [connect_device_src]
  simp only []
  rw [connect_height_block_height, connect_width_block_frame, connect_opened_frame]

/-- No write made before `DMR_OpenDevice` sets the width or the height. -/
theorem connect_first_writes_no_size :
    (connect_first_writes src).countP (ConnectWrite.sets "Width") = 0 ∧
    (connect_first_writes src).countP (ConnectWrite.sets "Height") = 0 := by
  unfold connect_first_writes
  split_ifs <;> decide

/-- The width block with both `width` and `offsetx` at their defaults writes nothing. -/
theorem connect_width_block_skipped (src1 : GstImpactAcquireSrc) (ws : List ConnectWrite)
    (hw : src1.width = DEFAULT_PROP_SIZE) (ho : src1.offsetx = DEFAULT_PROP_OFFSET) :
    connect_width_block dm src1 ws = (src1, ws) := by
  unfold connect_width_block
  simp [hw, ho]

/-- The height block with both `height` and `offsety` at their defaults writes nothing. -/
theorem connect_height_block_skipped (src2 : GstImpactAcquireSrc) (ws : List ConnectWrite)
    (hw : src2.height = DEFAULT_PROP_SIZE) (ho : src2.offsety = DEFAULT_PROP_OFFSET) :
    connect_height_block dm src2 ws = (src2, ws) := by
  unfold connect_height_block
  simp [hw, ho]

/-- The width block writes no height. -/
theorem connect_width_block_writes (src1 : GstImpactAcquireSrc) (ws : List ConnectWrite) :
    (connect_width_block dm src1 ws).2.countP (ConnectWrite.sets "Height")
      = ws.countP (ConnectWrite.sets "Height") := by
  unfold connect_width_block
  simp only []
  split_ifs <;> simp [List.countP_append, List.countP_cons, ConnectWrite.sets]

/-- The height block writes no width. -/
theorem connect_height_block_writes (src2 : GstImpactAcquireSrc) (ws : List ConnectWrite) :
    (connect_height_block dm src2 ws).2.countP (ConnectWrite.sets "Width")
      = ws.countP (ConnectWrite.sets "Width") := by
  unfold connect_height_block
  simp only []
  split_ifs <;> simp [List.countP_append, List.countP_cons, ConnectWrite.sets]

/-- The offset blocks write neither width nor height. -/
theorem connect_offset_writes_no_size (src3 : GstImpactAcquireSrc) (ws : List ConnectWrite) :
    (connect_offset_writes dm src3 ws).countP (ConnectWrite.sets "Width")
      = ws.countP (ConnectWrite.sets "Width") ∧
    (connect_offset_writes dm src3 ws).countP (ConnectWrite.sets "Height")
      = ws.countP (ConnectWrite.sets "Height") := by
  unfold connect_offset_writes
  simp only []
  split_ifs <;> simp [List.countP_append, List.countP_cons, ConnectWrite.sets]

/-- With `width` and `offsetx` at their defaults no write of the call sets the width. -/
theorem connect_no_width_write (hw : src.width = DEFAULT_PROP_SIZE)
    (ho : src.offsetx = DEFAULT_PROP_OFFSET) :
    (gst_impactacquiresrc_connect_device dm src).writes.countP (ConnectWrite.sets "Width") = 0 := by
  have hw1 : (connect_opened dm src).width = DEFAULT_PROP_SIZE := by
    rw [connect_opened_frame]; exact hw
  have ho1 : (connect_opened dm src).offsetx = DEFAULT_PROP_OFFSET := by
    rw [connect_opened_frame]; exact ho
  rw [connect_device_blocks]
  simp only []
  rw [(connect_offset_writes_no_size dm _ _).1, connect_height_block_writes,
    connect_width_block_skipped dm _ _ hw1 ho1]
  exact (connect_first_writes_no_size src).1

/-- With `height` and `offsety` at their defaults no write of the call sets the height. -/
theorem connect_no_height_write (hw : src.height = DEFAULT_PROP_SIZE)
    (ho : src.offsety = DEFAULT_PROP_OFFSET) :
    (gst_impactacquiresrc_connect_device dm src).writes.countP (ConnectWrite.sets "Height") = 0 := by
  have hw1 : (connect_width_block dm (connect_opened dm src) (connect_first_writes src)).1.height
      = DEFAULT_PROP_SIZE := by
    rw [connect_width_block_frame, connect_opened_frame]; exact hw
  have ho1 : (connect_width_block dm (connect_opened dm src) (connect_first_writes src)).1.offsety
      = DEFAULT_PROP_OFFSET := by
    rw [connect_width_block_frame, connect_opened_frame]; exact ho
  rw [connect_device_blocks]
  simp only []
  rw [(connect_offset_writes_no_size dm _ _).2, connect_height_block_skipped dm _ _ hw1 ho1,
    connect_width_block_writes]
  exact (connect_first_writes_no_size src).2

/-- Within the range of a `gint` maximum and of the offset properties, the `gint`
difference is the exact one. -/
theorem gint_sub_exact (m o : Int) (hm : 0 ≤ m) (hm2 : m < 2147483648) (ho : 0 ≤ o)
    (ho2 : o ≤ 10000) : gint_sub (to_gint m) o = m - o := by
  unfold gint_sub to_gint
  omega

end lifecycle

/-! ## Claims on disconnection, connection and selection -/

/-- C17 fails on the code: entered with a device handle set and `deviceConnected`
`FALSE`, a `gst_impactacquiresrc_disconnect_device` whose close call fails returns
`FALSE` and leaves `deviceConnected` `TRUE`, not the `FALSE` it had before the
call. This is the call `gst_impactacquiresrc_start` makes after a failed open: the
start returns `FALSE` with the element marked connected. Entered with the device
handle 0, the same function makes no close call and leaves the flag as it was. -/
theorem disconnect_failure_marks_connected :
    gst_impactacquiresrc_disconnect_device
        (one_camera 0 TDMR_ERROR.DMR_NO_ERROR TDMR_ERROR.DMR_NO_ERROR (TDMR_ERROR.DMR_ERROR (-2103)))
        { gst_impactacquiresrc_init with deviceHandle := 1, deviceConnected := false }
      = (false, { gst_impactacquiresrc_init with deviceHandle := 1, deviceConnected := true }) ∧
    (gst_impactacquiresrc_connect_device
        (one_camera 0 (TDMR_ERROR.DMR_ERROR (-2104)) TDMR_ERROR.DMR_NO_ERROR
          (TDMR_ERROR.DMR_ERROR (-2103)))
        (gst_impactacquiresrc_select_device
          (one_camera 0 (TDMR_ERROR.DMR_ERROR (-2104)) TDMR_ERROR.DMR_NO_ERROR
            (TDMR_ERROR.DMR_ERROR (-2103)))
          gst_impactacquiresrc_init).2).src.deviceConnected = false ∧
    (gst_impactacquiresrc_start
        (one_camera 0 (TDMR_ERROR.DMR_ERROR (-2104)) TDMR_ERROR.DMR_NO_ERROR
          (TDMR_ERROR.DMR_ERROR (-2103)))
        gst_impactacquiresrc_init).1 = false ∧
    (gst_impactacquiresrc_start
        (one_camera 0 (TDMR_ERROR.DMR_ERROR (-2104)) TDMR_ERROR.DMR_NO_ERROR
          (TDMR_ERROR.DMR_ERROR (-2103)))
        gst_impactacquiresrc_init).2.deviceConnected = true ∧
    (gst_impactacquiresrc_disconnect_device
        (one_camera 0 TDMR_ERROR.DMR_NO_ERROR TDMR_ERROR.DMR_NO_ERROR (TDMR_ERROR.DMR_ERROR (-2103)))
        { gst_impactacquiresrc_init with deviceHandle := 0, deviceConnected := false }).2
      = { gst_impactacquiresrc_init with deviceHandle := 0, deviceConnected := false } :=
  ⟨rfl, rfl, rfl, rfl, rfl⟩

/-- What `gst_impactacquiresrc_disconnect_device` computes, by the device handle and
the status of the close call: with a device handle set, the element after the call
has `deviceConnected` equal to whether the close call failed, and the return value
is its negation; with the device handle 0 the element is left as it was and the
negation of `deviceConnected` is returned. -/
theorem disconnect_follows_close_status (dm : DeviceManager) (src : GstImpactAcquireSrc) :
    (src.deviceHandle ≠ 0 →
      dm.DMR_CloseDevice src.driverHandle src.deviceHandle = TDMR_ERROR.DMR_NO_ERROR →
        gst_impactacquiresrc_disconnect_device dm src
          = (true, { src with deviceConnected := false })) ∧
    (src.deviceHandle ≠ 0 →
      dm.DMR_CloseDevice src.driverHandle src.deviceHandle ≠ TDMR_ERROR.DMR_NO_ERROR →
        gst_impactacquiresrc_disconnect_device dm src
          = (false, { src with deviceConnected := true })) ∧
    (src.deviceHandle = 0 →
      gst_impactacquiresrc_disconnect_device dm src = (!src.deviceConnected, src)) := by
  refine ⟨?_, ?_, ?_⟩
  · intro hh hc
    unfold gst_impactacquiresrc_disconnect_device
    simp [hh, hc]
  · intro hh hc
    unfold gst_impactacquiresrc_disconnect_device
    simp [hh, hc]
  · intro hh
    unfold gst_impactacquiresrc_disconnect_device
    simp [hh]

/-- A connected camera whose close call succeeds is marked disconnected. -/
theorem disconnect_follows_close_status_witness :
    gst_impactacquiresrc_disconnect_device
        (one_camera 0 TDMR_ERROR.DMR_NO_ERROR TDMR_ERROR.DMR_NO_ERROR TDMR_ERROR.DMR_NO_ERROR)
        { gst_impactacquiresrc_init with
          deviceHandle := 1, driverHandle := 7, deviceConnected := true }
      = (true, { gst_impactacquiresrc_init with
          deviceHandle := 1, driverHandle := 7, deviceConnected := false }) :=
  (disconnect_follows_close_status
    (one_camera 0 TDMR_ERROR.DMR_NO_ERROR TDMR_ERROR.DMR_NO_ERROR TDMR_ERROR.DMR_NO_ERROR)
    { gst_impactacquiresrc_init with
      deviceHandle := 1, driverHandle := 7, deviceConnected := true }).1 (by decide) rfl

/-- C18 fails on the code: with a configuration file path set and a load call that
reports success, `gst_impactacquiresrc_connect_device` returns `TRUE` and leaves
`deviceConnected` `TRUE` although `DMR_OpenDevice` failed and the driver handle is
still `INVALID_ID`; with the path empty the same failure makes it return `FALSE`. -/
theorem connect_reports_success_after_open_failure :
    (gst_impactacquiresrc_connect_device
        (one_camera 0 (TDMR_ERROR.DMR_ERROR (-2104)) TDMR_ERROR.DMR_NO_ERROR TDMR_ERROR.DMR_NO_ERROR)
        { gst_impactacquiresrc_init with deviceHandle := 1, configurationFilePath := "cfg.xml" }).ret
      = true ∧
    (gst_impactacquiresrc_connect_device
        (one_camera 0 (TDMR_ERROR.DMR_ERROR (-2104)) TDMR_ERROR.DMR_NO_ERROR TDMR_ERROR.DMR_NO_ERROR)
        { gst_impactacquiresrc_init with
          deviceHandle := 1, configurationFilePath := "cfg.xml" }).src.deviceConnected
      = true ∧
    (gst_impactacquiresrc_connect_device
        (one_camera 0 (TDMR_ERROR.DMR_ERROR (-2104)) TDMR_ERROR.DMR_NO_ERROR TDMR_ERROR.DMR_NO_ERROR)
        { gst_impactacquiresrc_init with
          deviceHandle := 1, configurationFilePath := "cfg.xml" }).src.driverHandle
      = INVALID_ID ∧
    (gst_impactacquiresrc_connect_device
        (one_camera 0 (TDMR_ERROR.DMR_ERROR (-2104)) TDMR_ERROR.DMR_NO_ERROR TDMR_ERROR.DMR_NO_ERROR)
        { gst_impactacquiresrc_init with deviceHandle := 1 }).ret
      = false :=
  ⟨rfl, rfl, rfl, rfl⟩

/-- C19 fails on the code: at a camera whose in-use query succeeds and yields 1,
`gst_impactacquiresrc_select_device` returns `TRUE`, and `gst_impactacquiresrc_start`
returns `TRUE` with `deviceConnected` `TRUE`. -/
theorem select_device_accepts_device_in_use :
    ((one_camera 1 TDMR_ERROR.DMR_NO_ERROR TDMR_ERROR.DMR_NO_ERROR
        TDMR_ERROR.DMR_NO_ERROR).DMR_GetDeviceIsInUse 1
      = (TDMR_ERROR.DMR_NO_ERROR, 1)) ∧
    (gst_impactacquiresrc_select_device
        (one_camera 1 TDMR_ERROR.DMR_NO_ERROR TDMR_ERROR.DMR_NO_ERROR TDMR_ERROR.DMR_NO_ERROR)
        gst_impactacquiresrc_init).1 = true ∧
    (gst_impactacquiresrc_start
        (one_camera 1 TDMR_ERROR.DMR_NO_ERROR TDMR_ERROR.DMR_NO_ERROR TDMR_ERROR.DMR_NO_ERROR)
        gst_impactacquiresrc_init).1 = true ∧
    (gst_impactacquiresrc_start
        (one_camera 1 TDMR_ERROR.DMR_NO_ERROR TDMR_ERROR.DMR_NO_ERROR TDMR_ERROR.DMR_NO_ERROR)
        gst_impactacquiresrc_init).2.deviceConnected = true :=
  ⟨rfl, rfl, rfl, rfl⟩

/-- C20, as stated, fails: with `width`, `height` and both offsets left at 0, the
element holds width 0 and height 0 after `gst_impactacquiresrc_connect_device` at a
1920 by 1080 device, not 1920 and 1080, and nothing is written to the device's
width or height. -/
theorem connect_keeps_zero_size_without_offset :
    (gst_impactacquiresrc_connect_device
        (one_camera 0 TDMR_ERROR.DMR_NO_ERROR TDMR_ERROR.DMR_NO_ERROR TDMR_ERROR.DMR_NO_ERROR)
        { gst_impactacquiresrc_init with deviceHandle := 1 }).src.width = 0 ∧
    (gst_impactacquiresrc_connect_device
        (one_camera 0 TDMR_ERROR.DMR_NO_ERROR TDMR_ERROR.DMR_NO_ERROR TDMR_ERROR.DMR_NO_ERROR)
        { gst_impactacquiresrc_init with deviceHandle := 1 }).src.height = 0 ∧
    (gst_impactacquiresrc_connect_device
        (one_camera 0 TDMR_ERROR.DMR_NO_ERROR TDMR_ERROR.DMR_NO_ERROR TDMR_ERROR.DMR_NO_ERROR)
        { gst_impactacquiresrc_init with deviceHandle := 1 }).writes
      = [ConnectWrite.conditionalSetPropI "InterfaceLayout" "dilGenICam",
          ConnectWrite.conditionalSetPropI "AcquisitionStartStopBehaviour" "assbUser"] :=
  ⟨rfl, rfl, rfl⟩

/-- C20, amended: when the width (resp. height) is left at its default 0 and
offsetx (resp. offsety) is not 0, the width (resp. height) the element holds after
`gst_impactacquiresrc_connect_device` is the device maximum minus the offset, in
`gint` arithmetic, which is the exact difference for a maximum below 2^31 and an
offset of the property range 0 to 10000; when the offset is 0 as well, it stays 0
and the call writes no width (resp. height) to the device. -/
theorem connect_default_size (dm : DeviceManager) (src : GstImpactAcquireSrc) :
    (src.width = 0 → src.offsetx ≠ 0 →
      (gst_impactacquiresrc_connect_device dm src).src.width
        = gint_sub (to_gint (dm.PROP_MAX_VAL
            (gst_impactacquiresrc_connect_device dm src).src.driverHandle "Width")) src.offsetx ∧
      (0 ≤ dm.PROP_MAX_VAL (gst_impactacquiresrc_connect_device dm src).src.driverHandle "Width" →
        dm.PROP_MAX_VAL (gst_impactacquiresrc_connect_device dm src).src.driverHandle "Width"
          < 2147483648 →
        0 ≤ src.offsetx → src.offsetx ≤ 10000 →
        (gst_impactacquiresrc_connect_device dm src).src.width
          = dm.PROP_MAX_VAL (gst_impactacquiresrc_connect_device dm src).src.driverHandle "Width"
            - src.offsetx)) ∧
    (src.width = 0 → src.offsetx = 0 →
      (gst_impactacquiresrc_connect_device dm src).src.width = 0 ∧
      (gst_impactacquiresrc_connect_device dm src).writes.countP (ConnectWrite.sets "Width") = 0) ∧
    (src.height = 0 → src.offsety ≠ 0 →
      (gst_impactacquiresrc_connect_device dm src).src.height
        = gint_sub (to_gint (dm.PROP_MAX_VAL
            (gst_impactacquiresrc_connect_device dm src).src.driverHandle "Height")) src.offsety ∧
      (0 ≤ dm.PROP_MAX_VAL (gst_impactacquiresrc_connect_device dm src).src.driverHandle "Height" →
        dm.PROP_MAX_VAL (gst_impactacquiresrc_connect_device dm src).src.driverHandle "Height"
          < 2147483648 →
        0 ≤ src.offsety → src.offsety ≤ 10000 →
        (gst_impactacquiresrc_connect_device dm src).src.height
          = dm.PROP_MAX_VAL (gst_impactacquiresrc_connect_device dm src).src.driverHandle "Height"
            - src.offsety)) ∧
    (src.height = 0 → src.offsety = 0 →
      (gst_impactacquiresrc_connect_device dm src).src.height = 0 ∧
      (gst_impactacquiresrc_connect_device dm src).writes.countP (ConnectWrite.sets "Height") = 0) := by
  refine ⟨?_, ?_, ?_, ?_⟩
  · intro hw ho
    have h := connect_width dm src
    simp only [DEFAULT_PROP_SIZE, DEFAULT_PROP_OFFSET, hw, ho, ne_eq, not_true_eq_false,
      not_false_eq_true, false_or, if_true] at h
    refine ⟨h, ?_⟩
    intro h1 h2 h3 h4
    rw [h]
    exact gint_sub_exact _ _ h1 h2 h3 h4
  · intro hw ho
    have h := connect_width dm src
    simp only [DEFAULT_PROP_SIZE, DEFAULT_PROP_OFFSET, hw, ho, ne_eq, not_true_eq_false,
      or_self, if_false] at h
    exact ⟨h, connect_no_width_write dm src hw ho⟩
  · intro hw ho
    have h := connect_height dm src
    simp only [DEFAULT_PROP_SIZE, DEFAULT_PROP_OFFSET, hw, ho, ne_eq, not_true_eq_false,
      not_false_eq_true, false_or, if_true] at h
    refine ⟨h, ?_⟩
    intro h1 h2 h3 h4
    rw [h]
    exact gint_sub_exact _ _ h1 h2 h3 h4
  · intro hw ho
    have h := connect_height dm src
    simp only [DEFAULT_PROP_SIZE, DEFAULT_PROP_OFFSET, hw, ho, ne_eq, not_true_eq_false,
      or_self, if_false] at h
    exact ⟨h, connect_no_height_write dm src hw ho⟩

/-- C20, amended, at a 1920 by 1080 device with offsets 20 and 30 and the sizes
left at 0: the element holds 1900 by 1050. -/
theorem connect_default_size_witness :
    (gst_impactacquiresrc_connect_device
        (one_camera 0 TDMR_ERROR.DMR_NO_ERROR TDMR_ERROR.DMR_NO_ERROR TDMR_ERROR.DMR_NO_ERROR)
        { gst_impactacquiresrc_init with deviceHandle := 1, offsetx := 20, offsety := 30 }).src.width
      = 1900 ∧
    (gst_impactacquiresrc_connect_device
        (one_camera 0 TDMR_ERROR.DMR_NO_ERROR TDMR_ERROR.DMR_NO_ERROR TDMR_ERROR.DMR_NO_ERROR)
        { gst_impactacquiresrc_init with deviceHandle := 1, offsetx := 20, offsety := 30 }).src.height
      = 1050 :=
  have h := connect_default_size
    (one_camera 0 TDMR_ERROR.DMR_NO_ERROR TDMR_ERROR.DMR_NO_ERROR TDMR_ERROR.DMR_NO_ERROR)
    { gst_impactacquiresrc_init with deviceHandle := 1, offsetx := 20, offsety := 30 }
  ⟨((h.1 rfl (by decide)).2 (by decide) (by decide) (by decide) (by decide)).trans (by decide),
    ((h.2.2.1 rfl (by decide)).2 (by decide) (by decide) (by decide) (by decide)).trans
      (by decide)⟩

/-! ## The catalog -/

/-- C25: for every entry of `gst_impactacquire_pixel_format_infos`,
`image_destination_pixel_format` differs from the pass-through value `"Raw"`
(`DEFAULT_PROP_DESTINATION_PIXEL_FORMAT`) if and only if `pixel_format` does not
start with `"Bayer"`, and every Bayer entry carries `"Raw"`. -/
theorem catalog_conversion_names :
    DEFAULT_PROP_DESTINATION_PIXEL_FORMAT = "Raw" ∧
    ∀ info ∈ gst_impactacquire_pixel_format_infos,
      (info.image_destination_pixel_format ≠ DEFAULT_PROP_DESTINATION_PIXEL_FORMAT ↔
        g_str_has_prefix info.pixel_format "Bayer" = false) ∧
      ( g_str_has_prefix info.pixel_format "Bayer" = true →
        info.image_destination_pixel_format = "Raw") := by
  decide

/-! ## Probing -/

section probing

variable (dev : Device) (Width Height : Int)

theorem caps_from_pixel_format_var_eq (i : Nat) (info : GstImpactAcquirePixelFormatInfo)
    (hi : gst_impactacquire_pixel_format_infos[i]? = some info) :
    gst_impactacquire_pixel_format_caps_from_pixel_format_var i G_BYTE_ORDER
        (to_gint Width) (to_gint Height)
      = some [probe_structure Width Height info] := by
  unfold gst_impactacquire_pixel_format_caps_from_pixel_format_var probe_structure
  rw [hi]
  simp only []
  split_ifs <;> rfl

/-- The loop body adds the structure of the entry when the rule holds, and nothing
otherwise. -/
theorem get_supported_caps_entry_eq (i : Nat) (info : GstImpactAcquirePixelFormatInfo)
    (hi : gst_impactacquire_pixel_format_infos[i]? = some info) (caps : List GstStructure) :
    get_supported_caps_entry dev Width Height i info caps
      = if probe_feasible dev info then (caps ++ [probe_structure Width Height info], true)
        else (caps, false) := by
  unfold get_supported_caps_entry probe_feasible native_match forced_conversion
  rw [caps_from_pixel_format_var_eq Width Height i info hi]
  cases boDeviceFeatureAvailableInList (some dev.ImageFormatControlPixelFormat) info.pixel_format <;>
    cases g_str_has_prefix info.pixel_format "Bayer" <;>
    cases boDeviceFeatureAvailableInList dev.ImageDestinationPixelFormat
      info.image_destination_pixel_format <;> rfl

/-- The loop over a stretch of the catalog that starts at index `i`. -/
theorem get_supported_caps_loop_eq (infos : List GstImpactAcquirePixelFormatInfo) :
    ∀ (i : Nat) (r : SupportedCapsResult),
      (∀ j info, infos[j]? = some info → gst_impactacquire_pixel_format_infos[i + j]? = some info) →
      get_supported_caps_loop dev Width Height infos i r
        = ⟨r.caps ++ ((List.range' i infos.length).filter (probe_feasible_at dev)).filterMap
              (probe_structure_at Width Height),
            r.visited ++ List.range' i infos.length,
            r.added ++ (List.range' i infos.length).filter (probe_feasible_at dev)⟩ := by
  induction infos with
  | nil => intro i r _; simp [get_supported_caps_loop]
  | cons info rest ih =>
    intro i r h
    have hi : gst_impactacquire_pixel_format_infos[i]? = some info := by
      have := h 0 info (by simp)
      simpa using this
    have hrest : ∀ j info2, rest[j]? = some info2 →
        gst_impactacquire_pixel_format_infos[i + 1 + j]? = some info2 := by
      intro j info2 hj
      have := h (j + 1) info2 (by simpa using hj)
      rw [← this]
      congr 1
      omega
    have hf : probe_feasible_at dev i = probe_feasible dev info := by
      unfold probe_feasible_at
      rw [hi]
    have hs : probe_structure_at Width Height i = some (probe_structure Width Height info) := by
      unfold probe_structure_at
      rw [hi]
    unfold get_supported_caps_loop
    simp only []
    rw [ih (i + 1) _ hrest, get_supported_caps_entry_eq dev Width Height i info hi]
    cases hp : probe_feasible dev info
    · simp [List.range'_succ, List.filter_cons, hf, hp]
    · simp [List.range'_succ, List.filter_cons, hf, hp, hs]

/-- The whole probe. -/
theorem get_supported_caps_eq :
    gst_impactacquiresrc_get_supported_caps dev Width Height
      = ⟨((List.range gst_impactacquire_pixel_format_infos.length).filter
              (probe_feasible_at dev)).filterMap (probe_structure_at Width Height),
          List.range gst_impactacquire_pixel_format_infos.length,
          (List.range gst_impactacquire_pixel_format_infos.length).filter
            (probe_feasible_at dev)⟩ := by
  unfold gst_impactacquiresrc_get_supported_caps
  rw [get_supported_caps_loop_eq dev Width Height _ 0 _ (by intro j info h; simpa using h)]
  simp [List.range_eq_range']

theorem length_filterMap_of_isSome {α β : Type} (f : α → Option β) (l : List α)
    (h : ∀ a ∈ l, (f a).isSome = true) : (l.filterMap f).length = l.length := by
  induction l with
  | nil => rfl
  | cons a l ih =>
    have ha := h a (by simp)
    obtain ⟨b, hb⟩ := Option.isSome_iff_exists.mp ha
    rw [List.filterMap_cons_some hb]
    simp [ih (fun x hx => h x (by simp [hx]))]

/-- An index is among the added ones when it is an index of the catalog and the
rule holds for its entry. -/
theorem mem_added_iff (i : Nat) (info : GstImpactAcquirePixelFormatInfo)
    (hi : gst_impactacquire_pixel_format_infos[i]? = some info) :
    i ∈ (gst_impactacquiresrc_get_supported_caps dev Width Height).added
      ↔ probe_feasible dev info = true := by
  have hlt : i < gst_impactacquire_pixel_format_infos.length := by
    by_contra hge
    rw [List.getElem?_eq_none (by omega)] at hi
    exact absurd hi (by simp)
  rw [get_supported_caps_eq]
  simp only [List.mem_filter, List.mem_range, hlt, true_and]
  unfold probe_feasible_at
  rw [hi]

theorem catalog_strings_wellformed :
    ∀ info ∈ gst_impactacquire_pixel_format_infos,
      nul_free info.pixel_format ∧ info.pixel_format.length < G_MAXSIZE ∧
      nul_free info.image_destination_pixel_format ∧
      info.image_destination_pixel_format.length < G_MAXSIZE := by
  decide

end probing

/-- C24: `gst_impactacquiresrc_get_supported_caps` runs its loop body for every
catalog entry, in array order, whatever the dictionaries answer and also without
the `ImageDestination` handle. The entries it adds a structure for are, in catalog
order, those for which the source-format dictionary has `pixel_format`, or
`pixel_format` does not start with `"Bayer"` and the conversion-stage dictionary
has `image_destination_pixel_format`; the caps it returns hold exactly one
structure for each of them, in that order, and nothing for the other entries. For
dictionaries of C strings, "has" is: hands out a string equal to the name up to
the case of ASCII letters; a dictionary that cannot be queried hands out nothing. -/
theorem get_supported_caps_probes_every_entry (dev : Device) (Width Height : Int) :
    (gst_impactacquiresrc_get_supported_caps dev Width Height).visited
      = List.range gst_impactacquire_pixel_format_infos.length ∧
    (gst_impactacquiresrc_get_supported_caps dev Width Height).added
      = (List.range gst_impactacquire_pixel_format_infos.length).filter (probe_feasible_at dev) ∧
    (gst_impactacquiresrc_get_supported_caps dev Width Height).caps
      = (gst_impactacquiresrc_get_supported_caps dev Width Height).added.filterMap
          (probe_structure_at Width Height) ∧
    (gst_impactacquiresrc_get_supported_caps dev Width Height).caps.length
      = (gst_impactacquiresrc_get_supported_caps dev Width Height).added.length ∧
    (∀ i info, gst_impactacquire_pixel_format_infos[i]? = some info →
      (i ∈ (gst_impactacquiresrc_get_supported_caps dev Width Height).added ↔
        (boDeviceFeatureAvailableInList (some dev.ImageFormatControlPixelFormat)
            info.pixel_format = true ∨
          ( g_str_has_prefix info.pixel_format "Bayer" = false ∧
            boDeviceFeatureAvailableInList dev.ImageDestinationPixelFormat
              info.image_destination_pixel_format = true)))) ∧
    ((∀ p ∈ dict_strings (some dev.ImageFormatControlPixelFormat), nul_free p) →
      (∀ p ∈ dict_strings dev.ImageDestinationPixelFormat, nul_free p) →
      ∀ i info, gst_impactacquire_pixel_format_infos[i]? = some info →
        (i ∈ (gst_impactacquiresrc_get_supported_caps dev Width Height).added ↔
          ((∃ p ∈ dict_strings (some dev.ImageFormatControlPixelFormat),
              ascii_case_eq info.pixel_format p) ∨
            ( g_str_has_prefix info.pixel_format "Bayer" = false ∧
              ∃ p ∈ dict_strings dev.ImageDestinationPixelFormat,
                ascii_case_eq info.image_destination_pixel_format p)))) := by
  have hrule : ∀ i info, gst_impactacquire_pixel_format_infos[i]? = some info →
      (i ∈ (gst_impactacquiresrc_get_supported_caps dev Width Height).added ↔
        (boDeviceFeatureAvailableInList (some dev.ImageFormatControlPixelFormat)
            info.pixel_format = true ∨
          ( g_str_has_prefix info.pixel_format "Bayer" = false ∧
            boDeviceFeatureAvailableInList dev.ImageDestinationPixelFormat
              info.image_destination_pixel_format = true))) := by
    intro i info hi
    rw [mem_added_iff dev Width Height i info hi]
    unfold probe_feasible native_match forced_conversion
    simp
  refine ⟨?_, ?_, ?_, ?_, hrule, ?_⟩
  · rw [get_supported_caps_eq]
  · rw [get_supported_caps_eq]
  · rw [get_supported_caps_eq]
  · rw [get_supported_caps_eq]
    simp only []
    apply length_filterMap_of_isSome
    intro i hi
    have hlt : i < gst_impactacquire_pixel_format_infos.length := by
      have := (List.mem_filter.mp hi).1
      simpa using this
    unfold probe_structure_at
    rw [List.getElem?_eq_getElem hlt]
    rfl
  · intro hS hD i info hi
    have hmem := mem_of_getElem?_eq_some _ i info hi
    obtain ⟨n1, l1, n2, l2⟩ := catalog_strings_wellformed info hmem
    rw [hrule i info hi, available_iff _ _ l1 n1 hS, available_iff _ _ l2 n2 hD]

/-- C24 at a device that emits `Mono8` and `BayerRG8` and converts to
`RGB888Packed`, read at 640 by 480: the probe adds the entries 0 (`Mono8`),
3 (`BayerRG8`), 9 and 10 (the two `BGR` entries), with four structures. -/
theorem get_supported_caps_probes_every_entry_witness :
    (gst_impactacquiresrc_get_supported_caps
      (device_with ["Mono8", "BayerRG8"] ["RGB888Packed"] "Mono8") 640 480).added = [0, 3, 9, 10] ∧
    (gst_impactacquiresrc_get_supported_caps
      (device_with ["Mono8", "BayerRG8"] ["RGB888Packed"] "Mono8") 640 480).caps.length = 4 ∧
    (gst_impactacquiresrc_get_supported_caps
      (device_with ["Mono8", "BayerRG8"] ["RGB888Packed"] "Mono8") 640 480).visited.length = 21 :=
  have h := get_supported_caps_probes_every_entry
    (device_with ["Mono8", "BayerRG8"] ["RGB888Packed"] "Mono8") 640 480
  ⟨h.2.1.trans (by decide), h.2.2.2.1.trans ((congrArg List.length h.2.1).trans (by decide)),
    (congrArg List.length h.1).trans (by decide)⟩

/-! ## Probing against negotiation -/

/-- With the `ImageDestination` handle, `gst_impactacquiresrc_set_caps` returns
`TRUE` when some catalog entry is selectable. -/
theorem set_caps_ret_iff (caps : GstCaps) (src : GstImpactAcquireSrc) (dev : Device)
    (hDst : PropertyS) (hh : dev.ImageDestinationPixelFormat = some hDst) :
    (gst_impactacquiresrc_set_caps src dev caps).ret = true ↔
      ∃ info ∈ gst_impactacquire_pixel_format_infos, selectable caps src dev info = true := by
  have h := (set_caps_false caps src dev).1
  constructor
  · intro ht
    by_contra hno
    have hall : ∀ x ∈ gst_impactacquire_pixel_format_infos, selectable caps src dev x = false := by
      intro x hx
      cases hsx : selectable caps src dev x with
      | false => rfl
      | true => exact absurd ⟨x, hx, hsx⟩ hno
    rw [h.mpr (Or.inr hall)] at ht
    exact absurd ht (by simp)
  · rintro ⟨info, hmem, hs⟩
    cases hr : (gst_impactacquiresrc_set_caps src dev caps).ret with
    | true => rfl
    | false =>
      rcases h.mp hr with hnone | hall
      · rw [hh] at hnone
        exact absurd hnone (by simp)
      · rw [hall info hmem] at hs
        exact absurd hs (by simp)

/-- Two elements get the same verdict and the same entry from
`gst_impactacquiresrc_set_caps` on one device, whatever their debayer flags. -/
theorem set_caps_element_free (caps : GstCaps) (src src2 : GstImpactAcquireSrc) (dev : Device) :
    (gst_impactacquiresrc_set_caps src2 dev caps).ret
      = (gst_impactacquiresrc_set_caps src dev caps).ret ∧
    (gst_impactacquiresrc_set_caps src2 dev caps).selected
      = (gst_impactacquiresrc_set_caps src dev caps).selected ∧
    (gst_impactacquiresrc_set_caps src2 dev caps).visited
      = (gst_impactacquiresrc_set_caps src dev caps).visited := by
  have hc : ∀ x, selectable caps src2 dev x = selectable caps src dev x :=
    fun x => selectable_congr_dict caps src src2 dev dev ⟨rfl, rfl⟩ x
  cases hh : dev.ImageDestinationPixelFormat with
  | none =>
    rw [set_caps_without_handle caps src dev hh, set_caps_without_handle caps src2 dev hh]
    exact ⟨rfl, rfl, rfl⟩
  | some hDst =>
    rw [set_caps_with_handle caps src dev hDst hh, set_caps_with_handle caps src2 dev hDst hh]
    rcases set_caps_loop_cases caps gst_impactacquire_pixel_format_infos src dev with
      h | ⟨pre, info0, post, he, hp, hs0⟩
    · rw [set_caps_loop_none caps _ src dev 0 [] h,
        set_caps_loop_none caps _ src2 dev 0 [] (fun x hx => by rw [hc]; exact h x hx)]
      exact ⟨rfl, rfl, rfl⟩
    · rw [he, set_caps_loop_first caps pre info0 post src dev 0 [] hp hs0,
        set_caps_loop_first caps pre info0 post src2 dev 0 []
          (fun x hx => by rw [hc]; exact hp x hx) (by rw [hc]; exact hs0)]
      exact ⟨rfl, rfl, rfl⟩

/-- C28: on a device with both dictionaries (the `ImageDestination` `PixelFormat`
handle is there), for every proposed caps and either value of the debayer flag,
`gst_impactacquiresrc_set_caps` returns `TRUE` if and only if some catalog entry
covers the proposed caps and is one `gst_impactacquiresrc_get_supported_caps` adds
a structure for, that is: the source-format dictionary has its `pixel_format`, or
it is not Bayer and the conversion-stage dictionary has its
`image_destination_pixel_format`. The entry it selects is such an entry, and
neither the return value nor the selected entry nor the entries visited change
with the debayer flag. -/
theorem probing_and_negotiation_agree (caps : GstCaps) (src : GstImpactAcquireSrc)
    (dev : Device) (hDst : PropertyS) (Width Height : Int)
    (hh : dev.ImageDestinationPixelFormat = some hDst) :
    ((gst_impactacquiresrc_set_caps src dev caps).ret = true ↔
      ∃ i info, gst_impactacquire_pixel_format_infos[i]? = some info ∧
        gst_caps_is_subset caps info.gst_caps_string = true ∧
        i ∈ (gst_impactacquiresrc_get_supported_caps dev Width Height).added) ∧
    ((gst_impactacquiresrc_set_caps src dev caps).ret = true ↔
      ∃ info ∈ gst_impactacquire_pixel_format_infos,
        gst_caps_is_subset caps info.gst_caps_string = true ∧
        (boDeviceFeatureAvailableInList (some dev.ImageFormatControlPixelFormat)
            info.pixel_format = true ∨
          ( g_str_has_prefix info.pixel_format "Bayer" = false ∧
            boDeviceFeatureAvailableInList dev.ImageDestinationPixelFormat
              info.image_destination_pixel_format = true))) ∧
    (∀ i, (gst_impactacquiresrc_set_caps src dev caps).selected = some i →
      i ∈ (gst_impactacquiresrc_get_supported_caps dev Width Height).added) ∧
    (∀ b : Bool,
      (gst_impactacquiresrc_set_caps { src with boDebayerOnHost := b } dev caps).ret
        = (gst_impactacquiresrc_set_caps src dev caps).ret ∧
      (gst_impactacquiresrc_set_caps { src with boDebayerOnHost := b } dev caps).selected
        = (gst_impactacquiresrc_set_caps src dev caps).selected ∧
      (gst_impactacquiresrc_set_caps { src with boDebayerOnHost := b } dev caps).visited
        = (gst_impactacquiresrc_set_caps src dev caps).visited) := by
  have hsel : ∀ info, selectable caps src dev info = true ↔
      (gst_caps_is_subset caps info.gst_caps_string = true ∧ probe_feasible dev info = true) := by
    intro info
    rw [selectable_flag_free]
    unfold probe_feasible
    simp
  have hfeas : ∀ info, probe_feasible dev info = true ↔
      (boDeviceFeatureAvailableInList (some dev.ImageFormatControlPixelFormat)
          info.pixel_format = true ∨
        ( g_str_has_prefix info.pixel_format "Bayer" = false ∧
          boDeviceFeatureAvailableInList dev.ImageDestinationPixelFormat
            info.image_destination_pixel_format = true)) := by
    intro info
    unfold probe_feasible native_match forced_conversion
    simp
  refine ⟨?_, ?_, ?_, fun b => set_caps_element_free caps src _ dev⟩
  · rw [set_caps_ret_iff caps src dev hDst hh]
    constructor
    · rintro ⟨info, hmem, hs⟩
      obtain ⟨i, hi⟩ := List.mem_iff_getElem?.mp hmem
      obtain ⟨hc, hf⟩ := (hsel info).mp hs
      exact ⟨i, info, hi, hc, (mem_added_iff dev Width Height i info hi).mpr hf⟩
    · rintro ⟨i, info, hi, hc, hadd⟩
      exact ⟨info, mem_of_getElem?_eq_some _ i info hi,
        (hsel info).mpr ⟨hc, (mem_added_iff dev Width Height i info hi).mp hadd⟩⟩
  · rw [set_caps_ret_iff caps src dev hDst hh]
    constructor
    · rintro ⟨info, hmem, hs⟩
      obtain ⟨hc, hf⟩ := (hsel info).mp hs
      exact ⟨info, hmem, hc, (hfeas info).mp hf⟩
    · rintro ⟨info, hmem, hc, hf⟩
      exact ⟨info, hmem, (hsel info).mpr ⟨hc, (hfeas info).mpr hf⟩⟩
  · intro i hi
    rw [set_caps_with_handle caps src dev hDst hh] at hi
    rcases set_caps_loop_cases caps gst_impactacquire_pixel_format_infos src dev with
      h | ⟨pre, info0, post, he, hp, hs0⟩
    · rw [set_caps_loop_none caps _ src dev 0 [] h] at hi
      simp [SetCapsResult.selected] at hi
    · have hinfo : gst_impactacquire_pixel_format_infos[pre.length]? = some info0 := by
        rw [he, List.getElem?_append_right (Nat.le_refl _)]
        simp
      rw [he, set_caps_loop_first caps pre info0 post src dev 0 [] hp hs0] at hi
      have hsel2 := (selected_of_eq
        (⟨true, (set_caps_entry caps info0 src dev).2.1, (set_caps_entry caps info0 src dev).2.2,
          [] ++ List.range' 0 (pre.length + 1)⟩ : SetCapsResult)
        (set_caps_entry caps info0 src dev).2.1 (set_caps_entry caps info0 src dev).2.2
        pre.length (by simp)).2.1
      rw [hsel2] at hi
      have hi2 : pre.length = i := by simpa using hi
      subst hi2
      exact (mem_added_iff dev Width Height pre.length info0 hinfo).mpr ((hsel info0).mp hs0).2

/-- C28 at a device that emits `BayerRG8` only and converts to `RGB888Packed`: a
`BGR` proposal is accepted with entry 9 for both values of the flag, an `RGB`
proposal is refused for both. -/
theorem probing_and_negotiation_agree_witness :
    (gst_impactacquiresrc_set_caps gst_impactacquiresrc_init
      (device_with ["BayerRG8"] ["RGB888Packed"] "BayerRG8") (video_caps "BGR")).selected = some 9 ∧
    (gst_impactacquiresrc_set_caps { gst_impactacquiresrc_init with boDebayerOnHost := true }
      (device_with ["BayerRG8"] ["RGB888Packed"] "BayerRG8") (video_caps "BGR")).selected = some 9 ∧
    (gst_impactacquiresrc_set_caps { gst_impactacquiresrc_init with boDebayerOnHost := true }
      (device_with ["BayerRG8"] ["RGB888Packed"] "BayerRG8") (video_caps "RGB")).ret = false ∧
    9 ∈ (gst_impactacquiresrc_get_supported_caps
      (device_with ["BayerRG8"] ["RGB888Packed"] "BayerRG8") 640 480).added :=
  have h := probing_and_negotiation_agree (video_caps "BGR") gst_impactacquiresrc_init
    (device_with ["BayerRG8"] ["RGB888Packed"] "BayerRG8") ⟨some "Raw", some [some "RGB888Packed"]⟩
    640 480 rfl
  have h2 := probing_and_negotiation_agree (video_caps "RGB") gst_impactacquiresrc_init
    (device_with ["BayerRG8"] ["RGB888Packed"] "BayerRG8") ⟨some "Raw", some [some "RGB888Packed"]⟩
    640 480 rfl
  ⟨by decide, (h.2.2.2 true).2.1.trans (by decide), (h2.2.2.2 true).1.trans (by decide),
    h.2.2.1 9 (by decide)⟩

/-! ## The size adjustment -/

section sizes

variable (dm : DeviceManager) (src : GstImpactAcquireSrc)

/-- The driver handle after `DMR_OpenDevice` does not depend on sizes and offsets. -/
theorem connect_opened_driverHandle_sizes (width height offsetx offsety : Int) :
    (connect_opened dm { src with
      width := width, height := height, offsetx := offsetx, offsety := offsety }).driverHandle
      = (connect_opened dm src).driverHandle := by
  unfold connect_opened
  simp only []
  split_ifs <;> rfl

/-- The width after the call, through `adjusted_size`. -/
theorem connect_width_adjusted :
    (gst_impactacquiresrc_connect_device dm src).src.width
      = if src.width ≠ DEFAULT_PROP_SIZE ∨ src.offsetx ≠ DEFAULT_PROP_OFFSET then
          adjusted_size src.width src.offsetx
            (to_gint (dm.PROP_MAX_VAL (connect_opened dm src).driverHandle "Width"))
        else src.width := by
  have h := connect_width dm src
  rw [connect_device_src] at h
  rw [connect_device_src]
  exact h

/-- The height after the call, through `adjusted_size`. -/
theorem connect_height_adjusted :
    (gst_impactacquiresrc_connect_device dm src).src.height
      = if src.height ≠ DEFAULT_PROP_SIZE ∨ src.offsety ≠ DEFAULT_PROP_OFFSET then
          adjusted_size src.height src.offsety
            (to_gint (dm.PROP_MAX_VAL (connect_opened dm src).driverHandle "Height"))
        else src.height := by
  have h := connect_height dm src
  rw [connect_device_src] at h
  rw [connect_device_src]
  exact h

/-- The adjustment in exact arithmetic, for sizes and offsets of the property range
and a maximum that fits a `gint`. -/
theorem adjusted_size_exact (size offset max : Int) (hs : 0 ≤ size) (hs2 : size ≤ 10000)
    (ho : 0 ≤ offset) (ho2 : offset ≤ 10000) (hm : 0 ≤ max) (hm2 : max < 2147483648) :
    adjusted_size size offset (to_gint max)
      = (if size = 0 then max - offset else if size + offset > max then size - offset else size) ∧
    (adjusted_size size offset (to_gint max) + offset ≤ max ↔ (size = 0 ∨ size ≤ max)) := by
  have hmax : to_gint max = max := by unfold to_gint; omega
  have hadd : gint_add size offset = size + offset := by unfold gint_add; omega
  have hsub1 : gint_sub max offset = max - offset := by unfold gint_sub to_gint; omega
  have hsub2 : gint_sub size offset = size - offset := by unfold gint_sub to_gint; omega
  unfold adjusted_size
  rw [hmax, hadd, hsub1, hsub2]
  simp only [DEFAULT_PROP_SIZE]
  constructor
  · trivial
  · split_ifs <;> omega

end sizes

/-! ## Claims on counters and sizes -/

/-- C23: for every call of `gst_impactacquiresrc_create` made with the acquisition
running in which the wait completes, the call ends (no priming is involved) with
`boAcquisitionRunning` still `TRUE`; `failedFrames` has gone up by one, in `gint`
arithmetic (by exactly 1 below `G_MAXINT`), if the result query fails, the request
result is not `rrOK` or the buffer fetch fails, and is unchanged if the frame is
delivered. -/
theorem create_counts_failed_frames (σ : Type) (drv : Driver σ) (fuel : Nat)
    (src : GstImpactAcquireSrc) (buf : Option GstBuffer) (w : World σ)
    (hrun : src.boAcquisitionRunning = true)
    (hwait : (drv.DMR_ImageRequestWaitFor w.dev 500).1 = TDMR_ERROR.DMR_NO_ERROR) :
    ∃ r, gst_impactacquiresrc_create drv fuel src buf w = some r ∧
      r.src.boAcquisitionRunning = true ∧
      (((drv.DMR_GetImageRequestResultEx (drv.DMR_ImageRequestWaitFor w.dev 500).2.2
            (drv.DMR_ImageRequestWaitFor w.dev 500).2.1).1 ≠ TDMR_ERROR.DMR_NO_ERROR ∨
          (drv.DMR_GetImageRequestResultEx (drv.DMR_ImageRequestWaitFor w.dev 500).2.2
            (drv.DMR_ImageRequestWaitFor w.dev 500).2.1).2.1 ≠ TRequestResult.rrOK ∨
          (drv.DMR_GetImageRequestBuffer
            (drv.DMR_GetImageRequestResultEx (drv.DMR_ImageRequestWaitFor w.dev 500).2.2
              (drv.DMR_ImageRequestWaitFor w.dev 500).2.1).2.2
            (drv.DMR_ImageRequestWaitFor w.dev 500).2.1).1 ≠ TDMR_ERROR.DMR_NO_ERROR) →
        r.path ≠ CreatePath.delivered ∧
        r.src.failedFrames = gint_add src.failedFrames 1 ∧
        (-2147483648 ≤ src.failedFrames → src.failedFrames < 2147483647 →
          r.src.failedFrames = src.failedFrames + 1)) ∧
      (((drv.DMR_GetImageRequestResultEx (drv.DMR_ImageRequestWaitFor w.dev 500).2.2
            (drv.DMR_ImageRequestWaitFor w.dev 500).2.1).1 = TDMR_ERROR.DMR_NO_ERROR ∧
          (drv.DMR_GetImageRequestResultEx (drv.DMR_ImageRequestWaitFor w.dev 500).2.2
            (drv.DMR_ImageRequestWaitFor w.dev 500).2.1).2.1 = TRequestResult.rrOK ∧
          (drv.DMR_GetImageRequestBuffer
            (drv.DMR_GetImageRequestResultEx (drv.DMR_ImageRequestWaitFor w.dev 500).2.2
              (drv.DMR_ImageRequestWaitFor w.dev 500).2.1).2.2
            (drv.DMR_ImageRequestWaitFor w.dev 500).2.1).1 = TDMR_ERROR.DMR_NO_ERROR) →
        r.path = CreatePath.delivered ∧ r.src.failedFrames = src.failedFrames) := by
  refine ⟨create_wait drv src buf w, create_running drv fuel src buf w hrun, ?_⟩
  have h1 : (ImageRequestWaitFor drv w 500).1 = TDMR_ERROR.DMR_NO_ERROR := hwait
  have hexact : -2147483648 ≤ src.failedFrames → src.failedFrames < 2147483647 →
      gint_add src.failedFrames 1 = src.failedFrames + 1 := by
    intro ha hb
    unfold gint_add
    omega
  unfold create_wait
  by_cases h2 : (GetImageRequestResultEx drv (ImageRequestWaitFor drv w 500).2.2
      (ImageRequestWaitFor drv w 500).2.1).1 = TDMR_ERROR.DMR_NO_ERROR ∧
      (GetImageRequestResultEx drv (ImageRequestWaitFor drv w 500).2.2
        (ImageRequestWaitFor drv w 500).2.1).2.1 = TRequestResult.rrOK
  · by_cases h3 : (GetImageRequestBuffer drv
        (GetImageRequestResultEx drv (ImageRequestWaitFor drv w 500).2.2
          (ImageRequestWaitFor drv w 500).2.1).2.2
        (ImageRequestWaitFor drv w 500).2.1).1 = TDMR_ERROR.DMR_NO_ERROR
    · have g1 : ¬ ((drv.DMR_GetImageRequestResultEx (drv.DMR_ImageRequestWaitFor w.dev 500).2.2
            (drv.DMR_ImageRequestWaitFor w.dev 500).2.1).1 ≠ TDMR_ERROR.DMR_NO_ERROR ∨
          (drv.DMR_GetImageRequestResultEx (drv.DMR_ImageRequestWaitFor w.dev 500).2.2
            (drv.DMR_ImageRequestWaitFor w.dev 500).2.1).2.1 ≠ TRequestResult.rrOK ∨
          (drv.DMR_GetImageRequestBuffer
            (drv.DMR_GetImageRequestResultEx (drv.DMR_ImageRequestWaitFor w.dev 500).2.2
              (drv.DMR_ImageRequestWaitFor w.dev 500).2.1).2.2
            (drv.DMR_ImageRequestWaitFor w.dev 500).2.1).1 ≠ TDMR_ERROR.DMR_NO_ERROR) := by
        rintro (g | g | g)
        · exact g h2.1
        · exact g h2.2
        · exact g h3
      simp only [h1, h2, h3, if_true, and_self]
      exact ⟨hrun, fun g => absurd g g1, fun _ => trivial⟩
    · have g2 : ¬ ((drv.DMR_GetImageRequestResultEx (drv.DMR_ImageRequestWaitFor w.dev 500).2.2
            (drv.DMR_ImageRequestWaitFor w.dev 500).2.1).1 = TDMR_ERROR.DMR_NO_ERROR ∧
          (drv.DMR_GetImageRequestResultEx (drv.DMR_ImageRequestWaitFor w.dev 500).2.2
            (drv.DMR_ImageRequestWaitFor w.dev 500).2.1).2.1 = TRequestResult.rrOK ∧
          (drv.DMR_GetImageRequestBuffer
            (drv.DMR_GetImageRequestResultEx (drv.DMR_ImageRequestWaitFor w.dev 500).2.2
              (drv.DMR_ImageRequestWaitFor w.dev 500).2.1).2.2
            (drv.DMR_ImageRequestWaitFor w.dev 500).2.1).1 = TDMR_ERROR.DMR_NO_ERROR) :=
        fun g => h3 g.2.2
      simp only [h1, h2, h3, if_true, if_false, and_self]
      cases buf with
      | none => exact ⟨hrun, fun _ => ⟨by simp, rfl, hexact⟩, fun g => absurd g g2⟩
      | some b => exact ⟨hrun, fun _ => ⟨by simp, rfl, hexact⟩, fun g => absurd g g2⟩
  · have g2 : ¬ ((drv.DMR_GetImageRequestResultEx (drv.DMR_ImageRequestWaitFor w.dev 500).2.2
          (drv.DMR_ImageRequestWaitFor w.dev 500).2.1).1 = TDMR_ERROR.DMR_NO_ERROR ∧
        (drv.DMR_GetImageRequestResultEx (drv.DMR_ImageRequestWaitFor w.dev 500).2.2
          (drv.DMR_ImageRequestWaitFor w.dev 500).2.1).2.1 = TRequestResult.rrOK ∧
        (drv.DMR_GetImageRequestBuffer
          (drv.DMR_GetImageRequestResultEx (drv.DMR_ImageRequestWaitFor w.dev 500).2.2
            (drv.DMR_ImageRequestWaitFor w.dev 500).2.1).2.2
          (drv.DMR_ImageRequestWaitFor w.dev 500).2.1).1 = TDMR_ERROR.DMR_NO_ERROR) :=
      fun g => h2 ⟨g.1, g.2.1⟩
    simp only [h1, h2, if_true, if_false]
    cases buf with
    | none =>
      refine ⟨hrun, fun _ => ⟨?_, rfl, hexact⟩, fun g => absurd g g2⟩
      simp only []
      split <;> simp
    | some b =>
      refine ⟨hrun, fun _ => ⟨?_, rfl, hexact⟩, fun g => absurd g g2⟩
      simp only []
      split <;> simp

/-- C23 at the scripted device: a bad frame makes 4 failed frames 5, a good frame
leaves them at 4; the acquisition keeps running in both. -/
theorem create_counts_failed_frames_witness :
    (gst_impactacquiresrc_create scripted 0
        { gst_impactacquiresrc_init with boAcquisitionRunning := true, failedFrames := 4 }
        (some ⟨7, 7, 0, 7, none, 3, 4⟩) (scripted_world 0 [bad_frame 2])).map
      (fun r => (r.src.failedFrames, r.src.boAcquisitionRunning)) = some (5, true) ∧
    (gst_impactacquiresrc_create scripted 0
        { gst_impactacquiresrc_init with boAcquisitionRunning := true, failedFrames := 4 }
        none (scripted_world 0 [good_frame 2 1000 64])).map
      (fun r => (r.src.failedFrames, r.src.boAcquisitionRunning)) = some (4, true) := by
  obtain ⟨r, hr, hrun, hbad, _⟩ := create_counts_failed_frames Scripted scripted 0
    { gst_impactacquiresrc_init with boAcquisitionRunning := true, failedFrames := 4 }
    (some ⟨7, 7, 0, 7, none, 3, 4⟩) (scripted_world 0 [bad_frame 2]) rfl rfl
  obtain ⟨r2, hr2, hrun2, _, hgood⟩ := create_counts_failed_frames Scripted scripted 0
    { gst_impactacquiresrc_init with boAcquisitionRunning := true, failedFrames := 4 }
    none (scripted_world 0 [good_frame 2 1000 64]) rfl rfl
  rw [hr, hr2]
  simp only [Option.map_some', Option.some.injEq, Prod.mk.injEq]
  have e1 := (hbad (Or.inr (Or.inl (by decide)))).2.2 (by decide) (by decide)
  have e2 := (hgood ⟨rfl, rfl, rfl⟩).2
  exact ⟨⟨e1, hrun⟩, ⟨e2, hrun2⟩⟩

/-- C27 fails on the code: with width 2000 and offsetx 5 at a device whose maximum
width is 1920, the width after `gst_impactacquiresrc_connect_device` is 1995, and
1995 + 5 is above 1920; the same for height 1200 and offsety 10 at maximum height
1080, where the height after the call is 1190. -/
theorem connect_adjusted_width_exceeds_maximum :
    (gst_impactacquiresrc_connect_device
        (one_camera 0 TDMR_ERROR.DMR_NO_ERROR TDMR_ERROR.DMR_NO_ERROR TDMR_ERROR.DMR_NO_ERROR)
        { gst_impactacquiresrc_init with
          deviceHandle := 1, width := 2000, offsetx := 5, height := 1200, offsety := 10 }).src.width
      = 1995 ∧
    (gst_impactacquiresrc_connect_device
        (one_camera 0 TDMR_ERROR.DMR_NO_ERROR TDMR_ERROR.DMR_NO_ERROR TDMR_ERROR.DMR_NO_ERROR)
        { gst_impactacquiresrc_init with
          deviceHandle := 1, width := 2000, offsetx := 5, height := 1200, offsety := 10 }).src.height
      = 1190 ∧
    ¬ ((1995 : Int) + 5 ≤ (one_camera 0 TDMR_ERROR.DMR_NO_ERROR TDMR_ERROR.DMR_NO_ERROR
        TDMR_ERROR.DMR_NO_ERROR).PROP_MAX_VAL 7 "Width") ∧
    ¬ ((1190 : Int) + 10 ≤ (one_camera 0 TDMR_ERROR.DMR_NO_ERROR TDMR_ERROR.DMR_NO_ERROR
        TDMR_ERROR.DMR_NO_ERROR).PROP_MAX_VAL 7 "Height") :=
  ⟨rfl, rfl, by decide, by decide⟩

/-- The size blocks in full: for every width and offsetx of the property range 0 to
10000, not both 0, and every device maximum from 0 to `G_MAXINT`, the width after
`gst_impactacquiresrc_connect_device` is the maximum minus offsetx when the width
is 0, the width minus offsetx when width plus offsetx is above the maximum, and
the width itself otherwise: the offset is taken off once and the result is not
checked again, so the adjusted width plus offsetx is at most the maximum exactly
when the configured width is 0 or at most the maximum. The adjusted width is a
function of width, offsetx and the maximum width alone; it is the same for every
height and offsety. The same holds for the height, with offsety and the maximum
height, for every width and offsetx. -/
theorem connect_adjusts_size_once (dm : DeviceManager) (src : GstImpactAcquireSrc) :
    ((src.width ≠ 0 ∨ src.offsetx ≠ 0) →
      (gst_impactacquiresrc_connect_device dm src).src.width
        = adjusted_size src.width src.offsetx (to_gint (dm.PROP_MAX_VAL
            (gst_impactacquiresrc_connect_device dm src).src.driverHandle "Width")) ∧
      (0 ≤ src.width → src.width ≤ 10000 → 0 ≤ src.offsetx → src.offsetx ≤ 10000 →
        0 ≤ dm.PROP_MAX_VAL (gst_impactacquiresrc_connect_device dm src).src.driverHandle "Width" →
        dm.PROP_MAX_VAL (gst_impactacquiresrc_connect_device dm src).src.driverHandle "Width"
          < 2147483648 →
        (gst_impactacquiresrc_connect_device dm src).src.width
          = (if src.width = 0 then
              dm.PROP_MAX_VAL (gst_impactacquiresrc_connect_device dm src).src.driverHandle "Width"
                - src.offsetx
            else if src.width + src.offsetx
                > dm.PROP_MAX_VAL (gst_impactacquiresrc_connect_device dm src).src.driverHandle
                    "Width" then
              src.width - src.offsetx
            else src.width) ∧
        ((gst_impactacquiresrc_connect_device dm src).src.width + src.offsetx
            ≤ dm.PROP_MAX_VAL (gst_impactacquiresrc_connect_device dm src).src.driverHandle "Width"
          ↔ (src.width = 0 ∨ src.width
            ≤ dm.PROP_MAX_VAL (gst_impactacquiresrc_connect_device dm src).src.driverHandle
                "Width")))) ∧
    ((src.height ≠ 0 ∨ src.offsety ≠ 0) →
      (gst_impactacquiresrc_connect_device dm src).src.height
        = adjusted_size src.height src.offsety (to_gint (dm.PROP_MAX_VAL
            (gst_impactacquiresrc_connect_device dm src).src.driverHandle "Height")) ∧
      (0 ≤ src.height → src.height ≤ 10000 → 0 ≤ src.offsety → src.offsety ≤ 10000 →
        0 ≤ dm.PROP_MAX_VAL (gst_impactacquiresrc_connect_device dm src).src.driverHandle "Height" →
        dm.PROP_MAX_VAL (gst_impactacquiresrc_connect_device dm src).src.driverHandle "Height"
          < 2147483648 →
        (gst_impactacquiresrc_connect_device dm src).src.height
          = (if src.height = 0 then
              dm.PROP_MAX_VAL (gst_impactacquiresrc_connect_device dm src).src.driverHandle "Height"
                - src.offsety
            else if src.height + src.offsety
                > dm.PROP_MAX_VAL (gst_impactacquiresrc_connect_device dm src).src.driverHandle
                    "Height" then
              src.height - src.offsety
            else src.height) ∧
        ((gst_impactacquiresrc_connect_device dm src).src.height + src.offsety
            ≤ dm.PROP_MAX_VAL (gst_impactacquiresrc_connect_device dm src).src.driverHandle "Height"
          ↔ (src.height = 0 ∨ src.height
            ≤ dm.PROP_MAX_VAL (gst_impactacquiresrc_connect_device dm src).src.driverHandle
                "Height")))) ∧
    (∀ height offsety : Int,
      (gst_impactacquiresrc_connect_device dm
          { src with height := height, offsety := offsety }).src.width
        = (gst_impactacquiresrc_connect_device dm src).src.width) ∧
    (∀ width offsetx : Int,
      (gst_impactacquiresrc_connect_device dm
          { src with width := width, offsetx := offsetx }).src.height
        = (gst_impactacquiresrc_connect_device dm src).src.height) := by
  have hdrv : (gst_impactacquiresrc_connect_device dm src).src.driverHandle
      = (connect_opened dm src).driverHandle := by
    rw [connect_device_src]
  rw [hdrv]
  refine ⟨?_, ?_, ?_, ?_⟩
  · intro hg
    have h := connect_width_adjusted dm src
    have hg2 : src.width ≠ DEFAULT_PROP_SIZE ∨ src.offsetx ≠ DEFAULT_PROP_OFFSET := hg
    rw [if_pos hg2] at h
    refine ⟨h, ?_⟩
    intro a b c d e f
    rw [h]
    exact adjusted_size_exact _ _ _ a b c d e f
  · intro hg
    have h := connect_height_adjusted dm src
    have hg2 : src.height ≠ DEFAULT_PROP_SIZE ∨ src.offsety ≠ DEFAULT_PROP_OFFSET := hg
    rw [if_pos hg2] at h
    refine ⟨h, ?_⟩
    intro a b c d e f
    rw [h]
    exact adjusted_size_exact _ _ _ a b c d e f
  · intro height offsety
    rw [connect_width_adjusted, connect_width_adjusted]
    have := connect_opened_driverHandle_sizes dm src src.width height src.offsetx offsety
    rw [← this]
  · intro width offsetx
    rw [connect_height_adjusted, connect_height_adjusted]
    have := connect_opened_driverHandle_sizes dm src width src.height offsetx src.offsety
    rw [← this]

/-- At a 1920 by 1080 device with width 1000 and offsetx 20 the width stays 1000,
and 1000 + 20 is within 1920. -/
theorem connect_adjusts_size_once_witness :
    (gst_impactacquiresrc_connect_device
        (one_camera 0 TDMR_ERROR.DMR_NO_ERROR TDMR_ERROR.DMR_NO_ERROR TDMR_ERROR.DMR_NO_ERROR)
        { gst_impactacquiresrc_init with deviceHandle := 1, width := 1000, offsetx := 20 }).src.width
      = 1000 ∧
    (gst_impactacquiresrc_connect_device
        (one_camera 0 TDMR_ERROR.DMR_NO_ERROR TDMR_ERROR.DMR_NO_ERROR TDMR_ERROR.DMR_NO_ERROR)
        { gst_impactacquiresrc_init with deviceHandle := 1, width := 1000, offsetx := 20 }).src.width
      + 20 ≤ 1920 :=
  have h := ((connect_adjusts_size_once
    (one_camera 0 TDMR_ERROR.DMR_NO_ERROR TDMR_ERROR.DMR_NO_ERROR TDMR_ERROR.DMR_NO_ERROR)
    { gst_impactacquiresrc_init with deviceHandle := 1, width := 1000, offsetx := 20 }).1
      (Or.inl (by decide))).2 (by decide) (by decide) (by decide) (by decide) (by decide)
      (by decide)
  ⟨h.1.trans (by decide), h.2.mpr (Or.inr (by decide))⟩

/-- C22 fails on the code for the camera id: with an empty serial and camera id 1
configured at a device manager with two cameras, `gst_impactacquiresrc_select_device`
takes the handle of camera number 0 (handle 10, serial `"GX000001"`) and replaces
the configured id by that camera's device id 0; the same happens for camera id 0.
With the serial `"GX000002"` it takes handle 11 for both camera ids. -/
theorem select_device_ignores_camera_id :
    gst_impactacquiresrc_select_device two_cameras { gst_impactacquiresrc_init with deviceId := 1 }
      = (true, { gst_impactacquiresrc_init with
          deviceId := 0, serialNumber := "GX000001", deviceHandle := 10 }) ∧
    gst_impactacquiresrc_select_device two_cameras { gst_impactacquiresrc_init with deviceId := 0 }
      = (true, { gst_impactacquiresrc_init with
          deviceId := 0, serialNumber := "GX000001", deviceHandle := 10 }) ∧
    gst_impactacquiresrc_select_device two_cameras
        { gst_impactacquiresrc_init with deviceId := 0, serialNumber := "GX000002" }
      = (true, { gst_impactacquiresrc_init with
          deviceId := 1, serialNumber := "GX000002", deviceHandle := 11 }) ∧
    gst_impactacquiresrc_select_device two_cameras
        { gst_impactacquiresrc_init with deviceId := 1, serialNumber := "GX000002" }
      = (true, { gst_impactacquiresrc_init with
          deviceId := 1, serialNumber := "GX000002", deviceHandle := 11 }) ∧
    (two_cameras.DMR_GetDevice TDeviceSearchMode.dmdsmFamily "mv*" 1 '*').2 = 11 :=
  ⟨rfl, rfl, rfl, rfl, rfl⟩

/-! ## The bounded request queue -/

/-- The `Bounded` device has a bounded request queue. -/
theorem bounded_is_bounded_queue :
    bounded_queue bounded (fun s => s.free) (fun s => s.queued) (fun s => s.locked) where
  fill_free := by
    intro s h
    have h0 : ¬ s.free = 0 := by omega
    simp only [bounded, h0, if_false]
    exact ⟨trivial, by omega, trivial, trivial⟩
  fill_full := by
    intro s h
    simp only [bounded, h, if_true, same_slots]
    exact ⟨trivial, trivial, trivial, trivial⟩
  wait_completed := by
    intro s t h
    simp only [bounded] at h ⊢
    cases hs : s.script with
    | nil => rw [hs] at h; exact absurd h (by simp)
    | cons e rest =>
      rw [hs] at h
      simp only at h ⊢
      by_cases hc : e.1 = TDMR_ERROR.DMR_NO_ERROR ∧ 0 < s.queued
      · simp only [hc, and_self, if_true]
        exact ⟨trivial, by omega, trivial⟩
      · simp only [hc, if_false] at h
        exact absurd h (by simp)
  wait_failed := by
    intro s t hne
    simp only [bounded, same_slots]
    cases hs : s.script with
    | nil => exact ⟨rfl, rfl, rfl⟩
    | cons e rest =>
      simp only
      by_cases hc : e.1 = TDMR_ERROR.DMR_NO_ERROR ∧ 0 < s.queued
      · simp only [bounded, hs, hc, and_self, if_true] at hne
        exact absurd rfl hne
      · simp only [hc, if_false]
        exact ⟨trivial, trivial, trivial⟩
  unlock := by
    intro s n h
    have h0 : ¬ s.locked = 0 := by omega
    simp only [bounded, h0, if_false]
    exact ⟨trivial, trivial, by omega⟩
  result_query := fun _ _ => ⟨rfl, rfl, rfl⟩
  buffer_fetch := fun _ _ => ⟨rfl, rfl, rfl⟩
  start := fun _ => ⟨rfl, rfl, rfl⟩
  setting := fun _ _ _ => ⟨rfl, rfl, rfl⟩

section queue

variable {σ : Type} {drv : Driver σ} {free queued locked : σ → Nat}

/-- At a bounded queue the priming loop fills every free slot, is refused once,
and ends there, given fuel for these requests. -/
theorem priming_bounded (hq : bounded_queue drv free queued locked) (k : Nat) :
    ∀ (n : Nat) (w : World σ), free w.dev = n →
      ∃ w1, priming_loop drv (n + 1 + k) w
          = some (TDMR_ERROR.DEV_NO_FREE_REQUEST_AVAILABLE, w1) ∧
        w1.calls = w.calls ++ List.replicate n (Call.ImageRequestSingle TDMR_ERROR.DMR_NO_ERROR)
          ++ [Call.ImageRequestSingle TDMR_ERROR.DEV_NO_FREE_REQUEST_AVAILABLE] ∧
        free w1.dev = 0 ∧ queued w1.dev = queued w.dev + n ∧ locked w1.dev = locked w.dev := by
  intro n
  induction n with
  | zero =>
    intro w hf
    obtain ⟨hres, h1, h2, h3⟩ := hq.fill_full w.dev hf
    have hfuel : 0 + 1 + k = k + 1 := by omega
    rw [hfuel]
    unfold priming_loop
    have hr : (ImageRequestSingle drv w).1 = TDMR_ERROR.DEV_NO_FREE_REQUEST_AVAILABLE := hres
    simp only [hr]
    refine ⟨(ImageRequestSingle drv w).2, ?_, ?_, ?_, ?_, ?_⟩
    · simp
      rw [← hr]
    · simp [ImageRequestSingle, hres]
    · exact h1.trans hf
    · exact h2
    · exact h3
  | succ n ih =>
    intro w hf
    obtain ⟨hres, h1, h2, h3⟩ := hq.fill_free w.dev (by omega)
    have hfuel : n + 1 + 1 + k = (n + 1 + k) + 1 := by omega
    rw [hfuel]
    unfold priming_loop
    have hr : (ImageRequestSingle drv w).1 = TDMR_ERROR.DMR_NO_ERROR := hres
    simp only [hr, if_true]
    have hf1 : free (ImageRequestSingle drv w).2.dev = n := by
      have : free (drv.DMR_ImageRequestSingle w.dev).2 = n := by omega
      exact this
    obtain ⟨w1, hp, hc, g1, g2, g3⟩ := ih (ImageRequestSingle drv w).2 hf1
    refine ⟨w1, hp, ?_, g1, ?_, ?_⟩
    · rw [hc]
      simp [ImageRequestSingle, hres, List.replicate_succ]
    · rw [g2]
      have : queued (ImageRequestSingle drv w).2.dev = queued w.dev + 1 := h2
      omega
    · rw [g3]
      exact h3

/-- At a bounded queue with no free slot and a locked one, `release_frame_buffer`
frees the slot and queues it again: its fill request is accepted. -/
theorem release_bounded (hq : bounded_queue drv free queued locked)
    (info : CurrentRequestInfo) (w : World σ) (hf : free w.dev = 0) (hl : 0 < locked w.dev) :
    (release_frame_buffer drv info w).calls
      = w.calls ++ [Call.ImageRequestUnlock info.requestNr
            (drv.DMR_ImageRequestUnlock w.dev info.requestNr).1,
          Call.ImageRequestSingle TDMR_ERROR.DMR_NO_ERROR] ∧
    free (release_frame_buffer drv info w).dev = 0 ∧
    queued (release_frame_buffer drv info w).dev = queued w.dev + 1 ∧
    locked (release_frame_buffer drv info w).dev + 1 = locked w.dev := by
  obtain ⟨hcalls, hdev⟩ := release_frame_buffer_eq drv info w
  obtain ⟨u1, u2, u3⟩ := hq.unlock w.dev info.requestNr hl
  obtain ⟨f0, f1, f2, f3⟩ := hq.fill_free (drv.DMR_ImageRequestUnlock w.dev info.requestNr).2
    (by omega)
  rw [hcalls, hdev, f0]
  refine ⟨rfl, by omega, by omega, by omega⟩

/-- At a bounded queue `gst_impactacquiresrc_start_acquisition` returns, given fuel
for the free slots and one more request: it fills every free slot, is refused
once, and starts the capture engine. -/
theorem start_acquisition_bounded (hq : bounded_queue drv free queued locked)
    (src : GstImpactAcquireSrc) (w : World σ) (k : Nat) :
    ∃ (b : Bool) (src1 : GstImpactAcquireSrc) (w1 : World σ) (l0 : List Call) (res : TDMR_ERROR),
      gst_impactacquiresrc_start_acquisition drv (free w.dev + 1 + k) src w = some (b, src1, w1) ∧
      w1.calls = w.calls ++ l0
        ++ List.replicate (free w.dev) (Call.ImageRequestSingle TDMR_ERROR.DMR_NO_ERROR)
        ++ [Call.ImageRequestSingle TDMR_ERROR.DEV_NO_FREE_REQUEST_AVAILABLE,
            Call.AcquisitionStart res] ∧
      (∀ c ∈ l0, c.is_fill = false) ∧
      free w1.dev = 0 ∧ queued w1.dev = queued w.dev + free w.dev ∧ locked w1.dev = locked w.dev ∧
      (res = TDMR_ERROR.DMR_NO_ERROR → b = true ∧
        src1 = { src with frameNumber := 0, failedFrames := 0, boAcquisitionRunning := true }) ∧
      (res ≠ TDMR_ERROR.DMR_NO_ERROR → b = src.boAcquisitionRunning ∧ src1 = src) := by
  have hw0 : ∃ (w0 : World σ) (l0 : List Call),
      (if g_ascii_strncasecmp src.gst_pixel_format.data "BGRA".data G_MAXSIZE = 0 then
          setPropI drv (setPropI drv w "MemoryInitEnable" 1) "MemoryInitValue" 255
        else w) = w0 ∧
      w0.calls = w.calls ++ l0 ∧ (∀ c ∈ l0, c.is_fill = false) ∧
      same_slots free queued locked w.dev w0.dev := by
    by_cases hb : g_ascii_strncasecmp src.gst_pixel_format.data "BGRA".data G_MAXSIZE = 0
    · refine ⟨_, [Call.setPropI "MemoryInitEnable" 1, Call.setPropI "MemoryInitValue" 255],
        if_pos hb, by simp [setPropI], ?_, ?_⟩
      · intro c hc
        simp only [List.mem_cons, List.mem_singleton, List.not_mem_nil, or_false] at hc
        rcases hc with rfl | rfl <;> rfl
      · obtain ⟨a1, a2, a3⟩ := hq.setting w.dev "MemoryInitEnable" 1
        obtain ⟨b1, b2, b3⟩ := hq.setting (drv.setSystemSettingI w.dev "MemoryInitEnable" 1)
          "MemoryInitValue" 255
        exact ⟨b1.trans a1, b2.trans a2, b3.trans a3⟩
    · exact ⟨w, [], if_neg hb, by simp, by simp, rfl, rfl, rfl⟩
  obtain ⟨w0, l0, hw0e, hc0, hl0, hs0⟩ := hw0
  obtain ⟨wp, hp, hcp, g1, g2, g3⟩ := priming_bounded hq k (free w.dev) w0 hs0.1
  obtain ⟨t1, t2, t3⟩ := hq.start wp.dev
  have hdev : (AcquisitionStart drv wp).2.dev = (drv.DMR_AcquisitionStart wp.dev).2 := rfl
  have hcalls : (AcquisitionStart drv wp).2.calls
      = w.calls ++ l0
        ++ List.replicate (free w.dev) (Call.ImageRequestSingle TDMR_ERROR.DMR_NO_ERROR)
        ++ [Call.ImageRequestSingle TDMR_ERROR.DEV_NO_FREE_REQUEST_AVAILABLE,
            Call.AcquisitionStart (AcquisitionStart drv wp).1] := by
    have : (AcquisitionStart drv wp).2.calls
        = wp.calls ++ [Call.AcquisitionStart (AcquisitionStart drv wp).1] := rfl
    rw [this, hcp, hc0]
    simp only [List.append_assoc, List.singleton_append]
  unfold gst_impactacquiresrc_start_acquisition
  simp only []
  rw [hw0e, hp]
  simp only []
  by_cases hs : (AcquisitionStart drv wp).1 = TDMR_ERROR.DMR_NO_ERROR
  · refine ⟨true, { src with frameNumber := 0, failedFrames := 0, boAcquisitionRunning := true },
      (AcquisitionStart drv wp).2, l0, (AcquisitionStart drv wp).1, ?_, hcalls, hl0, ?_, ?_, ?_,
      fun _ => ⟨rfl, rfl⟩, fun hne => absurd hs hne⟩
    · simp [hs]
    · rw [hdev, t1]; exact g1
    · rw [hdev, t2, g2, hs0.2.1]
    · rw [hdev, t3, g3, hs0.2.2]
  · refine ⟨src.boAcquisitionRunning, src, (AcquisitionStart drv wp).2, l0,
      (AcquisitionStart drv wp).1, ?_, hcalls, hl0, ?_, ?_, ?_,
      fun he => absurd he hs, fun _ => ⟨rfl, rfl⟩⟩
    · simp [hs]
    · rw [hdev, t1]; exact g1
    · rw [hdev, t2, g2, hs0.2.1]
    · rw [hdev, t3, g3, hs0.2.2]

section worlds

variable (drv) (src : GstImpactAcquireSrc) (buf : Option GstBuffer) (w : World σ)

/-- The world a `create_wait` ends in, branch by branch. -/
theorem create_wait_world :
    (create_wait drv src buf w).src.boAcquisitionRunning = src.boAcquisitionRunning ∧
    (((drv.DMR_ImageRequestWaitFor w.dev 500).1 ≠ TDMR_ERROR.DMR_NO_ERROR ∧
        (create_wait drv src buf w).path = CreatePath.wait_failed ∧
        (create_wait drv src buf w).w = wait_world drv w) ∨
      ((drv.DMR_ImageRequestWaitFor w.dev 500).1 = TDMR_ERROR.DMR_NO_ERROR ∧
        (create_wait drv src buf w).path = CreatePath.delivered ∧
        (create_wait drv src buf w).w
          = ⟨(fetch_world drv w).dev, (fetch_world drv w).calls
              ++ [Call.buffer_new_wrapped_full ⟨waited_request drv w⟩]⟩ ∧
        (create_wait drv src buf w).buf.bind (fun b => b.user_data)
          = some ⟨waited_request drv w⟩) ∨
      ((drv.DMR_ImageRequestWaitFor w.dev 500).1 = TDMR_ERROR.DMR_NO_ERROR ∧
        (create_wait drv src buf w).path ≠ CreatePath.delivered ∧
        ((create_wait drv src buf w).w
            = release_frame_buffer drv ⟨waited_request drv w⟩ (query_world drv w) ∨
          (create_wait drv src buf w).w
            = release_frame_buffer drv ⟨waited_request drv w⟩ (fetch_world drv w)))) := by
  unfold create_wait fetch_world query_world wait_world waited_request
  by_cases h1 : (ImageRequestWaitFor drv w 500).1 = TDMR_ERROR.DMR_NO_ERROR
  · have h1d : (drv.DMR_ImageRequestWaitFor w.dev 500).1 = TDMR_ERROR.DMR_NO_ERROR := h1
    by_cases h2 : (GetImageRequestResultEx drv (ImageRequestWaitFor drv w 500).2.2
        (ImageRequestWaitFor drv w 500).2.1).1 = TDMR_ERROR.DMR_NO_ERROR ∧
        (GetImageRequestResultEx drv (ImageRequestWaitFor drv w 500).2.2
          (ImageRequestWaitFor drv w 500).2.1).2.1 = TRequestResult.rrOK
    · by_cases h3 : (GetImageRequestBuffer drv
          (GetImageRequestResultEx drv (ImageRequestWaitFor drv w 500).2.2
            (ImageRequestWaitFor drv w 500).2.1).2.2
          (ImageRequestWaitFor drv w 500).2.1).1 = TDMR_ERROR.DMR_NO_ERROR
      · simp only [h1, h2, h3, if_true, and_self]
        refine ⟨trivial, Or.inr (Or.inl ⟨h1d, trivial, trivial, ?_⟩)⟩
        simp [gst_buffer_new_wrapped_full]
      · simp only [h1, h2, h3, if_true, if_false, and_self]
        cases buf with
        | none => exact ⟨rfl, Or.inr (Or.inr ⟨h1d, by simp, Or.inr rfl⟩)⟩
        | some b => exact ⟨rfl, Or.inr (Or.inr ⟨h1d, by simp, Or.inr rfl⟩)⟩
    · simp only [h1, h2, if_true, if_false]
      cases buf with
      | none =>
        refine ⟨rfl, Or.inr (Or.inr ⟨h1d, ?_, Or.inl rfl⟩)⟩
        simp only []
        split <;> simp
      | some b =>
        refine ⟨rfl, Or.inr (Or.inr ⟨h1d, ?_, Or.inl rfl⟩)⟩
        simp only []
        split <;> simp
  · have h1d : (drv.DMR_ImageRequestWaitFor w.dev 500).1 ≠ TDMR_ERROR.DMR_NO_ERROR := h1
    simp only [h1, if_false]
    exact ⟨trivial, Or.inl ⟨h1d, trivial, trivial⟩⟩

/-- The calls logged up to each of the worlds: none of them is a fill request. -/
theorem worlds_calls :
    ∃ c1 c2 c3 : Call, c1.is_fill = false ∧ c2.is_fill = false ∧ c3.is_fill = false ∧
      (wait_world drv w).calls = w.calls ++ [c1] ∧
      (query_world drv w).calls = w.calls ++ [c1, c2] ∧
      (fetch_world drv w).calls = w.calls ++ [c1, c2, c3] :=
  ⟨Call.ImageRequestWaitFor 500 (drv.DMR_ImageRequestWaitFor w.dev 500).1
      (drv.DMR_ImageRequestWaitFor w.dev 500).2.1,
    Call.GetImageRequestResultEx (waited_request drv w)
      (drv.DMR_GetImageRequestResultEx (wait_world drv w).dev (waited_request drv w)).1
      (drv.DMR_GetImageRequestResultEx (wait_world drv w).dev (waited_request drv w)).2.1,
    Call.GetImageRequestBuffer (waited_request drv w)
      (drv.DMR_GetImageRequestBuffer (query_world drv w).dev (waited_request drv w)).1,
    rfl, rfl, rfl, rfl,
    by simp [query_world, wait_world, waited_request, GetImageRequestResultEx,
      ImageRequestWaitFor],
    by simp [fetch_world, query_world, wait_world, waited_request, GetImageRequestBuffer,
      GetImageRequestResultEx, ImageRequestWaitFor]⟩

end worlds

/-- At a bounded queue with no free slot, a `create_wait` leaves no slot free: a
delivered frame keeps its slot locked, every other outcome leaves the counts as
they were, and every fill request among its calls is accepted. -/
theorem create_wait_bounded (hq : bounded_queue drv free queued locked)
    (src : GstImpactAcquireSrc) (buf : Option GstBuffer) (w : World σ) (hf : free w.dev = 0) :
    (create_wait drv src buf w).src.boAcquisitionRunning = src.boAcquisitionRunning ∧
    free (create_wait drv src buf w).w.dev = 0 ∧
    (((create_wait drv src buf w).path = CreatePath.delivered ∧
        (∃ h, (create_wait drv src buf w).buf.bind (fun b => b.user_data) = some h) ∧
        locked (create_wait drv src buf w).w.dev = locked w.dev + 1 ∧
        queued (create_wait drv src buf w).w.dev + 1 = queued w.dev) ∨
      ((create_wait drv src buf w).path ≠ CreatePath.delivered ∧
        locked (create_wait drv src buf w).w.dev = locked w.dev ∧
        queued (create_wait drv src buf w).w.dev = queued w.dev)) ∧
    ∃ l, (create_wait drv src buf w).w.calls = w.calls ++ l ∧
      ∀ c ∈ l, c.is_fill = true → c = Call.ImageRequestSingle TDMR_ERROR.DMR_NO_ERROR := by
  obtain ⟨hrun, hcase⟩ := create_wait_world drv src buf w
  obtain ⟨c1, c2, c3, n1, n2, n3, e1, e2, e3⟩ := worlds_calls drv w
  have hQ : same_slots free queued locked (wait_world drv w).dev (query_world drv w).dev :=
    hq.result_query (wait_world drv w).dev (waited_request drv w)
  have hF : same_slots free queued locked (query_world drv w).dev (fetch_world drv w).dev :=
    hq.buffer_fetch (query_world drv w).dev (waited_request drv w)
  refine ⟨hrun, ?_⟩
  rcases hcase with ⟨h1, hp, hw⟩ | ⟨h1, hp, hw, hb⟩ | ⟨h1, hp, hw | hw⟩
  · have hW : same_slots free queued locked w.dev (wait_world drv w).dev :=
      hq.wait_failed w.dev 500 h1
    rw [hw]
    refine ⟨hW.1.trans hf, Or.inr ⟨by rw [hp]; simp, hW.2.2, hW.2.1⟩, [c1], e1, ?_⟩
    intro c hc hfill
    simp only [List.mem_singleton] at hc
    subst hc
    rw [n1] at hfill
    exact absurd hfill (by simp)
  · have hW : free (wait_world drv w).dev = free w.dev ∧
        queued (wait_world drv w).dev + 1 = queued w.dev ∧
        locked (wait_world drv w).dev = locked w.dev + 1 := hq.wait_completed w.dev 500 h1
    rw [hw]
    refine ⟨?_, Or.inl ⟨hp, ⟨_, hb⟩, ?_, ?_⟩, [c1, c2, c3,
      Call.buffer_new_wrapped_full ⟨waited_request drv w⟩], ?_, ?_⟩
    · show free (fetch_world drv w).dev = 0
      rw [hF.1, hQ.1, hW.1, hf]
    · show locked (fetch_world drv w).dev = locked w.dev + 1
      rw [hF.2.2, hQ.2.2, hW.2.2]
    · show queued (fetch_world drv w).dev + 1 = queued w.dev
      rw [hF.2.1, hQ.2.1, hW.2.1]
    · show (fetch_world drv w).calls ++ [Call.buffer_new_wrapped_full ⟨waited_request drv w⟩] = _
      rw [e3]
      simp
    · intro c hc hfill
      simp only [List.mem_cons, List.mem_singleton, List.not_mem_nil, or_false] at hc
      rcases hc with rfl | rfl | rfl | rfl
      · rw [n1] at hfill; exact absurd hfill (by simp)
      · rw [n2] at hfill; exact absurd hfill (by simp)
      · rw [n3] at hfill; exact absurd hfill (by simp)
      · exact absurd hfill (by simp [Call.is_fill])
  · have hW : free (wait_world drv w).dev = free w.dev ∧
        queued (wait_world drv w).dev + 1 = queued w.dev ∧
        locked (wait_world drv w).dev = locked w.dev + 1 := hq.wait_completed w.dev 500 h1
    have hf2 : free (query_world drv w).dev = 0 := by rw [hQ.1, hW.1, hf]
    have hl2 : locked (query_world drv w).dev = locked w.dev + 1 := by rw [hQ.2.2, hW.2.2]
    have hq2 : queued (query_world drv w).dev + 1 = queued w.dev := by rw [hQ.2.1, hW.2.1]
    obtain ⟨r1, r2, r3, r4⟩ := release_bounded hq ⟨waited_request drv w⟩ (query_world drv w) hf2
      (by omega)
    rw [hw]
    refine ⟨r2, Or.inr ⟨hp, by omega, by omega⟩, _, by rw [r1, e2, List.append_assoc], ?_⟩
    intro c hc hfill
    simp only [List.mem_append, List.mem_cons, List.mem_singleton, List.not_mem_nil,
      or_false] at hc
    rcases hc with (rfl | rfl) | rfl | rfl
    · rw [n1] at hfill; exact absurd hfill (by simp)
    · rw [n2] at hfill; exact absurd hfill (by simp)
    · exact absurd hfill (by simp [Call.is_fill])
    · rfl
  · have hW : free (wait_world drv w).dev = free w.dev ∧
        queued (wait_world drv w).dev + 1 = queued w.dev ∧
        locked (wait_world drv w).dev = locked w.dev + 1 := hq.wait_completed w.dev 500 h1
    have hf2 : free (fetch_world drv w).dev = 0 := by rw [hF.1, hQ.1, hW.1, hf]
    have hl2 : locked (fetch_world drv w).dev = locked w.dev + 1 := by
      rw [hF.2.2, hQ.2.2, hW.2.2]
    have hq2 : queued (fetch_world drv w).dev + 1 = queued w.dev := by
      rw [hF.2.1, hQ.2.1, hW.2.1]
    obtain ⟨r1, r2, r3, r4⟩ := release_bounded hq ⟨waited_request drv w⟩ (fetch_world drv w) hf2
      (by omega)
    rw [hw]
    refine ⟨r2, Or.inr ⟨hp, by omega, by omega⟩, _, by rw [r1, e3, List.append_assoc], ?_⟩
    intro c hc hfill
    simp only [List.mem_append, List.mem_cons, List.mem_singleton, List.not_mem_nil,
      or_false] at hc
    rcases hc with (rfl | rfl | rfl) | rfl | rfl
    · rw [n1] at hfill; exact absurd hfill (by simp)
    · rw [n2] at hfill; exact absurd hfill (by simp)
    · rw [n3] at hfill; exact absurd hfill (by simp)
    · exact absurd hfill (by simp [Call.is_fill])
    · rfl

/-- One operation of a session keeps a saturated queue saturated, and every fill
request it makes is accepted. -/
theorem session_step_saturated (hq : bounded_queue drv free queued locked) (N fuel : Nat)
    (s s1 : Session σ) (op : QueueOp) (hs : saturated free queued locked N s)
    (h : session_step drv fuel s op = some s1) :
    saturated free queued locked N s1 ∧
    ∃ l, s1.w.calls = s.w.calls ++ l ∧
      ∀ c ∈ l, c.is_fill = true → c = Call.ImageRequestSingle TDMR_ERROR.DMR_NO_ERROR := by
  obtain ⟨hrun, hf, hl, hn⟩ := hs
  cases op with
  | pull buf =>
    unfold session_step at h
    simp only at h
    rw [create_running drv fuel s.src buf s.w hrun] at h
    simp only at h
    obtain ⟨g1, g2, g3, g4⟩ := create_wait_bounded hq s.src buf s.w hf
    split at h
    · exact absurd h (by simp)
    · simp only [Option.some.injEq] at h
      subst h
      refine ⟨⟨g1.trans hrun, g2, ?_, ?_⟩, g4⟩
      · rcases g3 with ⟨hp, ⟨hd, hb⟩, k1, k2⟩ | ⟨hp, k1, k2⟩
        · simp only [hp, if_true, hb, Option.toList, List.length_append, List.length_singleton]
          omega
        · simp only [hp, if_false]
          omega
      · rcases g3 with ⟨hp, _, k1, k2⟩ | ⟨hp, k1, k2⟩
        · simp only []
          omega
        · simp only []
          omega
  | release i =>
    unfold session_step at h
    simp only at h
    cases hi : s.held[i]? with
    | none =>
      rw [hi] at h
      simp only [Option.some.injEq] at h
      subst h
      exact ⟨⟨hrun, hf, hl, hn⟩, [], by simp, by simp⟩
    | some info =>
      rw [hi] at h
      simp only [Option.some.injEq] at h
      subst h
      obtain ⟨hlt, _⟩ := List.getElem?_eq_some.mp hi
      obtain ⟨r1, r2, r3, r4⟩ := release_bounded hq info s.w hf (by omega)
      refine ⟨⟨hrun, r2, ?_, ?_⟩, _, r1, ?_⟩
      · simp only [List.length_eraseIdx_of_lt hlt]
        omega
      · simp only []
        omega
      · intro c hc hfill
        simp only [List.mem_cons, List.mem_singleton, List.not_mem_nil, or_false] at hc
        rcases hc with rfl | rfl
        · exact absurd hfill (by simp [Call.is_fill])
        · rfl

/-- Every state of a session that starts saturated is saturated, and every fill
request made on the way to it was accepted. -/
theorem session_states_saturated (hq : bounded_queue drv free queued locked) (N fuel : Nat)
    (ops : List QueueOp) :
    ∀ (s : Session σ), saturated free queued locked N s →
      ∀ s1 ∈ session_states drv fuel ops s,
        saturated free queued locked N s1 ∧
        ∃ l, s1.w.calls = s.w.calls ++ l ∧
          ∀ c ∈ l, c.is_fill = true → c = Call.ImageRequestSingle TDMR_ERROR.DMR_NO_ERROR := by
  induction ops with
  | nil => intro s _ s1 h1; simp [session_states] at h1
  | cons op ops ih =>
    intro s hs s1 h1
    unfold session_states at h1
    cases hstep : session_step drv fuel s op with
    | none => rw [hstep] at h1; simp at h1
    | some s2 =>
      rw [hstep] at h1
      simp only [List.mem_cons] at h1
      obtain ⟨hs2, l2, hc2, hl2⟩ := session_step_saturated hq N fuel s s2 op hs hstep
      rcases h1 with rfl | h1
      · exact ⟨hs2, l2, hc2, hl2⟩
      · obtain ⟨hs3, l3, hc3, hl3⟩ := ih s2 hs2 s1 h1
        refine ⟨hs3, l2 ++ l3, by rw [hc3, hc2, List.append_assoc], ?_⟩
        intro c hc
        simp only [List.mem_append] at hc
        rcases hc with hc | hc
        · exact hl2 c hc
        · exact hl3 c hc

end queue

/-- C26: at a device with a bounded request queue, an acquisition start entered
with nothing locked and `N` slots free or queued returns, given fuel for the free
slots and one more request, with the priming ended by
`DEV_NO_FREE_REQUEST_AVAILABLE`, no slot free and all `N` queued. From a state in
which the acquisition runs, no slot is free, the locked slots are those of the
held buffers and `N` slots are queued or locked, every sequence of pulls and
releases keeps, after each operation that returns, no slot free and `N` slots
queued or locked, a failed pull having released its request inside
`gst_impactacquiresrc_create` and a delivered frame holding its slot until its
release runs; every fill request made on the way, each of them made by
`release_frame_buffer`, is accepted. -/
theorem queue_stays_saturated (σ : Type) (drv : Driver σ) (free queued locked : σ → Nat)
    (hq : bounded_queue drv free queued locked) (N fuel : Nat) :
    (∀ (src : GstImpactAcquireSrc) (w : World σ) (k : Nat),
      src.boAcquisitionRunning = false → locked w.dev = 0 → free w.dev + queued w.dev = N →
        ∃ (b : Bool) (src1 : GstImpactAcquireSrc) (w1 : World σ) (l : List Call)
            (res : TDMR_ERROR),
          gst_impactacquiresrc_start_acquisition drv (free w.dev + 1 + k) src w
            = some (b, src1, w1) ∧
          new_calls w w1 = l ++ [Call.ImageRequestSingle TDMR_ERROR.DEV_NO_FREE_REQUEST_AVAILABLE,
            Call.AcquisitionStart res] ∧
          free w1.dev = 0 ∧ queued w1.dev = N ∧ locked w1.dev = 0 ∧
          (b = true → saturated free queued locked N ⟨src1, w1, []⟩)) ∧
    (∀ (ops : List QueueOp) (s : Session σ), saturated free queued locked N s →
      ∀ s1 ∈ session_states drv fuel ops s,
        s1.src.boAcquisitionRunning = true ∧
        free s1.w.dev = 0 ∧ queued s1.w.dev + locked s1.w.dev = N ∧
        locked s1.w.dev = s1.held.length ∧
        ∀ c ∈ new_calls s.w s1.w, c.is_fill = true →
          c = Call.ImageRequestSingle TDMR_ERROR.DMR_NO_ERROR) := by
  constructor
  · intro src w k hrun hl hn
    obtain ⟨b, src1, w1, l0, res, hst, hc, _, g1, g2, g3, hok, hfail⟩ :=
      start_acquisition_bounded hq src w k
    refine ⟨b, src1, w1,
      l0 ++ List.replicate (free w.dev) (Call.ImageRequestSingle TDMR_ERROR.DMR_NO_ERROR), res, hst,
      new_calls_append w w1 _ (by rw [hc]; simp only [List.append_assoc]), g1, by omega,
      by omega, ?_⟩
    intro hb
    have hres : res = TDMR_ERROR.DMR_NO_ERROR := by
      by_contra hne
      have := (hfail hne).1
      rw [hb, hrun] at this
      exact absurd this (by simp)
    have hs1 := (hok hres).2
    refine ⟨by rw [hs1], g1, by simp [g3, hl], by simp only []; omega⟩
  · intro ops s hs s1 h1
    obtain ⟨⟨a1, a2, a3, a4⟩, l, hc, hl⟩ := session_states_saturated hq N fuel ops s hs s1 h1
    refine ⟨a1, a2, a4, a3, ?_⟩
    rw [new_calls_append s.w s1.w l hc]
    exact hl

/-- C26 at the `Bounded` device with two slots: the start fills both; then a frame
is delivered, a bad frame is released inside the pull, the delivered frame is
released, and a wait times out; no slot is free after any of them. -/
theorem queue_stays_saturated_witness :
    (gst_impactacquiresrc_start_acquisition bounded 3 gst_impactacquiresrc_init
        (bounded_world 2 [good_frame 0 1000 64, bad_frame 1])).map
      (fun t => (t.1, t.2.2.dev.free, t.2.2.dev.queued, t.2.2.dev.locked)) = some (true, 0, 2, 0) ∧
    (session_states bounded 0
        [QueueOp.pull none, QueueOp.pull (some ⟨7, 7, 0, 7, none, 3, 4⟩), QueueOp.release 0,
          QueueOp.pull none]
        ⟨{ gst_impactacquiresrc_init with boAcquisitionRunning := true },
          ⟨⟨0, 2, 0, [good_frame 0 1000 64, bad_frame 1],
            (TDMR_ERROR.DMR_NO_ERROR, TRequestResult.rrOK, TDMR_ERROR.DMR_NO_ERROR, ⟨0, 0, 0⟩)⟩, []⟩,
          []⟩).map
      (fun s => (s.w.dev.free, s.w.dev.queued, s.w.dev.locked, s.held.length))
      = [(0, 1, 1, 1), (0, 1, 1, 1), (0, 2, 0, 0), (0, 2, 0, 0)] ∧
    (∀ s1 ∈ session_states bounded 0
        [QueueOp.pull none, QueueOp.pull (some ⟨7, 7, 0, 7, none, 3, 4⟩), QueueOp.release 0,
          QueueOp.pull none]
        ⟨{ gst_impactacquiresrc_init with boAcquisitionRunning := true },
          ⟨⟨0, 2, 0, [good_frame 0 1000 64, bad_frame 1],
            (TDMR_ERROR.DMR_NO_ERROR, TRequestResult.rrOK, TDMR_ERROR.DMR_NO_ERROR, ⟨0, 0, 0⟩)⟩, []⟩,
          []⟩,
      s1.w.dev.free = 0 ∧ s1.w.dev.queued + s1.w.dev.locked = 2) :=
  ⟨rfl, rfl, fun s1 h1 =>
    have t := (queue_stays_saturated Bounded bounded (fun s => s.free) (fun s => s.queued)
      (fun s => s.locked) bounded_is_bounded_queue 2 0).2
      [QueueOp.pull none, QueueOp.pull (some ⟨7, 7, 0, 7, none, 3, 4⟩), QueueOp.release 0,
        QueueOp.pull none]
      ⟨{ gst_impactacquiresrc_init with boAcquisitionRunning := true },
        ⟨⟨0, 2, 0, [good_frame 0 1000 64, bad_frame 1],
          (TDMR_ERROR.DMR_NO_ERROR, TRequestResult.rrOK, TDMR_ERROR.DMR_NO_ERROR, ⟨0, 0, 0⟩)⟩, []⟩,
        []⟩
      ⟨rfl, rfl, rfl, rfl⟩ s1 h1
    ⟨t.2.1, t.2.2.1⟩⟩

end ImpactAcquire
